import Mathlib

/-!
Verification of the simplisafe-rf repository (SimpliSafe RF protocol
re-implementation).  The definitions below are a shallow embedding of the
Python sources:

* `SimpliSafe.py`   — serial-number formats, the `Message` class hierarchy,
  `Message.factory` and `Message.__bytes__`;
* `RFUtils.py`      — the standalone demodulator callback `_recv_cbf`;
* `simplisafe/pigpio.py` — `Transceiver._listen_cbf` and `Transceiver.decode`;
* `simplisafe/devices.py` — sequence counters, `Sensor._send`, and the
  `BaseStation` state machine (`_trip`, `_alarm`, `_disarm`,
  `_cancel_countdown`, `_countdown`, `_process_msg`).

Bytes are modelled as `Nat` (the Python sources only ever build byte values
below 256), byte strings and character strings as `List Nat` (ASCII codes).
Python exceptions are modelled by the `PyErr` type together with the
`Except` monad; `except ValueError` clauses catch exactly the constructors
for which `PyErr.isValueError` holds (Python's `InvalidMessageBytesError`
and `UnicodeDecodeError` are `ValueError` subclasses, while
`NotImplementedError`, `IndexError`, `AttributeError` and `NameError` are
not).
-/

/-- Python exception kinds relevant to the embedded code. -/
inductive PyErr where
  /-- `InvalidMessageBytesError` (a `ValueError` subclass). -/
  | ivb : PyErr
  /-- plain `ValueError` (including enum-construction failures and
  `UnicodeDecodeError`). -/
  | valueErr : PyErr
  /-- the `ValueError` raised by the `Message.checksum` setter on a
  checksum mismatch. -/
  | chkErr : PyErr
  /-- `NotImplementedError`. -/
  | notImpl : PyErr
  /-- `IndexError`. -/
  | indexErr : PyErr
  /-- `AttributeError`. -/
  | attrErr : PyErr
  /-- `NameError`. -/
  | nameErr : PyErr
deriving DecidableEq, Repr

/-- Equality of `Except` results is decidable (needed so witnesses can be
checked by `decide`). -/
instance {e a : Type} [DecidableEq e] [DecidableEq a] :
    DecidableEq (Except e a) := fun x y =>
  match x, y with
  | .ok u, .ok v =>
    if h : u = v then .isTrue (by simp [h]) else .isFalse (by simp [h])
  | .error u, .error v =>
    if h : u = v then .isTrue (by simp [h]) else .isFalse (by simp [h])
  | .ok _, .error _ => .isFalse (by simp)
  | .error _, .ok _ => .isFalse (by simp)

/-- Which exceptions an `except ValueError:` clause catches. -/
def PyErr.isValueError : PyErr → Bool
  | .ivb => true
  | .valueErr => true
  | .chkErr => true
  | _ => false

/-- `try a except ValueError: b` — run `a`, and on a `ValueError`
(or subclass) run `b` instead; other exceptions propagate. -/
def catchVE {α : Type} (a : Except PyErr α) (b : Unit → Except PyErr α) :
    Except PyErr α :=
  match a with
  | .error e => if e.isValueError then b () else .error e
  | .ok v => .ok v

/-- Python list/bytes indexing `l[i]` for `i ≥ 0`: raises `IndexError`
when out of range. -/
def pyIdx (l : List Nat) (i : Nat) : Except PyErr Nat :=
  match l.get? i with
  | some v => .ok v
  | none => .error .indexErr

/-- Python `l[-1]`: the last element, `IndexError` on an empty list. -/
def pyLast (l : List Nat) : Except PyErr Nat :=
  match l.getLast? with
  | some v => .ok v
  | none => .error .indexErr

/-- Python slice `l[:i]` where `i` may be negative (as produced by
`str.find`, which returns `-1` on failure): a negative bound counts from
the end of the list, clamped at zero. -/
def pySliceTo (l : List Nat) (i : Int) : List Nat :=
  if i < 0 then l.take ((l.length : Int) + i).toNat else l.take i.toNat

/-- Keep the last `n` elements of a list (Python `l[-n:]`). -/
def takeLast {α : Type} (n : Nat) (l : List α) : List α :=
  l.drop (l.length - n)

/-- Format a nibble as Python `"{:X}"` does: an ASCII code in
`0-9`, `A-F` (uppercase). -/
def hexChar (n : Nat) : Nat :=
  if n < 10 then 0x30 + n else 0x37 + n

/-- Python `int(c, 16)` on a single character: hexadecimal digit value,
accepting both cases, `ValueError` otherwise. -/
def hexCharVal (c : Nat) : Except PyErr Nat :=
  if 0x30 ≤ c ∧ c ≤ 0x39 then .ok (c - 0x30)
  else if 0x41 ≤ c ∧ c ≤ 0x46 then .ok (c - 0x37)
  else if 0x61 ≤ c ∧ c ≤ 0x66 then .ok (c - 0x57)
  else .error .valueErr

/-- Uppercase a hexadecimal digit character (used to state the HEX
round-trip: `unpack` always formats uppercase). -/
def upperHexChar (c : Nat) : Nat :=
  if 0x61 ≤ c ∧ c ≤ 0x66 then c - 0x20 else c

/-- Whether a character is a hexadecimal digit (the domain of
`int(c, 16)`). -/
def isHexDigitCode (c : Nat) : Bool :=
  (0x30 ≤ c && c ≤ 0x39) || (0x41 ≤ c && c ≤ 0x46) || (0x61 ≤ c && c ≤ 0x66)

/-! ## `SimpliSafe.SerialNumberFormat` -/

namespace SerialNumberFormat

/-- `pack(ASCII_4B5C, s, hb, lb)` from `SimpliSafe.py`: five 6-bit
character codes (`ord(c) - 0x30`, missing characters padded with the
blank code `0x3F`) plus two flag bits packed into 4 bytes. -/
def packAscii (s : List Nat) (hb lb : Bool) : List Nat :=
  let b : Nat → Nat := fun i => if i < s.length then s.getD i 0 - 0x30 else 0x3F
  [ ((b 1 &&& 0x0F) <<< 4) ||| (b 0 &&& 0xF),
    ((b 3 &&& 0x0F) <<< 4) ||| (b 2 &&& 0xF),
    ((b 1 &&& 0x30) <<< 2) ||| (b 0 &&& 0x30) ||| (b 4 &&& 0x0F),
    ((if hb then 1 else 0) <<< 7) ||| ((if lb then 1 else 0) <<< 6) |||
      (b 4 &&& 0x30) ||| ((b 3 &&& 0x30) >>> 2) ||| ((b 2 &&& 0x30) >>> 4) ]

/-- The decoded-string step of `unpack(ASCII_4B5C, ...)`: characters are
`code + 0x30`, and the blank code `0x3F` terminates the string. -/
def snFromCodes (codes : List Nat) : List Nat :=
  (codes.takeWhile (fun c => c ≠ 0x3F)).map (fun c => c + 0x30)

/-- `unpack(ASCII_4B5C, buffer)` from `SimpliSafe.py`. -/
def unpackAscii (buffer : List Nat) :
    Except PyErr (List Nat × Bool × Bool) :=
  if buffer.length < 4 then .error .valueErr
  else
    let u0 := buffer.getD 0 0
    let u1 := buffer.getD 1 0
    let u2 := buffer.getD 2 0
    let u3 := buffer.getD 3 0
    let codes :=
      [ ((u2 >>> 0) &&& 0x30) ||| (u0 &&& 0xF),
        ((u2 >>> 2) &&& 0x30) ||| (u0 >>> 4),
        ((u3 <<< 4) &&& 0x30) ||| (u1 &&& 0xF),
        ((u3 <<< 2) &&& 0x30) ||| (u1 >>> 4),
        ((u3 <<< 0) &&& 0x30) ||| (u2 &&& 0xF) ]
    .ok (snFromCodes codes, u3 &&& 0x80 ≠ 0, u3 &&& 0x40 ≠ 0)

/-- `pack(HEX_5B6C, s)` from `SimpliSafe.py`: six hex characters packed
into 5 bytes (the sixth nibble becomes the high nibble of byte 3).
Indexing `s[5]` raises `IndexError` on short strings; `int(c, 16)`
raises `ValueError` on non-hex characters. -/
def packHex (s : List Nat) : Except PyErr (List Nat) := do
  let h0 ← hexCharVal (← pyIdx s 0)
  let h1 ← hexCharVal (← pyIdx s 1)
  let h2 ← hexCharVal (← pyIdx s 2)
  let h3 ← hexCharVal (← pyIdx s 3)
  let h4 ← hexCharVal (← pyIdx s 4)
  let h5 ← hexCharVal (← pyIdx s 5)
  pure [h0, h1, h2, (h5 <<< 4) + h3, h4]

/-- `unpack(HEX_5B6C, buffer)` from `SimpliSafe.py`. -/
def unpackHex (buffer : List Nat) : Except PyErr (List Nat) :=
  if buffer.length < 5 then .error .valueErr
  else
    .ok [ hexChar (buffer.getD 0 0 &&& 0xF),
          hexChar (buffer.getD 1 0 &&& 0xF),
          hexChar (buffer.getD 2 0 &&& 0xF),
          hexChar (buffer.getD 3 0 &&& 0xF),
          hexChar (buffer.getD 4 0 &&& 0xF),
          hexChar (buffer.getD 3 0 >>> 4) ]

end SerialNumberFormat

/-! ## Sequence counters (`simplisafe/devices.py`) -/

/-- `AbstractDevice._inc`: `self.sequence += 1; self.sequence %= 0xF`.
Note the modulus in the source is `0xF = 15`, not 16. -/
def AbstractDevice.inc (sequence : Nat) : Nat :=
  (sequence + 1) % 0xF

/-- `Keypad._inc`: `self.sequence += 4; self.sequence %= 0xF`. -/
def Keypad.inc (sequence : Nat) : Nat :=
  (sequence + 4) % 0xF

/-! ## Demodulators

Bit symbols appended by the callbacks: `'0'`, `'1'`, and `'X'`
(out-of-tolerance duration).  Timestamps are 32-bit microsecond ticks; the
Python sources compare `dt = .../1000` (milliseconds, as a float) against
the literals 0.4, 0.6, 0.9, 1.1, 1.9 and 2.1.  We compare the microsecond
difference against 400, 600, 900, 1100, 1900 and 2100, which agrees with
the float comparisons for all integer tick differences. -/

inductive PSym where
  | zero : PSym
  | one : PSym
  | bad : PSym
deriving DecidableEq, Repr

/-- Inter-edge duration in microseconds, as computed by both callbacks:
`((tick << 32) - t)` on tick overflow (`t > tick`), else `tick - t`. -/
def edgeDt (t tick : Nat) : Int :=
  if t > tick then ((tick <<< 32 : Nat) : Int) - t else (tick : Int) - t

/-- Bit-symbol classification shared by both callbacks (for durations that
passed the end-of-transmission and preamble tests): `> 1.1` ms and
`0.6 < dt < 0.9` ms are invalid, `0.9 ≤ dt ≤ 1.1` ms is a `1`, the rest a
`0`. -/
def classifySym (dt : Int) : PSym :=
  if dt > 1100 then PSym.bad
  else if dt ≥ 900 then PSym.one
  else if dt > 600 then PSym.bad
  else PSym.zero

/-- Module-level state of `RFUtils.py` used by `_recv_cbf`. -/
structure RFUtilsState where
  done : Bool
  skip : Bool
  encoded : List PSym
  t : Option Nat
  startFlag0 : Bool
  startFlag1 : Bool
  syncBuffer : List PSym
deriving DecidableEq, Repr

namespace RFUtils

/-- `RFUtils._recv_cbf(gpio, level, tick)`: one GPIO edge of the
standalone demodulator.  (The `pi.set_glitch_filter`/`pi.stop` calls in
the end-of-transmission branch only affect the GPIO driver and are not
part of the decoding state.) -/
def recvCbf (s : RFUtilsState) (level : Nat) (tick : Nat) : RFUtilsState :=
  match s.t with
  | none => { s with t := some tick }
  | some t0 =>
    if s.skip then { s with skip := false }
    else
      let dt := edgeDt t0 tick
      if dt < 400 then { s with skip := true }
      else if dt > 2100 then
        if s.startFlag1 then { s with done := true }
        else { s with t := some tick, startFlag0 := false }
      else
        let s := { s with t := some tick }
        if dt > 1900 then
          if s.syncBuffer = [PSym.one, PSym.one, PSym.one, PSym.one] then
            if level = 1 then { s with startFlag0 := true, startFlag1 := false }
            else if s.startFlag0 then
              { s with startFlag1 := true, encoded := [] }
            else s
          else { s with startFlag0 := false }
        else
          let bit := classifySym dt
          let enc := s.encoded ++ [bit]
          -- source: `sync_buffer += encoded; sync_buffer = sync_buffer[-4:]`
          -- (the whole `encoded` string is appended, then truncated)
          let sb := takeLast 4 (s.syncBuffer ++ enc)
          if s.startFlag1 then { s with encoded := enc, syncBuffer := sb }
          else { s with encoded := [], syncBuffer := sb }

end RFUtils

/-- Receive state of `simplisafe.pigpio.Transceiver` used by
`_listen_cbf`. -/
structure ListenState where
  rxDone : Bool
  rxBuffer : List PSym
  rxT : Option Nat
  rxPreambleLow : Bool
  rxPreambleHigh : Bool
  rxSyncBuffer : List PSym
deriving DecidableEq, Repr

namespace Transceiver

/-- `Transceiver._listen_cbf(gpio, level, tick)` from
`simplisafe/pigpio.py`.  Note: unlike `RFUtils._recv_cbf`, this callback
has no sub-0.4 ms glitch branch (the constructor instead installs a
400 µs driver-level glitch filter); durations below 0.6 ms that reach the
callback are classified as bit `0`. -/
def listenCbf (s : ListenState) (level : Nat) (tick : Nat) : ListenState :=
  if s.rxDone then s
  else
    match s.rxT with
    | none => { s with rxT := some tick }
    | some t0 =>
      let dt := edgeDt t0 tick
      let s := { s with rxT := some tick }
      if dt > 2100 then
        if s.rxPreambleHigh then { s with rxDone := true }
        else { s with rxPreambleLow := false }
      else if dt > 1900 then
        if s.rxSyncBuffer = [PSym.one, PSym.one, PSym.one, PSym.one] then
          if level = 1 then
            { s with rxPreambleLow := true, rxPreambleHigh := false }
          else if s.rxPreambleLow then
            { s with rxPreambleHigh := true, rxBuffer := [] }
          else s
        else { s with rxPreambleLow := false }
      else
        let bit := classifySym dt
        let sb := takeLast 4 (s.rxSyncBuffer ++ [bit])
        if s.rxPreambleHigh then
          { s with rxBuffer := s.rxBuffer ++ [bit], rxSyncBuffer := sb }
        else { s with rxBuffer := [], rxSyncBuffer := sb }

end Transceiver

/-! ## `Transceiver.decode` (`simplisafe/pigpio.py`) -/

/-- Error cases of `Transceiver.decode` (each raised as a
`DecodeError`). -/
inductive DecodeErr where
  | badPulseWidth : DecodeErr
  | invalidOrigin : DecodeErr
  | oddByteCount : DecodeErr
deriving DecidableEq, Repr

/-- Chunk-splitting worker, structurally recursive on a fuel argument so
that the kernel can evaluate it (the fuel is the list length, which
bounds the number of chunks). -/
def listChunksAux {α : Type} (n : Nat) : Nat → List α → List (List α)
  | _, [] => []
  | 0, _ :: _ => []
  | fuel + 1, a :: tl =>
    if n = 0 then []
    else (a :: tl.take (n - 1)) :: listChunksAux n fuel (tl.drop (n - 1))

/-- Split a list into chunks of (at most) `n` elements, as
`range(0, len(l), k)` slicing does. -/
def listChunks {α : Type} (n : Nat) (l : List α) : List (List α) :=
  listChunksAux n l.length l

/-- Numeric value of a bit symbol (`'0'` or `'1'`; `decode` only reaches
this after rejecting frames containing `'X'`, for which we give the
junk value 0). -/
def symVal : PSym → Nat
  | PSym.zero => 0
  | PSym.one => 1
  | PSym.bad => 0

/-- `int(bits[i:i+4][::-1], 2)`: the bits of one nibble are stored
LSB-first, so the chunk is reversed before reading it as binary.  Partial
trailing chunks are zero-filled. -/
def nibbleVal (chunk : List PSym) : Nat :=
  chunk.reverse.foldl (fun a b => 2 * a + symVal b) 0

/-- The `raw_hex` string built by `Transceiver.decode`: each 4-bit chunk
becomes one uppercase hexadecimal character. -/
def rawHexOf (bits : List PSym) : List Nat :=
  (listChunks 4 bits).map (fun c => hexChar (nibbleVal c))

/-- Python `str.find(pat)` helper: index of the first occurrence of
`pat`, scanning left to right. -/
def strFindAux (l pat : List Nat) (i : Nat) : Option Nat :=
  match l with
  | [] => if pat.isPrefixOf [] then some i else none
  | _ :: tl =>
    if pat.isPrefixOf l then some i else strFindAux tl pat (i + 1)

/-- Python `str.find(pat)`: first index of `pat`, or `-1`. -/
def strFind (l pat : List Nat) : Int :=
  match strFindAux l pat 0 with
  | some i => (i : Int)
  | none => -1

/-- The nibble-swap step of `decode`: each pair of hex characters becomes
the byte `int(u[i+1] + u[i], 16)`.  The characters of `raw_hex` are
always valid hex digits, so `hexCharVal` cannot fail here; `swapVal`
extracts its value (junk 0 otherwise). -/
def swapVal (c : Nat) : Nat :=
  match hexCharVal c with
  | .ok v => v
  | .error _ => 0

/-- Nibble-swapped bytes of an (even-length) hex string. -/
def swapBytes (unswapped : List Nat) : List Nat :=
  (listChunks 2 unswapped).map
    (fun p => swapVal (p.getD 1 0) * 16 + swapVal (p.getD 0 0))

namespace Transceiver

/-- `Transceiver.decode(bits)` from `simplisafe/pigpio.py`.  The
`DeviceType` values (from `simplisafe/__init__.py`) are `0..10` with
`BASE_STATION = 0`; the `except:` around the origin lookup also catches
the `IndexError` of `raw_hex[16]` on short strings. -/
def decode (bits : List PSym) : Except DecodeErr (List Nat) :=
  if (bits.count PSym.bad) ≠ 0 then .error .badPulseWidth
  else
    let rawHex := rawHexOf bits
    match rawHex.get? 16 with
    | none => .error .invalidOrigin
    | some c =>
      let origin := swapVal c
      if origin > 10 then .error .invalidOrigin
      else
        let unswapped :=
          if origin = 0 then rawHex.dropLast.dropLast
          else pySliceTo rawHex (strFind rawHex (0x46 :: rawHex.take 4))
        if unswapped.length % 2 = 1 then .error .oddByteCount
        else .ok (swapBytes unswapped)

end Transceiver

/-! ## `Sensor._send` (`simplisafe/devices.py`)

Sensor messages are modelled by an abstract identifier (`Nat`); the claim
concerns only how many times a message is handed to the transceiver and
what happens to the retransmission timer. -/

/-- A `threading.Timer` object: constructing one does not start it; only
`.start()` makes it run (and eventually fire). -/
structure SensorTimer where
  interval : Nat
  msgArg : Nat
  started : Bool
deriving DecidableEq, Repr

/-- The retransmission state of a `Sensor` (`_current_msg`, `_t`,
`_tx_count`) plus its sequence counter. -/
structure SensorState where
  currentMsg : Option Nat
  timer : Option SensorTimer
  txCount : Nat
  sequence : Nat
deriving DecidableEq, Repr

namespace Sensor

/-- `Sensor._send(msg)` from `simplisafe/devices.py`.  Returns the list
of messages handed to `self.txr.send` and the new state, or the Python
exception raised.  Notes kept faithful to the source: the
`msg == self._current_msg` guard calls `self._t.cancel()` (an
`AttributeError` when `_t` is still `None`); in the `< 2` branch a
2-second `Timer` is constructed and assigned to `self._t`, but
`.start()` is never called on it; `_tx_count` is never incremented and
`_current_msg` is never assigned anywhere. -/
def sendStep (s : SensorState) (msg : Nat) :
    Except PyErr (List Nat × SensorState) := do
  let s ←
    if s.currentMsg = some msg then
      match s.timer with
      | none => Except.error PyErr.attrErr
      | some t =>
        Except.ok { s with timer := some { t with started := false },
                           txCount := 0,
                           sequence := AbstractDevice.inc s.sequence }
    else Except.ok s
  if s.txCount < 2 then
    -- `super()._send(msg)`: one `txr.send(msg)` plus `self._inc()`;
    -- then `self._t = Timer(2, self._send, [msg])` with no `.start()`
    Except.ok ([msg],
      { s with sequence := AbstractDevice.inc s.sequence,
               timer := some { interval := 2, msgArg := msg, started := false } })
  else
    Except.ok ([], { s with txCount := 0,
                            sequence := AbstractDevice.inc s.sequence })

end Sensor

/-! ## `BaseStation` state machine (`simplisafe/devices.py`)

The embedding covers the handlers the claims exercise: the
`KeypadAlarmPinRequest` branch of `_process_msg`, the motion/entry sensor
trip branches, and the helpers `_trip`, `_countdown`,
`_cancel_countdown`, `_alarm` and `_disarm`.  Host hooks
(`alarm()`, `start_siren()`, ...) are recorded as an output trace.
The message classes live in `simplisafe/messages.py`, which is not part
of the sources; messages are therefore modelled as plain events carrying
the fields the handlers read (spec-modelled). -/

/-- `simplisafe.ArmedState` (from `simplisafe/__init__.py`). -/
inductive ArmedSt where
  | off : ArmedSt
  | armedAway : ArmedSt
  | armedHome : ArmedSt
  | armingAway : ArmedSt
deriving DecidableEq, Repr

/-- The `_time_left_timer` attribute.  `BaseStation.__init__` never
assigns it (unlike `_siren_timer`), so reading it before a countdown
step has run raises `AttributeError`; `unset` models the missing
attribute, `noneVal` the value `None`, and `timer alive` a
`threading.Timer` with its `is_alive()` status. -/
inductive TimerAttr where
  | unset : TimerAttr
  | noneVal : TimerAttr
  | timer (alive : Bool) : TimerAttr
deriving DecidableEq, Repr

/-- Response kinds of `BaseStationKeypadAlarmPinResponse.ResponseType`
used by the disarm-PIN handler (spec-modelled: the class lives in the
missing `simplisafe/messages.py`; `DISARM` acknowledges a valid PIN,
`INVALID` rejects it). -/
inductive AlarmPinResp where
  | disarmResp : AlarmPinResp
  | invalidResp : AlarmPinResp
deriving DecidableEq, Repr

/-- Host hooks invoked and messages sent by the base station. -/
inductive Call where
  | sendAlarmPinResponse (kpSn : List Nat) (resp : AlarmPinResp) : Call
  | alarmHook : Call
  | armAwayHook : Call
  | armHomeHook : Call
  | disarmHook : Call
  | startSirenHook : Call
  | stopSirenHook : Call
deriving DecidableEq, Repr

/-- The settings the modelled handlers read (defaults from
`BaseStation.__init__`: entry delays 30/1, exit delay 45, siren
duration 5). -/
structure BSSettings where
  entryDelayAway : Nat
  entryDelayHome : Nat
  exitDelay : Nat
  sirenDuration : Nat
deriving DecidableEq, Repr

/-- An enrolled component as stored by `add_component`: note the setting
is stored under its enum value and the instant-trip flag under the
misspelled key `instat_trigger`. -/
structure BSComponent where
  ctype : Nat
  setting : Nat
  instatTrigger : Option Bool
deriving DecidableEq, Repr

/-- `c.get('instant_trip')` in `_process_msg`: the components dictionary
only ever receives the key `instat_trigger` (see `add_component`), so
this lookup always yields `None`. -/
def BSComponent.instantTrip (_ : BSComponent) : Option Bool := none

/-- The `BaseStation` state read and written by the modelled
handlers. -/
structure BSState where
  sequence : Nat
  masterPin : List Nat
  duressPin : Option (List Nat)
  pins : List (List Nat)
  components : List (List Nat × BSComponent)
  settings : BSSettings
  armed : ArmedSt
  timeLeft : Nat
  timeLeftTimer : TimerAttr
  sirenTimer : Option Bool
deriving DecidableEq, Repr

namespace BaseStation

/-- `BaseStation.is_armed_away`. -/
def isArmedAway (s : BSState) : Bool := s.armed = ArmedSt.armedAway

/-- `BaseStation.is_armed_home`. -/
def isArmedHome (s : BSState) : Bool := s.armed = ArmedSt.armedHome

/-- `BaseStation.is_armed`. -/
def isArmed (s : BSState) : Bool := isArmedAway s || isArmedHome s

/-- `BaseStation.is_arming`. -/
def isArming (s : BSState) : Bool := s.armed = ArmedSt.armingAway

/-- `BaseStation._cancel_countdown`: cancels a live countdown timer and
zeroes `_time_left`.  Reading `self._time_left_timer` raises
`AttributeError` when the attribute was never assigned. -/
def cancelCountdown (s : BSState) : Except PyErr BSState :=
  match s.timeLeftTimer with
  | TimerAttr.unset => Except.error PyErr.attrErr
  | TimerAttr.noneVal => Except.ok { s with timeLeft := 0 }
  | TimerAttr.timer _ =>
    Except.ok { s with timeLeftTimer := TimerAttr.timer false, timeLeft := 0 }

/-- `BaseStation._alarm(silent)`.  In the non-silent branch the source
reads `self._sirent_timer` (note the typo) both in the guard's second
conjunct and in the `.start()` call; that attribute never exists, so a
non-silent alarm raises `AttributeError` — after `start_siren()` when
`_siren_timer` was `None`/falsy, before it otherwise — and `self.alarm()`
is never reached.  The silent path completes and calls `alarm()`. -/
def alarm (silent : Bool) (s : BSState) :
    List Call × Except PyErr BSState :=
  match cancelCountdown s with
  | Except.error e => ([], Except.error e)
  | Except.ok s =>
    if silent then ([Call.alarmHook], Except.ok s)
    else
      match s.sirenTimer with
      | some _ => ([], Except.error PyErr.attrErr)
      | none => ([Call.startSirenHook], Except.error PyErr.attrErr)

/-- `BaseStation._disarm`: go to `OFF`, cancel a live siren timer, stop
the siren and notify the host. -/
def disarm (s : BSState) : List Call × BSState :=
  let s := { s with armed := ArmedSt.off }
  let s :=
    match s.sirenTimer with
    | some alive => if alive then { s with sirenTimer := some false } else s
    | none => s
  ([Call.stopSirenHook, Call.disarmHook], s)

/-- `BaseStation._countdown`: one tick of the 1 Hz countdown.  The
decrement branches construct and start a 1-second `Timer`, modelled as a
live `_time_left_timer`. -/
def countdown (s : BSState) : List Call × Except PyErr BSState :=
  if ¬ isArmed s ∧ ¬ isArming s then
    match cancelCountdown s with
    | Except.error e => ([], Except.error e)
    | Except.ok s => ([], Except.ok s)
  else if isArmed s then
    if s.timeLeft = 0 then alarm false s
    else ([], Except.ok { s with timeLeft := s.timeLeft - 1,
                                 timeLeftTimer := TimerAttr.timer true })
  else
    if s.timeLeft = 0 then
      ([Call.armAwayHook], Except.ok { s with armed := ArmedSt.armedAway })
    else ([], Except.ok { s with timeLeft := s.timeLeft - 1,
                                 timeLeftTimer := TimerAttr.timer true })

/-- `BaseStation._trip(trip_function, instant_trip)`.  Note the source
bug: both delay branches test `is_armed_away()`, so an armed-home trip
falls through with `_time_left` still 0 into `_countdown`, which
triggers the alarm immediately. -/
def trip (tripFunction : BSState → List Call × Except PyErr BSState)
    (instantTrip : Bool) (s : BSState) :
    List Call × Except PyErr BSState :=
  if instantTrip then tripFunction s
  else if s.timeLeft = 0 then
    let s :=
      if isArmedAway s then { s with timeLeft := s.settings.entryDelayAway }
      else if isArmedAway s then { s with timeLeft := s.settings.entryDelayHome }
      else s
    countdown s
  else ([], Except.ok s)

end BaseStation

/-- The incoming messages covered by the modelled `_process_msg`
branches (spec-modelled carriers for the classes in the missing
`simplisafe/messages.py`; the fields are exactly those the handlers
read).  `bskMessage` stands for any `BaseStationKeypadMessage`, which
the base station ignores. -/
inductive BSEvent where
  | bskMessage : BSEvent
  | keypadAlarmPinRequest (sn : List Nat) (pin : List Nat) : BSEvent
  | motionSensorMessage (sn : List Nat) (eventType : Nat) : BSEvent
  | entrySensorMessage (sn : List Nat) (eventType : Nat) : BSEvent
deriving DecidableEq, Repr

namespace BaseStation

/-- Association-list lookup for `self._components` (`msg.sn in
self._components` / `self._components.get(msg.sn)`). -/
def lookupComp (s : BSState) (sn : List Nat) : Option BSComponent :=
  (s.components.find? (fun p => p.1 = sn)).map (fun p => p.2)

/-- `BaseStation._process_msg(msg)` for the covered message kinds,
following `simplisafe/devices.py` line by line.  `MOTION = 0x02` and
`OPEN = 0x01` are the sensor event values; setting values are the enum
numerals (`ALARM_HOME_AND_AWAY = 1`, `ALARM_AWAY_ONLY = 2`,
`NO_ALARM_ALERT_ONLY = 64`).  In the alert-only branches the source
reads `self._alert`, an attribute that does not exist (the method is
named `alert`), so those branches raise `AttributeError`. -/
def processMsg (s : BSState) (e : BSEvent) :
    List Call × Except PyErr BSState :=
  match e with
  | BSEvent.bskMessage => ([], Except.ok s)
  | BSEvent.keypadAlarmPinRequest sn pin =>
    match lookupComp s sn with
    | none => ([], Except.ok s)
    | some _ =>
      if s.duressPin = some pin ∨ pin = s.masterPin ∨ s.pins.contains pin then
        -- `self._send(BaseStationKeypadAlarmPinResponse(.., DISARM))`
        let s1 := { s with sequence := AbstractDevice.inc s.sequence }
        let (cs2, s2) := disarm s1
        if s.duressPin = some pin then
          let (cs3, r3) := alarm true s2
          (Call.sendAlarmPinResponse sn AlarmPinResp.disarmResp :: cs2 ++ cs3, r3)
        else
          (Call.sendAlarmPinResponse sn AlarmPinResp.disarmResp :: cs2,
           Except.ok s2)
      else
        ([Call.sendAlarmPinResponse sn AlarmPinResp.invalidResp],
         Except.ok { s with sequence := AbstractDevice.inc s.sequence })
  | BSEvent.motionSensorMessage sn ev =>
    match lookupComp s sn with
    | none => ([], Except.ok s)
    | some c =>
      if ev = 0x02 then
        if (c.setting = 1 ∧ isArmed s) ∨ (c.setting = 2 ∧ isArmedAway s) then
          trip (alarm false) ((BSComponent.instantTrip c).getD false) s
        else if c.setting = 64 ∧ isArmed s then
          ([], Except.error PyErr.attrErr)  -- `self._alert` does not exist
        else ([], Except.ok s)
      else ([], Except.ok s)
  | BSEvent.entrySensorMessage sn ev =>
    match lookupComp s sn with
    | none => ([], Except.ok s)
    | some c =>
      if ev = 0x01 then
        if (c.setting = 1 ∧ isArmed s) ∨ (c.setting = 2 ∧ isArmedAway s) then
          trip (alarm false) ((BSComponent.instantTrip c).getD false) s
        else if c.setting = 64 ∧ isArmed s then
          ([], Except.error PyErr.attrErr)  -- `self._alert` does not exist
        else ([], Except.ok s)
      else ([], Except.ok s)

end BaseStation

/-! ## The message model (`SimpliSafe.py`)

The class hierarchy is embedded as one inductive type whose constructors
are the leaf classes (plus `base` for a plain `Message`, which
`Message.factory` returns when no subclass accepts the frame).  Families
of leaf classes that differ only in a class-level discriminator
(`AbstractKeypadSimpleRequest` subclasses, ...) are represented by a
kind enumeration; distinct Python classes correspond to distinct kind
values even when their `event_type` values coincide (the
Glassbreak/Smoke `0x6E` collision). -/

/-- The `AbstractKeypadSimpleRequest` subclasses, in definition order. -/
inductive KpSimpleReq where
  | extendedStatusRequest | testModeOn | testModeOff
  | removeComponentMenu | home | panicReq | away | off
  | enterMenu | exitMenu | changePinMenu | changePinConfirmMenu
  | addComponentMenu | removeComponentSelectMenu | addComponentLastTypeMenu
deriving DecidableEq, Repr

/-- Class-level `event_type` of each simple request. -/
def KpSimpleReq.event : KpSimpleReq → Nat
  | .extendedStatusRequest => 0x11
  | .testModeOn => 0x13
  | .testModeOff => 0x5E
  | .removeComponentMenu => 0x44
  | .home => 0x53
  | .panicReq => 0x54
  | .away => 0x56
  | .off => 0x5C
  | .enterMenu => 0x61
  | .exitMenu => 0x64
  | .changePinMenu => 0x71
  | .changePinConfirmMenu => 0x72
  | .addComponentMenu => 0x74
  | .removeComponentSelectMenu => 0x76
  | .addComponentLastTypeMenu => 0x77

/-- The `KeypadPinMessage` subclasses, in definition order. -/
inductive KpPinKind where
  | disarm | newPin | menuPin
deriving DecidableEq, Repr

/-- Class-level `event_type` of each PIN request. -/
def KpPinKind.event : KpPinKind → Nat
  | .disarm => 0x51
  | .newPin => 0x62
  | .menuPin => 0x66

/-- The `AbstractKeypadModifyComponentMenuRequest` subclasses, in
definition order.  Note `addGlassbreakSensor` and `addSmokeDetector`
share the `event_type` value `0x6E`. -/
inductive KpModifyKind where
  | removeComponentConfirm | addEntrySensor | addMotionSensor
  | addPanicButton | addKeychainRemote | addGlassbreakSensor
  | addSmokeDetector | addCoDetector | addFreezeSensor | addWaterSensor
deriving DecidableEq, Repr

/-- Class-level `event_type` of each modify-component request. -/
def KpModifyKind.event : KpModifyKind → Nat
  | .removeComponentConfirm => 0x67
  | .addEntrySensor => 0x69
  | .addMotionSensor => 0x6A
  | .addPanicButton => 0x6B
  | .addKeychainRemote => 0x6D
  | .addGlassbreakSensor => 0x6E
  | .addSmokeDetector => 0x6E
  | .addCoDetector => 0x78
  | .addFreezeSensor => 0x79
  | .addWaterSensor => 0x7A

/-- The `BaseStationKeypadExtendedStatusMessage` subclasses, in
definition order.  The message type comes from the Response/Update
traits. -/
inductive BskExtStatusKind where
  | response | update | remoteUpdate
deriving DecidableEq, Repr

/-- `msg_type` of each extended-status leaf (`RESPONSE = 1`,
`UPDATE = 5`). -/
def BskExtStatusKind.msgType : BskExtStatusKind → Nat
  | .response => 1
  | .update => 5
  | .remoteUpdate => 5

/-- `event_type` of each extended-status leaf. -/
def BskExtStatusKind.event : BskExtStatusKind → Nat
  | .response => 0x11
  | .update => 0x28
  | .remoteUpdate => 0x14

/-- The `AbstractBaseStationKeypadAddComponentSerialMenuResponse`
subclasses, in definition order (the Glassbreak/Smoke pair again shares
`0x6E`). -/
inductive BskAddSerialKind where
  | entry | motion | panicBtn | keychain | glassbreak | smoke
  | co | freeze | water
deriving DecidableEq, Repr

/-- `event_type` of each add-component-serial response. -/
def BskAddSerialKind.event : BskAddSerialKind → Nat
  | .entry => 0x69
  | .motion => 0x6A
  | .panicBtn => 0x6B
  | .keychain => 0x6D
  | .glassbreak => 0x6E
  | .smoke => 0x6E
  | .co => 0x78
  | .freeze => 0x79
  | .water => 0x7A

/-- The `AbstractBaseStationKeypadSimpleStatusMessage` subclasses, in
definition order. -/
inductive BskSimpleStatusKind where
  | testModeOnResponse | offResponse | testModeOffResponse
  | clearSensorError1 | clearSensorError2 | clearSensorError3
  | clearSensorError4
deriving DecidableEq, Repr

/-- `msg_type` of each simple status message. -/
def BskSimpleStatusKind.msgType : BskSimpleStatusKind → Nat
  | .testModeOnResponse => 1
  | .offResponse => 1
  | .testModeOffResponse => 1
  | _ => 5

/-- `event_type` of each simple status message. -/
def BskSimpleStatusKind.event : BskSimpleStatusKind → Nat
  | .testModeOnResponse => 0x13
  | .offResponse => 0x5C
  | .testModeOffResponse => 0x5E
  | .clearSensorError1 => 0x32
  | .clearSensorError2 => 0x35
  | .clearSensorError3 => 0x36
  | .clearSensorError4 => 0x37

/-- The `AbstractBaseStationKeypadSimpleMenuMessage` subclasses, in
definition order (all are responses). -/
inductive BskSimpleMenuKind where
  | exitMenuResponse | changePinResponse | changePinConfirmResponse
  | changeDialResponse | addComponentResponse | addComponentTypeResponse
deriving DecidableEq, Repr

/-- `event_type` of each simple menu response (`changeDialResponse`
models `BaseStationKeypadChangePrefixMenuResponse`). -/
def BskSimpleMenuKind.event : BskSimpleMenuKind → Nat
  | .exitMenuResponse => 0x64
  | .changePinResponse => 0x71
  | .changePinConfirmResponse => 0x72
  | .changeDialResponse => 0x73
  | .addComponentResponse => 0x74
  | .addComponentTypeResponse => 0x75

/-- The `AbstractBaseStationKeypadRemoveComponentScrollMenuResponse`
subclasses, in definition order. -/
inductive BskRemoveScrollKind where
  | entry | motion | panicBtn | keypad | keychain | glassbreak
  | smoke | co | freeze | water
deriving DecidableEq, Repr

/-- `event_type` of each remove-component scroll response. -/
def BskRemoveScrollKind.event : BskRemoveScrollKind → Nat
  | .entry => 0x47
  | .motion => 0x48
  | .panicBtn => 0x49
  | .keypad => 0x4A
  | .keychain => 0x4B
  | .glassbreak => 0x4C
  | .smoke => 0x4D
  | .co => 0x4E
  | .freeze => 0x4F
  | .water => 0x50

/-- Messages of the `SimpliSafe.py` hierarchy.  Serial numbers and PINs
are ASCII-code lists; PINs are stored as digit values 0-9 (a 4-digit
ASCII string in the source, bijectively).  `kpNewDialCode` models
`KeypadPrefixRequest`, whose only constructible instances carry a `None`
dialing code (a numeric code makes the constructor hit the undefined
`payload_body_suffix` name, a `NameError`). -/
inductive Msg where
  | base (plc : Nat) (sn payload footer : List Nat) : Msg
  | kpRemoveComponentScroll (sn : List Nat) (seq n : Nat) : Msg
  | kpPin (kind : KpPinKind) (sn : List Nat) (seq : Nat) (pin : List Nat) : Msg
  | kpSimple (kind : KpSimpleReq) (sn : List Nat) (seq : Nat) : Msg
  | kpNewDialCode (sn : List Nat) (seq : Nat) : Msg
  | kpModify (kind : KpModifyKind) (sn : List Nat) (seq : Nat)
      (csn : List Nat) : Msg
  | kpAddComponentType (sn : List Nat) (seq ctype : Nat) : Msg
  | keychainRemote (sn : List Nat) (seq ev : Nat) : Msg
  | motionSensor (sn : List Nat) (seq ev : Nat) : Msg
  | entrySensor (sn : List Nat) (seq ev : Nat) : Msg
  | bskExtStatus (kind : BskExtStatusKind) (kpSn : List Nat) (seq : Nat)
      (bsSn : List Nat) (flags armed ess tl : Nat) : Msg
  | bskStatusUpdate (kpSn : List Nat) (seq : Nat) (bsSn : List Nat)
      (flags : Nat) : Msg
  | bskDisarmPinResponse (valid : Bool) (kpSn : List Nat) (seq : Nat)
      (bsSn : List Nat) : Msg
  | bskMenuPinResponse (valid : Bool) (kpSn : List Nat) (seq : Nat) : Msg
  | bskHomeResponse (kpSn : List Nat) (seq : Nat) (bsSn : List Nat) : Msg
  | bskAwayResponse (kpSn : List Nat) (seq : Nat) (bsSn : List Nat) : Msg
  | bskOffRemoteUpdate (kpSn : List Nat) (seq : Nat) (bsSn : List Nat) : Msg
  | bskEnterMenuResponse (kpSn : List Nat) (seq : Nat) : Msg
  | bskNewDialCodeResponse (kpSn : List Nat) (seq : Nat) : Msg
  | bskRemoveComponentSelectResponse (kpSn : List Nat) (seq : Nat) : Msg
  | bskRemoveComponentConfirmResponse (kpSn : List Nat) (seq : Nat) : Msg
  | bskAddSerial (kind : BskAddSerialKind) (kpSn : List Nat) (seq : Nat)
      (alreadyAdded : Bool) : Msg
  | bskSimpleStatus (kind : BskSimpleStatusKind) (kpSn : List Nat)
      (seq : Nat) (bsSn : List Nat) : Msg
  | bskSimpleMenu (kind : BskSimpleMenuKind) (kpSn : List Nat)
      (seq : Nat) : Msg
  | bskRemoveScroll (kind : BskRemoveScrollKind) (kpSn : List Nat)
      (seq : Nat) (csn : List Nat) (leftArrow rightArrow : Bool) : Msg
  | bskEntrySensorUpdate (kpSn : List Nat) (seq : Nat) (bsSn : List Nat)
      (ese : Nat) : Msg
  | bskSensorErrorUpdate (kpSn : List Nat) (seq : Nat) (bsSn : List Nat)
      (n : Nat) (csn : List Nat) : Msg
deriving DecidableEq, Repr

namespace Msg

/-- `Message.PAYLOAD_LENGTHS`. -/
def payloadLengths : Nat → Nat
  | 0x00 => 7
  | 0x11 => 2
  | 0x22 => 3
  | 0x33 => 4
  | 0x66 => 7
  | _ => 0

/-- Whether a payload length code is a key of `PAYLOAD_LENGTHS`. -/
def plcValid (plc : Nat) : Bool :=
  plc = 0x00 ∨ plc = 0x11 ∨ plc = 0x22 ∨ plc = 0x33 ∨ plc = 0x66

/-- The class-level `plc` of each message. -/
def plcOf : Msg → Nat
  | base plc _ _ _ => plc
  | kpRemoveComponentScroll .. => 0x33
  | kpPin .. => 0x66
  | kpSimple .. => 0x22
  | kpNewDialCode .. => 0x66
  | kpModify .. => 0x66
  | kpAddComponentType .. => 0x33
  | keychainRemote .. => 0x11
  | motionSensor .. => 0x11
  | entrySensor .. => 0x11
  | bskExtStatus .. => 0x66
  | bskStatusUpdate .. => 0x33
  | bskDisarmPinResponse .. => 0x33
  | bskMenuPinResponse .. => 0x33
  | bskHomeResponse .. => 0x33
  | bskAwayResponse .. => 0x33
  | bskOffRemoteUpdate .. => 0x33
  | bskEnterMenuResponse .. => 0x33
  | bskNewDialCodeResponse .. => 0x33
  | bskRemoveComponentSelectResponse .. => 0x33
  | bskRemoveComponentConfirmResponse .. => 0x33
  | bskAddSerial .. => 0x33
  | bskSimpleStatus .. => 0x22
  | bskSimpleMenu .. => 0x22
  | bskRemoveScroll .. => 0x66
  | bskEntrySensorUpdate .. => 0x33
  | bskSensorErrorUpdate .. => 0x66

/-- The serial-number field (`self.sn`; the keypad serial for
base-station messages). -/
def snOf : Msg → List Nat
  | base _ sn _ _ => sn
  | kpRemoveComponentScroll sn _ _ => sn
  | kpPin _ sn _ _ => sn
  | kpSimple _ sn _ => sn
  | kpNewDialCode sn _ => sn
  | kpModify _ sn _ _ => sn
  | kpAddComponentType sn _ _ => sn
  | keychainRemote sn _ _ => sn
  | motionSensor sn _ _ => sn
  | entrySensor sn _ _ => sn
  | bskExtStatus _ sn _ _ _ _ _ _ => sn
  | bskStatusUpdate sn _ _ _ => sn
  | bskDisarmPinResponse _ sn _ _ => sn
  | bskMenuPinResponse _ sn _ => sn
  | bskHomeResponse sn _ _ => sn
  | bskAwayResponse sn _ _ => sn
  | bskOffRemoteUpdate sn _ _ => sn
  | bskEnterMenuResponse sn _ => sn
  | bskNewDialCodeResponse sn _ => sn
  | bskRemoveComponentSelectResponse sn _ => sn
  | bskRemoveComponentConfirmResponse sn _ => sn
  | bskAddSerial _ sn _ _ => sn
  | bskSimpleStatus _ sn _ _ => sn
  | bskSimpleMenu _ sn _ => sn
  | bskRemoveScroll _ sn _ _ _ _ => sn
  | bskEntrySensorUpdate sn _ _ _ => sn
  | bskSensorErrorUpdate sn _ _ _ _ => sn

/-- `KeypadPinMessage.payload_body`: the stuffed PIN digits followed by
the constant suffix `0F F0`. -/
def pinBody (pin : List Nat) : List Nat :=
  [ ((pin.getD 1 0) <<< 4) + pin.getD 0 0,
    ((pin.getD 3 0) <<< 4) + pin.getD 2 0, 0x0F, 0xF0 ]

/-- `AbstractKeypadModifyComponentMenuRequest.payload_body`: the packed
component serial; serials that are not exactly 5 characters are packed
with both flag bits set. -/
def modifyBody (csn : List Nat) : List Nat :=
  if csn.length = 5 then SerialNumberFormat.packAscii csn false false
  else SerialNumberFormat.packAscii csn true true

/-- `BaseStationKeypadExtendedStatusMessage.payload_body`. -/
def extStatusBody (flags armed ess tl : Nat) : List Nat :=
  [ (flags <<< 4) ||| armed, ess, tl >>> 4, ((tl &&& 0xF) <<< 4) ||| 0xC ]

/-- The `payload_body` of each keypad-originated message. -/
def kpBody : Msg → List Nat
  | kpRemoveComponentScroll _ _ n => [n]
  | kpPin _ _ _ pin => pinBody pin
  | kpSimple .. => []
  | kpNewDialCode .. => [0xFF, 0xFF, 0xFF, 0xFF]
  | kpModify _ _ _ csn => modifyBody csn
  | kpAddComponentType _ _ ctype => [ctype]
  | _ => []

/-- The `event_type` of each keypad-originated message. -/
def kpEvent : Msg → Nat
  | kpRemoveComponentScroll .. => 0x45
  | kpPin kind _ _ _ => kind.event
  | kpSimple kind _ _ => kind.event
  | kpNewDialCode .. => 0x63
  | kpModify kind _ _ _ => kind.event
  | kpAddComponentType .. => 0x75
  | _ => 0

/-- The `payload_body` of each base-station message. -/
def bskBody : Msg → List Nat
  | bskExtStatus _ _ _ _ flags armed ess tl => extStatusBody flags armed ess tl
  | bskStatusUpdate _ _ _ flags => [flags]
  | bskDisarmPinResponse valid _ _ _ => [if valid then 0x4E else 0x01]
  | bskMenuPinResponse valid _ _ => [if valid then 0x00 else 0x01]
  | bskHomeResponse .. => [0x00]
  | bskAwayResponse .. => [0x78]
  | bskOffRemoteUpdate .. => [0xFF]
  | bskEnterMenuResponse .. => [0x01]
  | bskNewDialCodeResponse .. => [0x00]
  | bskRemoveComponentSelectResponse .. => [0x00]
  | bskRemoveComponentConfirmResponse .. => [0x00]
  | bskAddSerial _ _ _ alreadyAdded => [if alreadyAdded then 0x01 else 0x00]
  | bskSimpleStatus .. => []
  | bskSimpleMenu .. => []
  | bskRemoveScroll _ _ _ csn la ra => SerialNumberFormat.packAscii csn la ra
  | bskEntrySensorUpdate _ _ _ ese => [ese]
  | bskSensorErrorUpdate _ _ _ _ csn => SerialNumberFormat.packAscii csn false false
  | _ => []

/-- The `msg_type` of each base-station message (`RESPONSE = 1`,
`UPDATE = 5`). -/
def bskMsgType : Msg → Nat
  | bskExtStatus kind _ _ _ _ _ _ _ => kind.msgType
  | bskStatusUpdate .. => 5
  | bskDisarmPinResponse .. => 1
  | bskMenuPinResponse .. => 1
  | bskHomeResponse .. => 1
  | bskAwayResponse .. => 1
  | bskOffRemoteUpdate .. => 5
  | bskEnterMenuResponse .. => 1
  | bskNewDialCodeResponse .. => 1
  | bskRemoveComponentSelectResponse .. => 1
  | bskRemoveComponentConfirmResponse .. => 1
  | bskAddSerial .. => 1
  | bskSimpleStatus kind _ _ _ => kind.msgType
  | bskSimpleMenu .. => 1
  | bskRemoveScroll .. => 1
  | bskEntrySensorUpdate .. => 5
  | bskSensorErrorUpdate .. => 5
  | _ => 0

/-- The `event_type` of each base-station message
(`BaseStationKeypadSensorErrorUpdate` derives it from the error slot
`n`). -/
def bskEvent : Msg → Nat
  | bskExtStatus kind _ _ _ _ _ _ _ => kind.event
  | bskStatusUpdate .. => 0x31
  | bskDisarmPinResponse .. => 0x51
  | bskMenuPinResponse .. => 0x66
  | bskHomeResponse .. => 0x53
  | bskAwayResponse .. => 0x56
  | bskOffRemoteUpdate .. => 0x57
  | bskEnterMenuResponse .. => 0x61
  | bskNewDialCodeResponse .. => 0x63
  | bskRemoveComponentSelectResponse .. => 0x76
  | bskRemoveComponentConfirmResponse .. => 0x67
  | bskAddSerial kind _ _ _ => kind.event
  | bskSimpleStatus kind _ _ _ => kind.event
  | bskSimpleMenu kind _ _ => kind.event
  | bskRemoveScroll kind _ _ _ _ _ => kind.event
  | bskEntrySensorUpdate .. => 0x27
  | bskSensorErrorUpdate _ _ _ n _ =>
    if n = 0 then 0x32 else if n = 1 then 0x35
    else if n = 2 then 0x36 else 0x37
  | _ => 0

/-- The `info_type` of each base-station message (`STATUS = 0x2` from
the status trait, `MENU = 0x6` from the menu trait). -/
def bskInfoType : Msg → Nat
  | bskExtStatus .. => 0x2
  | bskStatusUpdate .. => 0x2
  | bskDisarmPinResponse .. => 0x2
  | bskMenuPinResponse .. => 0x6
  | bskHomeResponse .. => 0x2
  | bskAwayResponse .. => 0x2
  | bskOffRemoteUpdate .. => 0x2
  | bskEnterMenuResponse .. => 0x6
  | bskNewDialCodeResponse .. => 0x6
  | bskRemoveComponentSelectResponse .. => 0x6
  | bskRemoveComponentConfirmResponse .. => 0x6
  | bskAddSerial .. => 0x6
  | bskSimpleStatus .. => 0x2
  | bskSimpleMenu .. => 0x6
  | bskRemoveScroll .. => 0x6
  | bskEntrySensorUpdate .. => 0x2
  | bskSensorErrorUpdate .. => 0x2
  | _ => 0

/-- The constant menu-trait footer body `FF FF FF FF FF`. -/
def menuFooterBody : List Nat := [0xFF, 0xFF, 0xFF, 0xFF, 0xFF]

/-- `packHex` of a canonical 6-hex-character serial as a total function
(the status-trait `footer_body`; junk for non-hex characters, which the
claims' canonicity hypotheses exclude). -/
def packHexT (s : List Nat) : List Nat :=
  match SerialNumberFormat.packHex s with
  | .ok b => b
  | .error _ => []

/-- The `footer_body` of each base-station message: the packed base
station serial for status-trait messages, the constant `FF` block for
menu-trait messages. -/
def bskFooterBody : Msg → List Nat
  | bskExtStatus _ _ _ bsSn _ _ _ _ => packHexT bsSn
  | bskStatusUpdate _ _ bsSn _ => packHexT bsSn
  | bskDisarmPinResponse _ _ _ bsSn => packHexT bsSn
  | bskMenuPinResponse .. => menuFooterBody
  | bskHomeResponse _ _ bsSn => packHexT bsSn
  | bskAwayResponse _ _ bsSn => packHexT bsSn
  | bskOffRemoteUpdate _ _ bsSn => packHexT bsSn
  | bskEnterMenuResponse .. => menuFooterBody
  | bskNewDialCodeResponse .. => menuFooterBody
  | bskRemoveComponentSelectResponse .. => menuFooterBody
  | bskRemoveComponentConfirmResponse .. => menuFooterBody
  | bskAddSerial .. => menuFooterBody
  | bskSimpleStatus _ _ _ bsSn => packHexT bsSn
  | bskSimpleMenu .. => menuFooterBody
  | bskRemoveScroll .. => menuFooterBody
  | bskEntrySensorUpdate _ _ bsSn _ => packHexT bsSn
  | bskSensorErrorUpdate _ _ bsSn _ _ => packHexT bsSn
  | _ => []

/-- Whether a message is a keypad-originated leaf. -/
def isKp : Msg → Bool
  | kpRemoveComponentScroll .. => true
  | kpPin .. => true
  | kpSimple .. => true
  | kpNewDialCode .. => true
  | kpModify .. => true
  | kpAddComponentType .. => true
  | _ => false

/-- Whether a message is a base-station leaf. -/
def isBsk : Msg → Bool
  | bskExtStatus .. => true
  | bskStatusUpdate .. => true
  | bskDisarmPinResponse .. => true
  | bskMenuPinResponse .. => true
  | bskHomeResponse .. => true
  | bskAwayResponse .. => true
  | bskOffRemoteUpdate .. => true
  | bskEnterMenuResponse .. => true
  | bskNewDialCodeResponse .. => true
  | bskRemoveComponentSelectResponse .. => true
  | bskRemoveComponentConfirmResponse .. => true
  | bskAddSerial .. => true
  | bskSimpleStatus .. => true
  | bskSimpleMenu .. => true
  | bskRemoveScroll .. => true
  | bskEntrySensorUpdate .. => true
  | bskSensorErrorUpdate .. => true
  | _ => false

/-- The sequence field of a leaf message (0 for `base`). -/
def seqOf : Msg → Nat
  | kpRemoveComponentScroll _ seq _ => seq
  | kpPin _ _ seq _ => seq
  | kpSimple _ _ seq => seq
  | kpNewDialCode _ seq => seq
  | kpModify _ _ seq _ => seq
  | kpAddComponentType _ seq _ => seq
  | keychainRemote _ seq _ => seq
  | motionSensor _ seq _ => seq
  | entrySensor _ seq _ => seq
  | bskExtStatus _ _ seq _ _ _ _ _ => seq
  | bskStatusUpdate _ seq _ _ => seq
  | bskDisarmPinResponse _ _ seq _ => seq
  | bskMenuPinResponse _ _ seq => seq
  | bskHomeResponse _ seq _ => seq
  | bskAwayResponse _ seq _ => seq
  | bskOffRemoteUpdate _ seq _ => seq
  | bskEnterMenuResponse _ seq => seq
  | bskNewDialCodeResponse _ seq => seq
  | bskRemoveComponentSelectResponse _ seq => seq
  | bskRemoveComponentConfirmResponse _ seq => seq
  | bskAddSerial _ _ seq _ => seq
  | bskSimpleStatus _ _ seq _ => seq
  | bskSimpleMenu _ _ seq => seq
  | bskRemoveScroll _ _ seq _ _ _ => seq
  | bskEntrySensorUpdate _ seq _ _ => seq
  | bskSensorErrorUpdate _ seq _ _ _ => seq
  | base .. => 0

/-- The sensor origin type of the sensor leaves (`KEYCHAIN_REMOTE = 2`,
`MOTION_SENSOR = 4`, `ENTRY_SENSOR = 5`). -/
def sensorOrigin : Msg → Nat
  | keychainRemote .. => 2
  | motionSensor .. => 4
  | entrySensor .. => 5
  | _ => 0

/-- The sensor `event_type`. -/
def sensorEvent : Msg → Nat
  | keychainRemote _ _ ev => ev
  | motionSensor _ _ ev => ev
  | entrySensor _ _ ev => ev
  | _ => 0

/-- The derived `payload` property of each message.

* keypad messages: `bytes([origin, (sequence << 4) | 0x4]) +
  payload_body + bytes([event_type])`;
* sensor messages: `bytes([(sequence << 4) + origin, event_type])`;
* base-station messages: `bytes([origin, msg_type]) + payload_body +
  bytes([event_type])`;
* plain `Message`: the stored payload attribute. -/
def payloadOf (m : Msg) : List Nat :=
  match m with
  | base _ _ payload _ => payload
  | keychainRemote _ seq ev => [(seq <<< 4) + 2, ev]
  | motionSensor _ seq ev => [(seq <<< 4) + 4, ev]
  | entrySensor _ seq ev => [(seq <<< 4) + 5, ev]
  | _ =>
    if isKp m then
      [0x01, (seqOf m <<< 4) ||| 0x4] ++ kpBody m ++ [kpEvent m]
    else
      [0x00, bskMsgType m] ++ bskBody m ++ [bskEvent m]

/-- The derived `footer` property: empty for keypad and sensor messages,
`footer_body + bytes([(sequence << 4) | info_type])` for base-station
messages, the stored attribute for a plain `Message`. -/
def footerOf (m : Msg) : List Nat :=
  match m with
  | base _ _ _ footer => footer
  | _ =>
    if isBsk m then
      bskFooterBody m ++ [(seqOf m <<< 4) ||| bskInfoType m]
    else []

/-- `Message.checksum`: `sum(self.payload) % 256`. -/
def checksum (m : Msg) : Nat :=
  (payloadOf m).sum % 256

/-- `Message.__bytes__`: vendor code (big-endian `0xCC05`), payload
length code, 5 serial bytes, payload, checksum byte, footer. -/
def encode (m : Msg) : List Nat :=
  [0xCC, 0x05, plcOf m] ++ snOf m ++ payloadOf m ++ [checksum m] ++ footerOf m

end Msg

/-! ## `Message.factory` and the subclass factories (`SimpliSafe.py`)

Each Python `factory` classmethod becomes one definition.  The
`for c in cls.__subclasses__(): try ... except ValueError: pass` loops
become `catchVE` chains in subclass definition order; `raise
NotImplementedError` at the end of a loop becomes `throw PyErr.notImpl`
(which no `except ValueError` catches). -/

/-- `Message.OriginType(n)`: enum construction, `ValueError` when `n` is
not one of `{0, 1, 2, 4, 5}`. -/
def OriginType.ofNat (n : Nat) : Except PyErr Nat :=
  if n = 0 ∨ n = 1 ∨ n = 2 ∨ n = 4 ∨ n = 5 then .ok n else .error .valueErr

/-- The value set of `KeypadMessage.EventType` (the alias pair
`ADD_GLASSBREAK_SENSOR`/`ADD_SMOKE_DETECTOR` contributes the single
value `0x6E`). -/
def KeypadEventType.values : List Nat :=
  [0x11, 0x13, 0x14, 0x27, 0x28, 0x31, 0x32, 0x35, 0x36, 0x37,
   0x44, 0x45, 0x47, 0x48, 0x49, 0x4A, 0x4B, 0x4C, 0x4D, 0x4E, 0x4F, 0x50,
   0x51, 0x53, 0x54, 0x56, 0x57, 0x5C, 0x5E,
   0x61, 0x62, 0x63, 0x64, 0x66, 0x67, 0x69, 0x6A, 0x6B, 0x6D, 0x6E,
   0x71, 0x72, 0x73, 0x74, 0x75, 0x76, 0x77, 0x78, 0x79, 0x7A]

/-- `KeypadMessage.EventType(n)`: enum construction. -/
def KeypadEventType.ofNat (n : Nat) : Except PyErr Nat :=
  if n ∈ KeypadEventType.values then .ok n else .error .valueErr

/-- The `AbstractKeypadSimpleRequest` subclasses in definition order. -/
def KpSimpleReq.all : List KpSimpleReq :=
  [.extendedStatusRequest, .testModeOn, .testModeOff, .removeComponentMenu,
   .home, .panicReq, .away, .off, .enterMenu, .exitMenu, .changePinMenu,
   .changePinConfirmMenu, .addComponentMenu, .removeComponentSelectMenu,
   .addComponentLastTypeMenu]

/-- The `AbstractKeypadModifyComponentMenuRequest` subclasses in
definition order (Glassbreak before Smoke, so event `0x6E` always
dispatches to the Glassbreak class). -/
def KpModifyKind.all : List KpModifyKind :=
  [.removeComponentConfirm, .addEntrySensor, .addMotionSensor,
   .addPanicButton, .addKeychainRemote, .addGlassbreakSensor,
   .addSmokeDetector, .addCoDetector, .addFreezeSensor, .addWaterSensor]

/-- The `AbstractBaseStationKeypadAddComponentSerialMenuResponse`
subclasses in definition order. -/
def BskAddSerialKind.all : List BskAddSerialKind :=
  [.entry, .motion, .panicBtn, .keychain, .glassbreak, .smoke, .co,
   .freeze, .water]

/-- The `AbstractBaseStationKeypadSimpleStatusMessage` subclasses in
definition order. -/
def BskSimpleStatusKind.all : List BskSimpleStatusKind :=
  [.testModeOnResponse, .offResponse, .testModeOffResponse,
   .clearSensorError1, .clearSensorError2, .clearSensorError3,
   .clearSensorError4]

/-- The `AbstractBaseStationKeypadSimpleMenuMessage` subclasses in
definition order. -/
def BskSimpleMenuKind.all : List BskSimpleMenuKind :=
  [.exitMenuResponse, .changePinResponse, .changePinConfirmResponse,
   .changeDialResponse, .addComponentResponse, .addComponentTypeResponse]

/-- The `AbstractBaseStationKeypadRemoveComponentScrollMenuResponse`
subclasses in definition order. -/
def BskRemoveScrollKind.all : List BskRemoveScrollKind :=
  [.entry, .motion, .panicBtn, .keypad, .keychain, .glassbreak, .smoke,
   .co, .freeze, .water]

/-- `KeypadRemoveComponentScrollMenuRequest.factory`. -/
def KeypadRemoveComponentScrollMenuRequest.factory (plc : Nat)
    (sn : List Nat) (seq event : Nat) (body : List Nat) :
    Except PyErr Msg := do
  if plc ≠ 0x33 then throw PyErr.ivb
  if event ≠ 0x45 then throw PyErr.ivb
  let n ← pyIdx body 0
  pure (Msg.kpRemoveComponentScroll sn seq n)

/-- `KeypadPinMessage.factory` (including its leaf dispatch to
Disarm/NewPin/MenuPin; the final `raise` on an unmatched event is an
`InvalidMessageBytesError`, not `NotImplementedError`).  PIN nibbles
above 9 are printed as two characters by `str`, so the constructor's
4-digit length check raises `ValueError` for them. -/
def KeypadPinMessage.factory (plc : Nat) (sn : List Nat) (seq event : Nat)
    (body : List Nat) : Except PyErr Msg := do
  if plc ≠ 0x66 then throw PyErr.ivb
  if (body.drop 2).take 2 ≠ [0x0F, 0xF0] then throw PyErr.ivb
  let b0 ← pyIdx body 0
  let b1 ← pyIdx body 1
  let pin := [b0 &&& 0xF, b0 >>> 4, b1 &&& 0xF, b1 >>> 4]
  if pin.any (fun d => 9 < d) then throw PyErr.valueErr
  catchVE (do
    if event ≠ 0x51 then throw PyErr.ivb
    pure (Msg.kpPin KpPinKind.disarm sn seq pin)) fun _ =>
  catchVE (do
    if event ≠ 0x62 then throw PyErr.ivb
    pure (Msg.kpPin KpPinKind.newPin sn seq pin)) fun _ =>
  catchVE (do
    if event ≠ 0x66 then throw PyErr.ivb
    pure (Msg.kpPin KpPinKind.menuPin sn seq pin)) fun _ =>
  throw PyErr.ivb

/-- `AbstractKeypadSimpleRequest.factory`: scans its subclasses for a
matching class-level `event_type`. -/
def AbstractKeypadSimpleRequest.factory (plc : Nat) (sn : List Nat)
    (seq event : Nat) (body : List Nat) : Except PyErr Msg := do
  if plc ≠ 0x22 then throw PyErr.ivb
  if body ≠ [] then throw PyErr.ivb
  match KpSimpleReq.all.find? (fun k => k.event = event) with
  | some k => pure (Msg.kpSimple k sn seq)
  | none => throw PyErr.ivb

/-- `KeypadPrefixRequest.factory` (the new-dialing-code request).  The
suffix check formats one byte as two hex characters and compares the
result with the six-character class constant `"FFCFFF"`, so it always
fails and this class is unreachable from `Message.factory`.  The code
after it is kept for fidelity: a non-`None` dialing code would hit the
undefined `payload_body_suffix` name in the constructor
(`NameError`). -/
def KeypadNewDialCodeRequest.factory (plc : Nat) (sn : List Nat)
    (seq event : Nat) (body : List Nat) : Except PyErr Msg := do
  if plc ≠ 0x66 then throw PyErr.ivb
  if event ≠ 0x63 then throw PyErr.ivb
  let b0 ← pyIdx body 0
  if b0 >>> 4 ≠ 0xF then throw PyErr.ivb
  let b1 ← pyIdx body 1
  if [hexChar (b1 >>> 4), hexChar (b1 &&& 0xF)] ≠
      [0x46, 0x46, 0x43, 0x46, 0x46, 0x46] then throw PyErr.ivb
  let code := b0 &&& 0xF
  if code = 0xF then pure (Msg.kpNewDialCode sn seq)
  else if 9 < code then throw PyErr.ivb
  else throw PyErr.nameErr

/-- `AbstractKeypadModifyComponentMenuRequest.factory` (the `hb`/`lb`
flags returned by `unpack` are discarded). -/
def AbstractKeypadModifyComponentMenuRequest.factory (plc : Nat)
    (sn : List Nat) (seq event : Nat) (body : List Nat) :
    Except PyErr Msg := do
  if plc ≠ 0x66 then throw PyErr.ivb
  let r ← SerialNumberFormat.unpackAscii body
  match KpModifyKind.all.find? (fun k => k.event = event) with
  | some k => pure (Msg.kpModify k sn seq r.1)
  | none => throw PyErr.ivb

/-- `KeypadAddComponentTypeMenuRequest.factory`
(`ComponentType` values are `0..9`). -/
def KeypadAddComponentTypeMenuRequest.factory (plc : Nat) (sn : List Nat)
    (seq event : Nat) (body : List Nat) : Except PyErr Msg := do
  if plc ≠ 0x33 then throw PyErr.ivb
  if event ≠ 0x75 then throw PyErr.ivb
  let ct ← pyIdx body 0
  if 9 < ct then throw PyErr.valueErr
  pure (Msg.kpAddComponentType sn seq ct)

/-- `KeypadMessage.factory`: origin check, sequence/body/event
extraction, then the subclass chain in definition order;
`NotImplementedError` when no leaf matches. -/
def KeypadMessage.factory (plc : Nat) (sn payload : List Nat) :
    Except PyErr Msg := do
  let p0 ← pyIdx payload 0
  let origin ← OriginType.ofNat p0
  if origin ≠ 0x1 then throw PyErr.ivb
  let p1 ← pyIdx payload 1
  let seq := p1 >>> 4
  let body := (payload.drop 2).dropLast
  let event ← KeypadEventType.ofNat (← pyLast payload)
  catchVE (KeypadRemoveComponentScrollMenuRequest.factory plc sn seq event body) fun _ =>
  catchVE (KeypadPinMessage.factory plc sn seq event body) fun _ =>
  catchVE (AbstractKeypadSimpleRequest.factory plc sn seq event body) fun _ =>
  catchVE (KeypadNewDialCodeRequest.factory plc sn seq event body) fun _ =>
  catchVE (AbstractKeypadModifyComponentMenuRequest.factory plc sn seq event body) fun _ =>
  catchVE (KeypadAddComponentTypeMenuRequest.factory plc sn seq event body) fun _ =>
  throw PyErr.notImpl

/-- `SensorMessage.factory` with its leaf chain (KeychainRemote,
MotionSensor, EntrySensor); each leaf validates its origin and its
`EventType` enum. -/
def SensorMessage.factory (plc : Nat) (sn payload : List Nat) :
    Except PyErr Msg := do
  if plc ≠ 0x11 then throw PyErr.ivb
  let p0 ← pyIdx payload 0
  let origin ← OriginType.ofNat (p0 &&& 0xF)
  let seq := p0 >>> 4
  let ev ← pyIdx payload 1
  catchVE (do
    if origin ≠ 2 then throw PyErr.ivb
    if ¬ (ev = 1 ∨ ev = 2 ∨ ev = 3) then throw PyErr.valueErr
    pure (Msg.keychainRemote sn seq ev)) fun _ =>
  catchVE (do
    if origin ≠ 4 then throw PyErr.ivb
    if ¬ (ev = 0 ∨ ev = 2) then throw PyErr.valueErr
    pure (Msg.motionSensor sn seq ev)) fun _ =>
  catchVE (do
    if origin ≠ 5 then throw PyErr.ivb
    if ¬ (ev = 1 ∨ ev = 2) then throw PyErr.valueErr
    pure (Msg.entrySensor sn seq ev)) fun _ =>
  throw PyErr.notImpl

/-- `ComponentMessage.factory`: tries `KeypadMessage` then
`SensorMessage`, re-raising a plain `ValueError` when neither
accepts. -/
def ComponentMessage.factory (plc : Nat) (sn payload : List Nat) :
    Except PyErr Msg :=
  catchVE (KeypadMessage.factory plc sn payload) fun _ =>
  catchVE (SensorMessage.factory plc sn payload) fun _ =>
  throw PyErr.valueErr

/-- `BaseStationKeypadExtendedStatusMessage.factory` with its leaf chain
(Response, Update, RemoteUpdate); the leaves re-unpack the footer serial
before constructing. -/
def BaseStationKeypadExtendedStatusMessage.factory (plc : Nat)
    (sn : List Nat) (mt info ev seq : Nat) (body fbody : List Nat) :
    Except PyErr Msg := do
  if plc ≠ 0x66 then throw PyErr.ivb
  if info ≠ 0x2 then throw PyErr.ivb
  let bsSn ← SerialNumberFormat.unpackHex fbody
  let b0 ← pyIdx body 0
  let flags := b0 >>> 4
  let armed := b0 &&& 0xF
  if 4 < armed then throw PyErr.valueErr
  let ess ← pyIdx body 1
  if ¬ (ess = 0xF0 ∨ ess = 0xF1) then throw PyErr.valueErr
  let b2 ← pyIdx body 2
  let b3 ← pyIdx body 3
  let tl := (b2 <<< 4) ||| (b3 >>> 4)
  catchVE (do
    if mt ≠ 1 then throw PyErr.ivb
    if ev ≠ 0x11 then throw PyErr.ivb
    let _ ← SerialNumberFormat.unpackHex fbody
    pure (Msg.bskExtStatus BskExtStatusKind.response sn seq bsSn flags armed ess tl)) fun _ =>
  catchVE (do
    if mt ≠ 5 then throw PyErr.ivb
    if ev ≠ 0x28 then throw PyErr.ivb
    let _ ← SerialNumberFormat.unpackHex fbody
    pure (Msg.bskExtStatus BskExtStatusKind.update sn seq bsSn flags armed ess tl)) fun _ =>
  catchVE (do
    if mt ≠ 5 then throw PyErr.ivb
    if ev ≠ 0x14 then throw PyErr.ivb
    let _ ← SerialNumberFormat.unpackHex fbody
    pure (Msg.bskExtStatus BskExtStatusKind.remoteUpdate sn seq bsSn flags armed ess tl)) fun _ =>
  throw PyErr.notImpl

/-- `BaseStationKeypadStatusUpdate.factory`. -/
def BaseStationKeypadStatusUpdate.factory (plc : Nat) (sn : List Nat)
    (mt info ev seq : Nat) (body fbody : List Nat) : Except PyErr Msg := do
  if plc ≠ 0x33 then throw PyErr.ivb
  if mt ≠ 5 then throw PyErr.ivb
  if info ≠ 0x2 then throw PyErr.ivb
  if ev ≠ 0x31 then throw PyErr.ivb
  let flags ← pyIdx body 0
  let bsSn ← SerialNumberFormat.unpackHex fbody
  pure (Msg.bskStatusUpdate sn seq bsSn flags)

/-- `BaseStationKeypadDisarmPinResponse.factory` with its Valid/Invalid
leaf dispatch.  The source's event check reads `if msg.event_type !=
msg.event_type:` — it compares the field with itself, so the event type
is in fact never checked here. -/
def BaseStationKeypadDisarmPinResponse.factory (plc : Nat) (sn : List Nat)
    (mt info _ev seq : Nat) (body fbody : List Nat) : Except PyErr Msg := do
  if plc ≠ 0x33 then throw PyErr.ivb
  if mt ≠ 1 then throw PyErr.ivb
  if info ≠ 0x2 then throw PyErr.ivb
  let rt ← pyIdx body 0
  if ¬ (rt = 0x4E ∨ rt = 0x01) then throw PyErr.valueErr
  let bsSn ← SerialNumberFormat.unpackHex fbody
  catchVE (do
    if rt ≠ 0x01 then throw PyErr.ivb
    let _ ← SerialNumberFormat.unpackHex fbody
    pure (Msg.bskDisarmPinResponse false sn seq bsSn)) fun _ =>
  catchVE (do
    if rt ≠ 0x4E then throw PyErr.ivb
    let _ ← SerialNumberFormat.unpackHex fbody
    pure (Msg.bskDisarmPinResponse true sn seq bsSn)) fun _ =>
  throw PyErr.notImpl

/-- `BaseStationKeypadMenuPinResponse.factory` with its Invalid/Valid
leaf dispatch. -/
def BaseStationKeypadMenuPinResponse.factory (plc : Nat) (sn : List Nat)
    (mt info ev seq : Nat) (body _fbody : List Nat) : Except PyErr Msg := do
  if plc ≠ 0x33 then throw PyErr.ivb
  if mt ≠ 1 then throw PyErr.ivb
  if info ≠ 0x6 then throw PyErr.ivb
  if ev ≠ 0x66 then throw PyErr.ivb
  let rt ← pyIdx body 0
  if ¬ (rt = 0x00 ∨ rt = 0x01) then throw PyErr.valueErr
  catchVE (do
    if rt ≠ 0x01 then throw PyErr.ivb
    pure (Msg.bskMenuPinResponse false sn seq)) fun _ =>
  catchVE (do
    if rt ≠ 0x00 then throw PyErr.ivb
    pure (Msg.bskMenuPinResponse true sn seq)) fun _ =>
  throw PyErr.notImpl

/-- `BaseStationKeypadHomeResponse.factory`. -/
def BaseStationKeypadHomeResponse.factory (plc : Nat) (sn : List Nat)
    (mt info ev seq : Nat) (body fbody : List Nat) : Except PyErr Msg := do
  if plc ≠ 0x33 then throw PyErr.ivb
  if mt ≠ 1 then throw PyErr.ivb
  if info ≠ 0x2 then throw PyErr.ivb
  if ev ≠ 0x53 then throw PyErr.ivb
  if body ≠ [0x00] then throw PyErr.ivb
  let bsSn ← SerialNumberFormat.unpackHex fbody
  pure (Msg.bskHomeResponse sn seq bsSn)

/-- `BaseStationKeypadAwayResponse.factory`.  Its info check reads
`if msg.info_type != msg.info_type:` — self-comparison, so the info type
is never checked. -/
def BaseStationKeypadAwayResponse.factory (plc : Nat) (sn : List Nat)
    (mt _info ev seq : Nat) (body fbody : List Nat) : Except PyErr Msg := do
  if plc ≠ 0x33 then throw PyErr.ivb
  if mt ≠ 1 then throw PyErr.ivb
  if ev ≠ 0x56 then throw PyErr.ivb
  if body ≠ [0x78] then throw PyErr.ivb
  let bsSn ← SerialNumberFormat.unpackHex fbody
  pure (Msg.bskAwayResponse sn seq bsSn)

/-- `BaseStationKeypadOffRemoteUpdate.factory`. -/
def BaseStationKeypadOffRemoteUpdate.factory (plc : Nat) (sn : List Nat)
    (mt info ev seq : Nat) (body fbody : List Nat) : Except PyErr Msg := do
  if plc ≠ 0x33 then throw PyErr.ivb
  if mt ≠ 5 then throw PyErr.ivb
  if info ≠ 0x2 then throw PyErr.ivb
  if ev ≠ 0x57 then throw PyErr.ivb
  if body ≠ [0xFF] then throw PyErr.ivb
  let bsSn ← SerialNumberFormat.unpackHex fbody
  pure (Msg.bskOffRemoteUpdate sn seq bsSn)

/-- `BaseStationKeypadEnterMenuResponse.factory`. -/
def BaseStationKeypadEnterMenuResponse.factory (plc : Nat) (sn : List Nat)
    (mt info ev seq : Nat) (body fbody : List Nat) : Except PyErr Msg := do
  if plc ≠ 0x33 then throw PyErr.ivb
  if mt ≠ 1 then throw PyErr.ivb
  if info ≠ 0x6 then throw PyErr.ivb
  if ev ≠ 0x61 then throw PyErr.ivb
  if fbody ≠ Msg.menuFooterBody then throw PyErr.ivb
  if body ≠ [0x01] then throw PyErr.ivb
  pure (Msg.bskEnterMenuResponse sn seq)

/-- `BaseStationKeypadNewPrefixResponse.factory` (new-dialing-code
response). -/
def BaseStationKeypadNewDialCodeResponse.factory (plc : Nat)
    (sn : List Nat) (mt info ev seq : Nat) (body fbody : List Nat) :
    Except PyErr Msg := do
  if plc ≠ 0x33 then throw PyErr.ivb
  if mt ≠ 1 then throw PyErr.ivb
  if info ≠ 0x6 then throw PyErr.ivb
  if ev ≠ 0x63 then throw PyErr.ivb
  if fbody ≠ Msg.menuFooterBody then throw PyErr.ivb
  if body ≠ [0x00] then throw PyErr.ivb
  pure (Msg.bskNewDialCodeResponse sn seq)

/-- `BaseStationKeypadRemoveComponentSelectResponse.factory`. -/
def BaseStationKeypadRemoveComponentSelectResponse.factory (plc : Nat)
    (sn : List Nat) (mt info ev seq : Nat) (body fbody : List Nat) :
    Except PyErr Msg := do
  if plc ≠ 0x33 then throw PyErr.ivb
  if mt ≠ 1 then throw PyErr.ivb
  if info ≠ 0x6 then throw PyErr.ivb
  if ev ≠ 0x76 then throw PyErr.ivb
  if fbody ≠ Msg.menuFooterBody then throw PyErr.ivb
  if body ≠ [0x00] then throw PyErr.ivb
  pure (Msg.bskRemoveComponentSelectResponse sn seq)

/-- `BaseStationKeypadRemoveComponentConfirmMenuResponse.factory`. -/
def BaseStationKeypadRemoveComponentConfirmMenuResponse.factory
    (plc : Nat) (sn : List Nat) (mt info ev seq : Nat)
    (body fbody : List Nat) : Except PyErr Msg := do
  if plc ≠ 0x33 then throw PyErr.ivb
  if mt ≠ 1 then throw PyErr.ivb
  if info ≠ 0x6 then throw PyErr.ivb
  if ev ≠ 0x67 then throw PyErr.ivb
  if fbody ≠ Msg.menuFooterBody then throw PyErr.ivb
  if body ≠ [0x00] then throw PyErr.ivb
  pure (Msg.bskRemoveComponentConfirmResponse sn seq)

/-- `AbstractBaseStationKeypadAddComponentSerialMenuResponse.factory`:
validates the response type then scans its subclasses by event (the
Smoke class, sharing `0x6E` with Glassbreak, is unreachable). -/
def AbstractBaseStationKeypadAddComponentSerialMenuResponse.factory
    (plc : Nat) (sn : List Nat) (mt info ev seq : Nat)
    (body fbody : List Nat) : Except PyErr Msg := do
  if plc ≠ 0x33 then throw PyErr.ivb
  if mt ≠ 1 then throw PyErr.ivb
  if info ≠ 0x6 then throw PyErr.ivb
  if fbody ≠ Msg.menuFooterBody then throw PyErr.ivb
  let rt ← pyIdx body 0
  if ¬ (rt = 0 ∨ rt = 1) then throw PyErr.valueErr
  match BskAddSerialKind.all.find? (fun k => k.event = ev) with
  | some k => pure (Msg.bskAddSerial k sn seq (rt = 1))
  | none => throw PyErr.ivb

/-- `AbstractBaseStationKeypadSimpleStatusMessage.factory`: scans its
subclasses on `(msg_type, info_type, event_type)` (every subclass has
the status info type). -/
def AbstractBaseStationKeypadSimpleStatusMessage.factory (plc : Nat)
    (sn : List Nat) (mt info ev seq : Nat) (body fbody : List Nat) :
    Except PyErr Msg := do
  if plc ≠ 0x22 then throw PyErr.ivb
  if body ≠ [] then throw PyErr.ivb
  let bsSn ← SerialNumberFormat.unpackHex fbody
  match BskSimpleStatusKind.all.find?
      (fun k => k.msgType = mt ∧ info = 0x2 ∧ k.event = ev) with
  | some k => pure (Msg.bskSimpleStatus k sn seq bsSn)
  | none => throw PyErr.ivb

/-- `AbstractBaseStationKeypadSimpleMenuMessage.factory`: scans its
subclasses on `(msg_type, info_type, event_type, footer_body)`. -/
def AbstractBaseStationKeypadSimpleMenuMessage.factory (plc : Nat)
    (sn : List Nat) (mt info ev seq : Nat) (body fbody : List Nat) :
    Except PyErr Msg := do
  if plc ≠ 0x22 then throw PyErr.ivb
  if body ≠ [] then throw PyErr.ivb
  match BskSimpleMenuKind.all.find?
      (fun k => mt = 1 ∧ info = 0x6 ∧ k.event = ev ∧
        fbody = Msg.menuFooterBody) with
  | some k => pure (Msg.bskSimpleMenu k sn seq)
  | none => throw PyErr.ivb

/-- `AbstractBaseStationKeypadRemoveComponentScrollMenuResponse.factory`:
unpacks the component serial and arrow flags from the payload body and
scans its subclasses by event. -/
def AbstractBaseStationKeypadRemoveComponentScrollMenuResponse.factory
    (plc : Nat) (sn : List Nat) (mt info ev seq : Nat)
    (body _fbody : List Nat) : Except PyErr Msg := do
  if plc ≠ 0x66 then throw PyErr.ivb
  if mt ≠ 1 then throw PyErr.ivb
  if info ≠ 0x6 then throw PyErr.ivb
  let r ← SerialNumberFormat.unpackAscii body
  match BskRemoveScrollKind.all.find? (fun k => k.event = ev) with
  | some k => pure (Msg.bskRemoveScroll k sn seq r.1 r.2.1 r.2.2)
  | none => throw PyErr.ivb

/-- `BaseStationKeypadEntrySensorUpdate.factory` (`UpdateType` values
`{0, 1}`). -/
def BaseStationKeypadEntrySensorUpdate.factory (plc : Nat) (sn : List Nat)
    (mt info ev seq : Nat) (body fbody : List Nat) : Except PyErr Msg := do
  if plc ≠ 0x33 then throw PyErr.ivb
  if mt ≠ 5 then throw PyErr.ivb
  if info ≠ 0x2 then throw PyErr.ivb
  if ev ≠ 0x27 then throw PyErr.ivb
  let ese ← pyIdx body 0
  if ¬ (ese = 0 ∨ ese = 1) then throw PyErr.valueErr
  let bsSn ← SerialNumberFormat.unpackHex fbody
  pure (Msg.bskEntrySensorUpdate sn seq bsSn ese)

/-- `BaseStationKeypadSensorErrorUpdate.factory`.  Its info check is the
self-comparison `msg.info_type != msg.info_type` — never taken. -/
def BaseStationKeypadSensorErrorUpdate.factory (plc : Nat) (sn : List Nat)
    (mt _info ev seq : Nat) (body fbody : List Nat) : Except PyErr Msg := do
  if plc ≠ 0x66 then throw PyErr.ivb
  if mt ≠ 5 then throw PyErr.ivb
  let n ←
    if ev = 0x32 then pure 0
    else if ev = 0x35 then pure 1
    else if ev = 0x36 then pure 2
    else if ev = 0x37 then pure 3
    else throw PyErr.ivb
  let r ← SerialNumberFormat.unpackAscii body
  let bsSn ← SerialNumberFormat.unpackHex fbody
  pure (Msg.bskSensorErrorUpdate sn seq bsSn n r.1)

/-- `BaseStationKeypadMessage.factory`: origin/message-type checks,
body/event/footer extraction, then the subclass chain in definition
order; `NotImplementedError` when no leaf matches. -/
def BaseStationKeypadMessage.factory (plc : Nat) (sn payload footer : List Nat) :
    Except PyErr Msg := do
  let p0 ← pyIdx payload 0
  let origin ← OriginType.ofNat p0
  if origin ≠ 0x0 then throw PyErr.ivb
  let mt ← pyIdx payload 1
  if ¬ (mt = 1 ∨ mt = 5) then throw PyErr.valueErr
  let body := (payload.drop 2).dropLast
  let ev ← KeypadEventType.ofNat (← pyLast payload)
  let f5 ← pyIdx footer 5
  let seq := f5 >>> 4
  let info := f5 &&& 0xF
  if ¬ (info = 0x2 ∨ info = 0x6) then throw PyErr.valueErr
  let fbody := footer.dropLast
  catchVE (BaseStationKeypadExtendedStatusMessage.factory plc sn mt info ev seq body fbody) fun _ =>
  catchVE (BaseStationKeypadStatusUpdate.factory plc sn mt info ev seq body fbody) fun _ =>
  catchVE (BaseStationKeypadDisarmPinResponse.factory plc sn mt info ev seq body fbody) fun _ =>
  catchVE (BaseStationKeypadMenuPinResponse.factory plc sn mt info ev seq body fbody) fun _ =>
  catchVE (BaseStationKeypadHomeResponse.factory plc sn mt info ev seq body fbody) fun _ =>
  catchVE (BaseStationKeypadAwayResponse.factory plc sn mt info ev seq body fbody) fun _ =>
  catchVE (BaseStationKeypadOffRemoteUpdate.factory plc sn mt info ev seq body fbody) fun _ =>
  catchVE (BaseStationKeypadEnterMenuResponse.factory plc sn mt info ev seq body fbody) fun _ =>
  catchVE (BaseStationKeypadNewDialCodeResponse.factory plc sn mt info ev seq body fbody) fun _ =>
  catchVE (BaseStationKeypadRemoveComponentSelectResponse.factory plc sn mt info ev seq body fbody) fun _ =>
  catchVE (BaseStationKeypadRemoveComponentConfirmMenuResponse.factory plc sn mt info ev seq body fbody) fun _ =>
  catchVE (AbstractBaseStationKeypadAddComponentSerialMenuResponse.factory plc sn mt info ev seq body fbody) fun _ =>
  catchVE (AbstractBaseStationKeypadSimpleStatusMessage.factory plc sn mt info ev seq body fbody) fun _ =>
  catchVE (AbstractBaseStationKeypadSimpleMenuMessage.factory plc sn mt info ev seq body fbody) fun _ =>
  catchVE (AbstractBaseStationKeypadRemoveComponentScrollMenuResponse.factory plc sn mt info ev seq body fbody) fun _ =>
  catchVE (BaseStationKeypadEntrySensorUpdate.factory plc sn mt info ev seq body fbody) fun _ =>
  catchVE (BaseStationKeypadSensorErrorUpdate.factory plc sn mt info ev seq body fbody) fun _ =>
  throw PyErr.notImpl

namespace Message

/-- The subclass-walking loop of `Message.factory`: try
`ComponentMessage`, then `BaseStationKeypadMessage`, keeping the plain
`Message` when both raise a `ValueError`. -/
def dispatch (plc : Nat) (sn payload footer : List Nat) :
    Except PyErr Msg :=
  catchVE (ComponentMessage.factory plc sn payload) fun _ =>
  catchVE (BaseStationKeypadMessage.factory plc sn payload footer) fun _ =>
  pure (Msg.base plc sn payload footer)

/-- `Message.factory(b)`: length, vendor-code and payload-length-code
checks, ASCII serial decode, payload/footer slicing, subclass dispatch,
and finally the checksum-setter validation (`PyErr.chkErr` on
mismatch).  The checksum is compared against the *re-derived* payload
of whatever object the dispatch produced. -/
def factory (b : List Nat) : Except PyErr Msg := do
  if b.length < 9 then throw PyErr.ivb
  let b0 ← pyIdx b 0
  let b1 ← pyIdx b 1
  if b0 * 256 + b1 ≠ 0xCC05 then throw PyErr.ivb
  let plc ← pyIdx b 2
  if ¬ Msg.plcValid plc then throw PyErr.ivb
  let sn := (b.drop 3).take 5
  if sn.any (fun c => 128 ≤ c) then throw PyErr.valueErr
  let pl := Msg.payloadLengths plc
  let payload := (b.drop 8).take pl
  let footer := b.drop (8 + pl + 1)
  let msg ← dispatch plc sn payload footer
  let chk ← pyIdx b (8 + pl)
  if chk ≠ Msg.checksum msg then throw PyErr.chkErr
  pure msg

end Message

/-! ## Canonicity (for the amended round-trip claim)

`Message.factory` accepts frames that are not in the image of
`__bytes__` (it ignores several subfields and re-derives them on
encoding), so `encode ∘ parse = id` only holds on canonical frames.
`Msg.canonical` captures the leaf variants whose encodings parse back:
field values within the widths of their wire slots, component serials of
5 characters in `0x30..0x6E` (the blank code `0x3F + 0x30 = 'o'` is
excluded: it truncates decoding), base-station serials of 6 uppercase
hex characters, and — for sensor-error updates — a packed serial that
does not mimic an extended-status payload (which would be captured by
the earlier `BaseStationKeypadExtendedStatusMessage.factory` in the
dispatch chain and rejected as unimplemented). -/

/-- A device serial accepted by `__bytes__`/`factory`: 5 ASCII
characters. -/
def snOk (sn : List Nat) : Bool :=
  sn.length = 5 && sn.all (fun c => c < 128)

/-- A canonical component serial for the `ASCII_4B5C` packing. -/
def csnOk (csn : List Nat) : Bool :=
  csn.length = 5 && csn.all (fun c => 0x30 ≤ c && c ≤ 0x6E)

/-- A canonical base-station serial for the `HEX_5B6C` packing:
6 uppercase hexadecimal characters. -/
def bsSnOk (b : List Nat) : Bool :=
  b.length = 6 &&
    b.all (fun c => (0x30 ≤ c && c ≤ 0x39) || (0x41 ≤ c && c ≤ 0x46))

/-- A canonical PIN: 4 digit values. -/
def pinOk (p : List Nat) : Bool :=
  p.length = 4 && p.all (fun d => d ≤ 9)

/-- Whether a packed component serial coincidentally satisfies the
armed-state and entry-sensor-status checks of
`BaseStationKeypadExtendedStatusMessage.factory` (which sits earlier in
the dispatch chain than `BaseStationKeypadSensorErrorUpdate.factory` and
then fails with `NotImplementedError`). -/
def extStatusHijack (csn : List Nat) : Bool :=
  let body := SerialNumberFormat.packAscii csn false false
  (body.getD 0 0 &&& 0xF ≤ 4) &&
    (body.getD 1 0 = 0xF0 || body.getD 1 0 = 0xF1)

/-- Canonical leaf variants: those whose encoding `Message.factory`
parses back (up to the Smoke/Glassbreak alias).  `base` is not a leaf;
`kpNewDialCode` is constructible but never recognized by the factory
(its suffix check compares strings of different lengths). -/
def Msg.canonical : Msg → Bool
  | Msg.base .. => false
  | Msg.kpRemoveComponentScroll sn q n => snOk sn && q < 16 && n < 256
  | Msg.kpPin _ sn q pin => snOk sn && q < 16 && pinOk pin
  | Msg.kpSimple _ sn q => snOk sn && q < 16
  | Msg.kpNewDialCode .. => false
  | Msg.kpModify _ sn q csn => snOk sn && q < 16 && csnOk csn
  | Msg.kpAddComponentType sn q ct => snOk sn && q < 16 && ct ≤ 9
  | Msg.keychainRemote sn q ev =>
    snOk sn && q < 16 && (ev = 1 || ev = 2 || ev = 3)
  | Msg.motionSensor sn q ev => snOk sn && q < 16 && (ev = 0 || ev = 2)
  | Msg.entrySensor sn q ev => snOk sn && q < 16 && (ev = 1 || ev = 2)
  | Msg.bskExtStatus _ sn q bsSn flags armed ess tl =>
    snOk sn && q < 16 && bsSnOk bsSn && flags < 16 && armed ≤ 4 &&
      (ess = 0xF0 || ess = 0xF1) && tl < 4096
  | Msg.bskStatusUpdate sn q bsSn flags =>
    snOk sn && q < 16 && bsSnOk bsSn && flags < 256
  | Msg.bskDisarmPinResponse _ sn q bsSn => snOk sn && q < 16 && bsSnOk bsSn
  | Msg.bskMenuPinResponse _ sn q => snOk sn && q < 16
  | Msg.bskHomeResponse sn q bsSn => snOk sn && q < 16 && bsSnOk bsSn
  | Msg.bskAwayResponse sn q bsSn => snOk sn && q < 16 && bsSnOk bsSn
  | Msg.bskOffRemoteUpdate sn q bsSn => snOk sn && q < 16 && bsSnOk bsSn
  | Msg.bskEnterMenuResponse sn q => snOk sn && q < 16
  | Msg.bskNewDialCodeResponse sn q => snOk sn && q < 16
  | Msg.bskRemoveComponentSelectResponse sn q => snOk sn && q < 16
  | Msg.bskRemoveComponentConfirmResponse sn q => snOk sn && q < 16
  | Msg.bskAddSerial _ sn q _ => snOk sn && q < 16
  | Msg.bskSimpleStatus _ sn q bsSn => snOk sn && q < 16 && bsSnOk bsSn
  | Msg.bskSimpleMenu _ sn q => snOk sn && q < 16
  | Msg.bskRemoveScroll _ sn q csn _ _ => snOk sn && q < 16 && csnOk csn
  | Msg.bskEntrySensorUpdate sn q bsSn ese =>
    snOk sn && q < 16 && bsSnOk bsSn && (ese = 0 || ese = 1)
  | Msg.bskSensorErrorUpdate sn q bsSn n csn =>
    snOk sn && q < 16 && bsSnOk bsSn && n ≤ 3 && csnOk csn &&
      ! extStatusHijack csn

/-- The variant `Message.factory` actually returns for a canonical
message: the identity, except that the Smoke-Detector request/response
classes (whose `event_type` value `0x6E` is an alias of the Glassbreak
classes, scanned first) come back as the Glassbreak variant. -/
def Msg.canonParse : Msg → Msg
  | Msg.kpModify KpModifyKind.addSmokeDetector sn q csn =>
    Msg.kpModify KpModifyKind.addGlassbreakSensor sn q csn
  | Msg.bskAddSerial BskAddSerialKind.smoke sn q rt =>
    Msg.bskAddSerial BskAddSerialKind.glassbreak sn q rt
  | m => m



/-- The armed-away base-station state used to exercise the trip rule
(C4): one enrolled motion sensor with setting `ALARM_HOME_AND_AWAY`,
entry delays 30 (away) and 1 (home), no countdown running. -/
def tripBase : BSState :=
  { sequence := 0, masterPin := [1, 2, 3, 4], duressPin := none,
    pins := [], components := [([0x31], ⟨4, 1, some true⟩)],
    settings := { entryDelayAway := 30, entryDelayHome := 1,
                  exitDelay := 45, sirenDuration := 5 },
    armed := ArmedSt.armedAway, timeLeft := 0,
    timeLeftTimer := TimerAttr.noneVal, sirenTimer := none }

/-- An armed-away base station with a duress PIN `5678` and one enrolled
keypad, its countdown timer attribute initialized by an earlier
countdown tick (C5). -/
def duressBase : BSState :=
  { sequence := 0, masterPin := [1, 2, 3, 4], duressPin := some [5, 6, 7, 8],
    pins := [], components := [([0x4B], ⟨1, 0, none⟩)],
    settings := { entryDelayAway := 30, entryDelayHome := 1,
                  exitDelay := 45, sirenDuration := 5 },
    armed := ArmedSt.armedAway, timeLeft := 0,
    timeLeftTimer := TimerAttr.timer true, sirenTimer := none }

/-- The state after a successful duress disarm from `duressBase`. -/
def duressBaseDisarmed : BSState :=
  { duressBase with sequence := 1, armed := ArmedSt.off, timeLeft := 0,
                    timeLeftTimer := TimerAttr.timer false }

/-- `duressBase` after an invalid-PIN response (only the sequence
counter moved, by the `_send`). -/
def duressBaseSeq : BSState :=
  { duressBase with sequence := 1 }

/-- An armed-home base station that was armed via `_arm_home`, which
never touches `_time_left_timer`: the attribute is still unset because
`BaseStation.__init__` does not initialize it. -/
def duressBaseHome : BSState :=
  { duressBase with armed := ArmedSt.armedHome,
                    timeLeftTimer := TimerAttr.unset }

/-- A 68-bit demodulated frame: 16 zero nibbles followed by origin
nibble 1 (`KEYPAD`), whose hex string contains no repeat marker. -/
def w10bits : List PSym :=
  List.replicate 64 PSym.zero ++ [PSym.one, PSym.zero, PSym.zero, PSym.zero]

/-- The keypad away-request message of the C2 witness frames. -/
def c2msg : Msg :=
  Msg.kpSimple KpSimpleReq.away [0x31, 0x32, 0x33, 0x34, 0x35] 1

/-- A well-formed keypad away-request frame (checksum 0x6B). -/
def c2frame : List Nat :=
  [0xCC, 0x05, 0x22, 0x31, 0x32, 0x33, 0x34, 0x35, 0x01, 0x14, 0x56, 0x6B]

/-- A sensor-shaped frame with an unrecognised event type and a wrong
checksum byte. -/
def c2bad : List Nat :=
  [0xCC, 0x05, 0x11, 0x31, 0x31, 0x31, 0x31, 0x31, 0x04, 0x05, 0x00]

/-! # Theorems

First a small kit of `Nat` bit-manipulation lemmas used to invert the
packing expressions of the sources. -/

theorem bitShiftRightLor (x y n : Nat) :
    (x ||| y) >>> n = (x >>> n) ||| (y >>> n) := by
  apply Nat.eq_of_testBit_eq
  intro i
  simp [Nat.testBit_lor, Nat.testBit_shiftRight]

theorem bitShiftLeftLor (x y n : Nat) :
    (x ||| y) <<< n = (x <<< n) ||| (y <<< n) := by
  apply Nat.eq_of_testBit_eq
  intro i
  simp only [Nat.testBit_lor, Nat.testBit_shiftLeft]
  cases Nat.decLe n i with
  | isTrue h => simp [h]
  | isFalse h => simp [h]

theorem bitAndShiftLeft (x m n : Nat) :
    (x <<< n) &&& m = (x &&& (m >>> n)) <<< n := by
  apply Nat.eq_of_testBit_eq
  intro i
  simp only [Nat.testBit_land, Nat.testBit_shiftLeft, Nat.testBit_shiftRight]
  cases Nat.decLe n i with
  | isTrue h => simp [h, Nat.add_sub_cancel' h, Nat.add_comm]
  | isFalse h => simp [h]

theorem bitAndShiftRight (x m n : Nat) :
    (x >>> n) &&& m = (x &&& (m <<< n)) >>> n := by
  apply Nat.eq_of_testBit_eq
  intro i
  simp only [Nat.testBit_land, Nat.testBit_shiftRight, Nat.testBit_shiftLeft]
  have h : n ≤ n + i := Nat.le_add_right n i
  simp [h, Nat.add_sub_cancel_left]

theorem bitAndAnd (x a b : Nat) : (x &&& a) &&& b = x &&& (a &&& b) :=
  Nat.land_assoc x a b

theorem bitAndLorSelf (x a b : Nat) :
    (x &&& a) ||| (x &&& b) = x &&& (a ||| b) := by
  apply Nat.eq_of_testBit_eq
  intro i
  simp [Nat.testBit_land, Nat.testBit_lor, Bool.and_or_distrib_left]

theorem bitAndMask (x k : Nat) (h : x < 2 ^ k) : x &&& (2 ^ k - 1) = x := by
  apply Nat.eq_of_testBit_eq
  intro i
  simp only [Nat.testBit_land]
  cases Nat.decLt i k with
  | isTrue hi =>
    have : (2 ^ k - 1 : Nat).testBit i = true := by
      simp [Nat.testBit_two_pow_sub_one, hi]
    simp [this]
  | isFalse hi =>
    have hx : x.testBit i = false :=
      Nat.testBit_eq_false_of_lt
        (lt_of_lt_of_le h (Nat.pow_le_pow_right (by norm_num) (by omega)))
    simp [hx]

theorem bitShiftLeftRight (x n : Nat) : (x <<< n) >>> n = x := by
  apply Nat.eq_of_testBit_eq
  intro i
  simp [Nat.testBit_shiftRight, Nat.testBit_shiftLeft, Nat.add_comm,
    Nat.add_sub_cancel]

theorem bitSmallShiftRight (x k n : Nat) (h : x < 2 ^ k) (hk : k ≤ n) :
    x >>> n = 0 := by
  have : x < 2 ^ n :=
    lt_of_lt_of_le h (Nat.pow_le_pow_right (by norm_num) hk)
  simp [Nat.shiftRight_eq_div_pow, Nat.div_eq_of_lt this]

/-- Recomposing a value from its high and low nibble. -/
theorem bitShiftRecomp (t : Nat) : ((t >>> 4) <<< 4) ||| (t &&& 0xF) = t := by
  apply Nat.eq_of_testBit_eq
  intro i
  simp only [Nat.testBit_lor, Nat.testBit_land, Nat.testBit_shiftLeft,
    Nat.testBit_shiftRight]
  rcases Nat.lt_or_ge i 4 with h | h
  · have h4 : ¬ (4 ≤ i) := by omega
    have h15 : (0xF : Nat).testBit i = true := by interval_cases i <;> decide
    simp [h4, h15]
  · have ht : 4 + (i - 4) = i := by omega
    have h15 : (0xF : Nat).testBit i = false := by
      have : (0xF : Nat) < 2 ^ i :=
        lt_of_lt_of_le (by norm_num)
          (Nat.pow_le_pow_right (by norm_num) h)
      exact Nat.testBit_eq_false_of_lt this
    simp [h, ht, h15]

/-- Recovering both halves of the stuffed byte `(s << 4) | i`. -/
theorem stuffOr : ∀ s < 16, ∀ i < 16,
    (((s <<< 4) ||| i) >>> 4 = s ∧ ((s <<< 4) ||| i) &&& 0xF = i) := by
  decide

/-- Recovering both halves of the stuffed byte `(s << 4) + i`. -/
theorem stuffAdd : ∀ s < 16, ∀ i < 16,
    (((s <<< 4) + i) >>> 4 = s ∧ ((s <<< 4) + i) &&& 0xF = i) := by
  decide

/-- Stuffed bytes stay below 256. -/
theorem stuffLt : ∀ s < 16, ∀ i < 16,
    ((s <<< 4) ||| i) < 256 ∧ ((s <<< 4) + i) < 256 := by
  decide

/-! ## Claim C3 — sequence counters -/

/-- Claim C3, counterexample: the claim says the counter is incremented
modulo 16 (non-keypad: `(initial + n) % 16`, keypad:
`(initial + 4n) % 16`), but both `_inc` methods reduce modulo
`0xF = 15`.  After 15 transmissions from 0 a non-keypad counter is back
at 0, not 15; after 4 keypad transmissions from 0 the counter is 1, not
`16 % 16 = 0`. -/
theorem claimC3_counterexample :
    AbstractDevice.inc^[15] 0 = 0 ∧ AbstractDevice.inc^[15] 0 ≠ (0 + 15) % 16 ∧
      Keypad.inc^[4] 0 = 1 ∧ Keypad.inc^[4] 0 ≠ (0 + 4 * 4) % 16 := by
  decide

/-- Claim C3 (amended): both counters wrap modulo 15 (`%= 0xF`), so from
an initial value below 15, after `n` successful transmissions a
non-keypad device's counter is `(initial + n) % 15` and a keypad's is
`(initial + 4n) % 15`. -/
theorem claimC3_amended (s n : Nat) (hs : s < 15) :
    AbstractDevice.inc^[n] s = (s + n) % 15 ∧
      Keypad.inc^[n] s = (s + 4 * n) % 15 := by
  induction n with
  | zero => simp [Nat.mod_eq_of_lt hs]
  | succ n ih =>
    rw [Function.iterate_succ_apply', Function.iterate_succ_apply',
      ih.1, ih.2]
    unfold AbstractDevice.inc Keypad.inc
    omega

/-- Witness for C3 (amended) at `initial = 3`, `n = 20`. -/
theorem claimC3_amended_witness :
    3 < 15 ∧ (AbstractDevice.inc^[20] 3 = (3 + 20) % 15 ∧
      Keypad.inc^[20] 3 = (3 + 4 * 20) % 15) :=
  ⟨by decide, claimC3_amended 3 20 (by decide)⟩

/-! ## Claim C7 — the S2 encoding example -/

/-- Claim C7, counterexample: `KeypadDisarmPinRequest(sn="167JC",
sequence=0, pin="1234")` encodes to a 16-byte frame whose checksum byte
is `0xB9 = (0x01+0x04+0x21+0x43+0x0F+0xF0+0x51) % 256`, not the 12-byte
frame with checksum `0x78` the claim asserts. -/
theorem claimC7_counterexample :
    (Msg.encode (Msg.kpPin KpPinKind.disarm
        [0x31, 0x36, 0x37, 0x4A, 0x43] 0 [1, 2, 3, 4])).length = 16 ∧
    Msg.checksum (Msg.kpPin KpPinKind.disarm
        [0x31, 0x36, 0x37, 0x4A, 0x43] 0 [1, 2, 3, 4]) = 0xB9 ∧
    ¬ ((Msg.encode (Msg.kpPin KpPinKind.disarm
        [0x31, 0x36, 0x37, 0x4A, 0x43] 0 [1, 2, 3, 4])).length = 12 ∧
       Msg.checksum (Msg.kpPin KpPinKind.disarm
        [0x31, 0x36, 0x37, 0x4A, 0x43] 0 [1, 2, 3, 4]) = 0x78) := by
  decide

/-- Claim C7 (amended): the encoding is the 16-byte frame
`CC 05 66 | "167JC" | 01 04 21 43 0F F0 51 | B9` — payload length code
`0x66`, payload `01 04 21 43 0F F0 51` as claimed, checksum `0xB9`, and
an empty footer. -/
theorem claimC7_amended :
    Msg.encode (Msg.kpPin KpPinKind.disarm
        [0x31, 0x36, 0x37, 0x4A, 0x43] 0 [1, 2, 3, 4]) =
      [0xCC, 0x05, 0x66, 0x31, 0x36, 0x37, 0x4A, 0x43,
       0x01, 0x04, 0x21, 0x43, 0x0F, 0xF0, 0x51, 0xB9] ∧
    Msg.payloadOf (Msg.kpPin KpPinKind.disarm
        [0x31, 0x36, 0x37, 0x4A, 0x43] 0 [1, 2, 3, 4]) =
      [0x01, 0x04, 0x21, 0x43, 0x0F, 0xF0, 0x51] ∧
    Msg.footerOf (Msg.kpPin KpPinKind.disarm
        [0x31, 0x36, 0x37, 0x4A, 0x43] 0 [1, 2, 3, 4]) = [] := by
  decide

section C8

open SerialNumberFormat

theorem landL1 : (48 : Nat) &&& 12 = 0 := by decide
theorem landL2 : (48 : Nat) &&& 48 = 48 := by decide
theorem landL3 : (15 : Nat) &&& 48 = 0 := by decide
theorem landL4 : (15 : Nat) &&& 15 = 15 := by decide
theorem landL5 : (48 : Nat) &&& 192 = 0 := by decide
theorem landL6 : (15 : Nat) &&& 192 = 0 := by decide
theorem landL7 : (48 : Nat) &&& 512 = 0 := by decide
theorem landL8 : (48 : Nat) &&& 2048 = 0 := by decide
theorem landL9 : (48 : Nat) &&& 3 = 0 := by decide
theorem landL10 : (48 : Nat) &&& 128 = 0 := by decide
theorem landL11 : (48 : Nat) &&& 768 = 0 := by decide
theorem landL12 : (48 : Nat) &&& 15 = 0 := by decide
theorem landL13 : (1 : Nat) &&& 1 = 1 := by decide
theorem landL14 : (15 : Nat) &&& 3 = 3 := by decide
theorem landL15 : (48 : Nat) &&& 64 = 0 := by decide
theorem landL16 : (15 : Nat) &&& 128 = 0 := by decide
theorem landL17 : (15 : Nat) &&& 64 = 0 := by decide
theorem landL18 : (15 : Nat) &&& 12 = 12 := by decide
theorem landL19 : (48 : Nat) &&& 1024 = 0 := by decide
theorem landL20 : (15 : Nat) &&& 512 = 0 := by decide
theorem landL21 : (48 : Nat) &&& 256 = 0 := by decide

theorem maskShiftZeroF (x : Nat) : (x &&& 0xF) >>> 4 = 0 :=
  bitSmallShiftRight _ 4 4 (Nat.lt_succ_of_le (Nat.and_le_right)) (le_refl 4)

theorem maskRound4 (x : Nat) : ((x &&& 0x30) >>> 4) <<< 4 = x &&& 0x30 := by
  apply Nat.eq_of_testBit_eq
  intro i
  simp only [Nat.testBit_shiftLeft, Nat.testBit_shiftRight]
  cases Nat.decLe 4 i with
  | isTrue h => simp [h, Nat.add_sub_cancel' h]
  | isFalse h =>
    have hz : (x &&& 48).testBit i = false := by
      simp only [Nat.testBit_land]
      have : (48 : Nat).testBit i = false := by interval_cases i <;> decide
      simp [this]
    simp [h, hz]

theorem maskRound2 (x : Nat) : ((x &&& 0x30) >>> 2) <<< 2 = x &&& 0x30 := by
  apply Nat.eq_of_testBit_eq
  intro i
  simp only [Nat.testBit_shiftLeft, Nat.testBit_shiftRight]
  cases Nat.decLe 2 i with
  | isTrue h => simp [h, Nat.add_sub_cancel' h]
  | isFalse h =>
    have hz : (x &&& 48).testBit i = false := by
      simp only [Nat.testBit_land]
      have : (48 : Nat).testBit i = false := by interval_cases i <;> decide
      simp [this]
    simp [h, hz]

theorem unpackPackCodes (a0 b0 c0 d0 e0 H L : Nat)
    (ha : a0 < 63) (hb : b0 < 63) (hc : c0 < 63) (hd : d0 < 63) (he : e0 < 63)
    (hH : H ≤ 1) (hL : L ≤ 1) :
    unpackAscii
      [ ((b0 &&& 0x0F) <<< 4) ||| (a0 &&& 0xF),
        ((d0 &&& 0x0F) <<< 4) ||| (c0 &&& 0xF),
        ((b0 &&& 0x30) <<< 2) ||| (a0 &&& 0x30) ||| (e0 &&& 0x0F),
        (H <<< 7) ||| (L <<< 6) ||| (e0 &&& 0x30) ||| ((d0 &&& 0x30) >>> 2) |||
          ((c0 &&& 0x30) >>> 4) ] =
      Except.ok ([a0 + 0x30, b0 + 0x30, c0 + 0x30, d0 + 0x30, e0 + 0x30],
        decide (H = 1), decide (L = 1)) := by
  have hma := bitAndMask a0 6 (by omega)
  have hmb := bitAndMask b0 6 (by omega)
  have hmc := bitAndMask c0 6 (by omega)
  have hmd := bitAndMask d0 6 (by omega)
  have hme := bitAndMask e0 6 (by omega)
  norm_num at hma hmb hmc hmd hme
  have hH1 : H &&& 1 = H := by interval_cases H <;> decide
  have hL2 : L &&& 2 = 0 := by interval_cases L <;> decide
  have hL1 : L &&& 1 = L := by interval_cases L <;> decide
  have hH2 : H &&& 0 = 0 := Nat.and_zero H
  have kit : ∀ x y n : Nat, True := fun _ _ _ => trivial
  have hE0 : (((b0 &&& 48) <<< 2 ||| a0 &&& 48 ||| e0 &&& 15) &&& 48 |||
      ((b0 &&& 15) <<< 4 ||| a0 &&& 15) &&& 15) = a0 := by
    simp only [bitShiftRightLor, bitShiftLeftLor, Nat.and_distrib_right,
      bitAndShiftLeft, bitAndShiftRight, bitAndAnd, bitShiftLeftRight,
      maskRound4, maskRound2, maskShiftZeroF]
    simp [landL1, landL2, landL3, landL4, landL5, landL6, landL9, landL12,
      landL14, landL18, Nat.and_zero, Nat.zero_shiftLeft, Nat.zero_shiftRight,
      Nat.zero_or, Nat.or_zero, bitAndLorSelf]
    simp [bitAndLorSelf, hma]
  have hE1 : (((b0 &&& 48) <<< 2 ||| a0 &&& 48 ||| e0 &&& 15) >>> 2 &&& 48 |||
      ((b0 &&& 15) <<< 4 ||| a0 &&& 15) >>> 4) = b0 := by
    simp only [bitShiftRightLor, bitShiftLeftLor, Nat.and_distrib_right,
      bitAndShiftLeft, bitAndShiftRight, bitAndAnd, bitShiftLeftRight,
      maskRound4, maskRound2, maskShiftZeroF]
    simp [landL1, landL2, landL3, landL4, landL5, landL6, landL9, landL12,
      landL14, landL18, Nat.and_zero, Nat.zero_shiftLeft, Nat.zero_shiftRight,
      Nat.zero_or, Nat.or_zero, bitAndLorSelf]
    simp [bitAndLorSelf, hmb]
  have hE2 : ((H <<< 7 ||| L <<< 6 ||| e0 &&& 48 ||| (d0 &&& 48) >>> 2 |||
      (c0 &&& 48) >>> 4) <<< 4 &&& 48 |||
      ((d0 &&& 15) <<< 4 ||| c0 &&& 15) &&& 15) = c0 := by
    simp only [bitShiftRightLor, bitShiftLeftLor, Nat.and_distrib_right,
      bitAndShiftLeft, bitAndShiftRight, bitAndAnd, bitShiftLeftRight,
      maskRound4, maskRound2, maskShiftZeroF]
    simp [landL1, landL2, landL3, landL4, landL5, landL6, landL9, landL11,
      landL12, landL14, landL18, Nat.and_zero, Nat.zero_shiftLeft,
      Nat.zero_shiftRight, Nat.zero_or, Nat.or_zero, bitAndLorSelf]
    simp [bitAndLorSelf, hmc]
  have hE3 : ((H <<< 7 ||| L <<< 6 ||| e0 &&& 48 ||| (d0 &&& 48) >>> 2 |||
      (c0 &&& 48) >>> 4) <<< 2 &&& 48 |||
      ((d0 &&& 15) <<< 4 ||| c0 &&& 15) >>> 4) = d0 := by
    simp only [bitShiftRightLor, bitShiftLeftLor, Nat.and_distrib_right,
      bitAndShiftLeft, bitAndShiftRight, bitAndAnd, bitShiftLeftRight,
      maskRound4, maskRound2, maskShiftZeroF]
    simp [landL1, landL2, landL3, landL4, landL5, landL6, landL9, landL11,
      landL12, landL14, landL18, Nat.and_zero, Nat.zero_shiftLeft,
      Nat.zero_shiftRight, Nat.zero_or, Nat.or_zero, bitAndLorSelf]
    simp [bitAndLorSelf, hmd]
  have hE4 : ((H <<< 7 ||| L <<< 6 ||| e0 &&& 48 ||| (d0 &&& 48) >>> 2 |||
      (c0 &&& 48) >>> 4) &&& 48 |||
      ((b0 &&& 48) <<< 2 ||| a0 &&& 48 ||| e0 &&& 15) &&& 15) = e0 := by
    simp only [bitShiftRightLor, bitShiftLeftLor, Nat.and_distrib_right,
      bitAndShiftLeft, bitAndShiftRight, bitAndAnd, bitShiftLeftRight,
      maskRound4, maskRound2, maskShiftZeroF]
    simp [landL1, landL2, landL3, landL4, landL5, landL6, landL9, landL10,
      landL11, landL12, landL14, landL15, landL18, Nat.and_zero,
      Nat.zero_shiftLeft, Nat.zero_shiftRight, Nat.zero_or, Nat.or_zero,
      bitAndLorSelf]
    simp [bitAndLorSelf, hme]
  have hF1 : ((H <<< 7 ||| L <<< 6 ||| e0 &&& 48 ||| (d0 &&& 48) >>> 2 |||
      (c0 &&& 48) >>> 4) &&& 128) = H <<< 7 := by
    simp only [bitShiftRightLor, bitShiftLeftLor, Nat.and_distrib_right,
      bitAndShiftLeft, bitAndShiftRight, bitAndAnd, bitShiftLeftRight,
      maskRound4, maskRound2, maskShiftZeroF]
    simp [hH1, hL2, landL7, landL8, landL10, landL16]
  have hF2 : ((H <<< 7 ||| L <<< 6 ||| e0 &&& 48 ||| (d0 &&& 48) >>> 2 |||
      (c0 &&& 48) >>> 4) &&& 64) = L <<< 6 := by
    simp only [bitShiftRightLor, bitShiftLeftLor, Nat.and_distrib_right,
      bitAndShiftLeft, bitAndShiftRight, bitAndAnd, bitShiftLeftRight,
      maskRound4, maskRound2, maskShiftZeroF]
    simp [hL1, hH2, landL15, landL17, landL19, landL20, landL21,
      show (1:Nat)&&&0 = 0 by decide, show (64:Nat)>>>7 = 0 by decide]
  have na : a0 ≠ 63 := by omega
  have nb : b0 ≠ 63 := by omega
  have nc : c0 ≠ 63 := by omega
  have nd : d0 ≠ 63 := by omega
  have ne' : e0 ≠ 63 := by omega
  simp only [unpackAscii, List.length_cons, List.length_nil, List.getD]
  norm_num
  rw [hE0, hE1, hE2, hE3, hE4, hF1, hF2]
  refine ⟨by simp [snFromCodes, List.takeWhile, na, nb, nc, nd, ne'], ?_, ?_⟩
  · interval_cases H <;> simp
  · interval_cases L <;> simp

theorem listLen5 {t : Type} (s : List t) (h : s.length = 5) :
    ∃ a b c d e, s = [a, b, c, d, e] := by
  rcases s with _ | ⟨a, _ | ⟨b, _ | ⟨c, _ | ⟨d, _ | ⟨e, _ | ⟨f, u⟩⟩⟩⟩⟩⟩ <;>
    simp at h
  exact ⟨a, b, c, d, e, rfl⟩

theorem listLen6 {t : Type} (s : List t) (h : s.length = 6) :
    ∃ a b c d e f, s = [a, b, c, d, e, f] := by
  rcases s with _ | ⟨a, _ | ⟨b, _ | ⟨c, _ | ⟨d, _ | ⟨e, _ | ⟨f, _ | ⟨g, u⟩⟩⟩⟩⟩⟩⟩ <;>
    simp at h
  exact ⟨a, b, c, d, e, f, rfl⟩

theorem hexDigitSpec (c : Nat) (h : isHexDigitCode c = true) :
    ∃ v, hexCharVal c = Except.ok v ∧ v < 16 ∧ hexChar v = upperHexChar c := by
  unfold isHexDigitCode at h
  unfold hexCharVal hexChar upperHexChar
  simp only [Bool.or_eq_true, Bool.and_eq_true, decide_eq_true_eq] at h
  rcases h with (⟨h1, h2⟩ | ⟨h1, h2⟩) | ⟨h1, h2⟩
  · refine ⟨c - 0x30, ?_, by omega, ?_⟩
    · rw [if_pos ⟨h1, h2⟩]
    · rw [if_pos (by omega), if_neg (by omega)]
      omega
  · refine ⟨c - 0x37, ?_, by omega, ?_⟩
    · rw [if_neg (by omega), if_pos ⟨h1, h2⟩]
    · rw [if_neg (by omega), if_neg (by omega)]
      omega
  · refine ⟨c - 0x57, ?_, by omega, ?_⟩
    · rw [if_neg (by omega), if_neg (by omega), if_pos ⟨h1, h2⟩]
    · rw [if_neg (by omega), if_pos ⟨h1, h2⟩]
      omega

/-- C8 (amended): the ASCII_4B5C round-trip holds for 5-character serial
numbers whose characters lie in `0x30..0x6E` (the claim's `0x6F` fails:
`0x6F - 0x30 = 0x3F` is the blank code and truncates the decoded string),
and the HEX_5B6C round-trip holds for 6 hex characters, returning the
uppercase digits. -/
theorem claimC8_amended :
    (∀ (s : List Nat) (fhb flb : Bool), s.length = 5 →
      (∀ c ∈ s, 0x30 ≤ c ∧ c ≤ 0x6E) →
      unpackAscii (packAscii s fhb flb) = Except.ok (s, fhb, flb)) ∧
    (∀ h : List Nat, h.length = 6 → (∀ c ∈ h, isHexDigitCode c) →
      ∃ p, packHex h = Except.ok p ∧
        unpackHex p = Except.ok (h.map upperHexChar)) := by
  constructor
  · intro s fhb flb hlen hch
    obtain ⟨a, b, c, d, e, rfl⟩ := listLen5 s hlen
    obtain ⟨ha1, ha2⟩ := hch a (by simp)
    obtain ⟨hb1, hb2⟩ := hch b (by simp)
    obtain ⟨hc1, hc2⟩ := hch c (by simp)
    obtain ⟨hd1, hd2⟩ := hch d (by simp)
    obtain ⟨he1, he2⟩ := hch e (by simp)
    obtain ⟨a0, rfl⟩ : ∃ x, a = x + 0x30 := ⟨a - 0x30, by omega⟩
    obtain ⟨b0, rfl⟩ : ∃ x, b = x + 0x30 := ⟨b - 0x30, by omega⟩
    obtain ⟨c0, rfl⟩ : ∃ x, c = x + 0x30 := ⟨c - 0x30, by omega⟩
    obtain ⟨d0, rfl⟩ : ∃ x, d = x + 0x30 := ⟨d - 0x30, by omega⟩
    obtain ⟨e0, rfl⟩ : ∃ x, e = x + 0x30 := ⟨e - 0x30, by omega⟩
    have hrt := unpackPackCodes a0 b0 c0 d0 e0
      (if fhb then 1 else 0) (if flb then 1 else 0)
      (by omega) (by omega) (by omega) (by omega) (by omega)
      (by cases fhb <;> decide) (by cases flb <;> decide)
    cases fhb <;> cases flb <;> simpa [packAscii] using hrt
  · intro h hlen hhex
    obtain ⟨u, v, w, x, y, z, rfl⟩ := listLen6 h hlen
    obtain ⟨vu, hu, hult, huc⟩ := hexDigitSpec u (hhex u (by simp))
    obtain ⟨vv, hv, hvlt, hvc⟩ := hexDigitSpec v (hhex v (by simp))
    obtain ⟨vw, hw, hwlt, hwc⟩ := hexDigitSpec w (hhex w (by simp))
    obtain ⟨vx, hx, hxlt, hxc⟩ := hexDigitSpec x (hhex x (by simp))
    obtain ⟨vy, hy, hylt, hyc⟩ := hexDigitSpec y (hhex y (by simp))
    obtain ⟨vz, hz, hzlt, hzc⟩ := hexDigitSpec z (hhex z (by simp))
    refine ⟨[vu, vv, vw, (vz <<< 4) + vx, vy], ?_, ?_⟩
    · simp [packHex, pyIdx, bind, Except.bind, pure, Except.pure, hu, hv, hw, hx, hy, hz]
    · have h3lo := (stuffAdd vz hzlt vx hxlt).2
      have h3hi := (stuffAdd vz hzlt vx hxlt).1
      have mu := bitAndMask vu 4 (by simpa using hult)
      have mv := bitAndMask vv 4 (by simpa using hvlt)
      have mw := bitAndMask vw 4 (by simpa using hwlt)
      have my := bitAndMask vy 4 (by simpa using hylt)
      norm_num at mu mv mw my
      simp [unpackHex, h3lo, h3hi, mu, mv, mw, my, huc, hvc, hwc, hxc, hyc, hzc]


/-- C8 counterexample: the character `0x6F` ('o') lies in the claimed
range `0x30..0x6F`, but `pack` stores it as code `0x3F`, the blank code,
so `unpack` truncates: the serial "o111 1"-style string `[0x6F, 0x31, 0x31,
0x31, 0x31]` round-trips to the empty string, not to itself. -/
theorem claimC8_counterexample :
    (∀ c ∈ [0x6F, 0x31, 0x31, 0x31, 0x31], 0x30 ≤ c ∧ c ≤ 0x6F) ∧
    unpackAscii (packAscii [0x6F, 0x31, 0x31, 0x31, 0x31] false false) =
      Except.ok ([], false, false) := by
  decide

/-- C8 witness: the amended round-trip at the concrete serial "167JC" with
the high flag set, and at the hex serial "1Ab C39f" (lowercase input,
uppercase output). -/
theorem claimC8_amended_witness :
    unpackAscii (packAscii [0x31, 0x36, 0x37, 0x4A, 0x43] true false) =
      Except.ok ([0x31, 0x36, 0x37, 0x4A, 0x43], true, false) ∧
    ∃ p, packHex [0x31, 0x41, 0x62, 0x43, 0x39, 0x66] = Except.ok p ∧
      unpackHex p = Except.ok [0x31, 0x41, 0x42, 0x43, 0x39, 0x46] := by
  refine ⟨claimC8_amended.1 _ true false (by decide) (by decide), ?_⟩
  have h := claimC8_amended.2 [0x31, 0x41, 0x62, 0x43, 0x39, 0x66]
    (by decide) (by decide)
  have hm : List.map upperHexChar [0x31, 0x41, 0x62, 0x43, 0x39, 0x66] =
      [0x31, 0x41, 0x42, 0x43, 0x39, 0x46] := by decide
  rwa [hm] at h

end C8

section C6


/-- C6 (amended): in the standalone `RFUtils.py` demodulator an inter-edge
duration below 0.4 ms is a glitch that drops that edge and the next:
neither updates `t` or any other field, so after the glitched edge and the
following skipped edge the callback state is exactly what it was before,
and a subsequent frame decodes as if the glitch pair had never occurred.
`Transceiver._listen_cbf` in `simplisafe/pigpio.py` has no such branch
(see the counterexample). -/
theorem claimC6_amended (s : RFUtilsState) (t0 l1 t1 l2 t2 : Nat)
    (hskip : s.skip = false) (ht : s.t = some t0)
    (hdt : edgeDt t0 t1 < 400) :
    RFUtils.recvCbf (RFUtils.recvCbf s l1 t1) l2 t2 = s := by
  unfold RFUtils.recvCbf
  rw [ht]
  simp only [hskip, Bool.false_eq_true, if_false, if_pos hdt]
  rw [if_pos trivial]
  cases s with
  | mk d sk e t sf0 sf1 sb =>
    simp only at hskip ht
    subst hskip
    subst ht
    rfl

/-- C6 witness: a concrete glitched edge pair (duration 300 µs) restores
the demodulator state exactly. -/
theorem claimC6_amended_witness :
    RFUtils.recvCbf (RFUtils.recvCbf
      ({ done := false, skip := false, encoded := [PSym.one],
         t := some 1000, startFlag0 := true, startFlag1 := false,
         syncBuffer := [PSym.one] } : RFUtilsState) 0 1300) 1 2000 =
      { done := false, skip := false, encoded := [PSym.one],
        t := some 1000, startFlag0 := true, startFlag1 := false,
        syncBuffer := [PSym.one] } :=
  claimC6_amended _ 1000 0 1300 1 2000 rfl rfl (by decide)

/-- C6 counterexample: `Transceiver._listen_cbf` does not drop sub-0.4 ms
edges: an edge 300 µs after the previous one, arriving after a valid
preamble, appends a `0` symbol to the receive buffer. -/
theorem claimC6_counterexample :
    (Transceiver.listenCbf
      ({ rxDone := false, rxBuffer := [], rxT := some 1000,
         rxPreambleLow := true, rxPreambleHigh := true,
         rxSyncBuffer := [PSym.one, PSym.one, PSym.one, PSym.one] } :
        ListenState) 1 1300).rxBuffer = [PSym.zero] := by
  decide

end C6

section C9


/-- C9: `Sensor._send` does not transmit three times.  On a fresh sensor
state a send emits exactly one transmission; the 2-second `Timer` is
constructed but never started (`started := false`), `_tx_count` stays 0
and `_current_msg` stays unset, so no retransmission can ever fire.  And
in the only situation where the supersede guard
`msg == self._current_msg` would be taken with `_t` still `None`,
`self._t.cancel()` raises `AttributeError`. -/
theorem claimC9_bug :
    (∀ m : Nat,
      Sensor.sendStep
        { currentMsg := none, timer := none, txCount := 0, sequence := 0 } m =
      Except.ok ([m],
        { currentMsg := none,
          timer := some { interval := 2, msgArg := m, started := false },
          txCount := 0, sequence := 1 })) ∧
    Sensor.sendStep
      { currentMsg := some 7, timer := none, txCount := 0, sequence := 0 } 7 =
      Except.error PyErr.attrErr := by
  constructor
  · intro m
    simp [Sensor.sendStep, bind, Except.bind, AbstractDevice.inc]
  · decide

end C9

section C4

/-- C4: the trip rule holds only for ARMED_AWAY.  (1) An armed-away trip
with `time_left = 0` starts the countdown from `entry_delay_away` (one
tick runs immediately: 30 becomes 29 with a live 1-second timer).
(2) Code bug: an armed-home trip never sets `time_left` to
`entry_delay_home` — `_trip` tests `is_armed_away()` in both branches, so
`time_left` stays 0 and `_countdown` invokes `_alarm()` at once, which
calls `start_siren()` and then crashes on the misspelled
`self._sirent_timer`.  (3) A trip while `time_left > 0` leaves the state
unchanged.  (4) `instant_trip` can never take effect through
`_process_msg`: `add_component` stores the flag under the misspelled key
`instat_trigger`, so `c.get('instant_trip')` is always `None` even for a
component enrolled with the flag set. -/
def tripBaseTicking : BSState :=
  { tripBase with timeLeft := 29, timeLeftTimer := TimerAttr.timer true }

def tripBaseHome : BSState :=
  { tripBase with armed := ArmedSt.armedHome }

def tripBaseMidCountdown : BSState :=
  { tripBase with timeLeft := 5, timeLeftTimer := TimerAttr.timer true }

theorem claimC4_bug :
    BaseStation.processMsg tripBase
        (BSEvent.motionSensorMessage [0x31] 0x02) =
      ([], Except.ok tripBaseTicking) ∧
    BaseStation.processMsg tripBaseHome
        (BSEvent.motionSensorMessage [0x31] 0x02) =
      ([Call.startSirenHook], Except.error PyErr.attrErr) ∧
    BaseStation.processMsg tripBaseMidCountdown
        (BSEvent.motionSensorMessage [0x31] 0x02) =
      ([], Except.ok tripBaseMidCountdown) ∧
    ∀ c : BSComponent, BSComponent.instantTrip c = none := by
  refine ⟨by decide, by decide, by decide, fun c => rfl⟩

end C4

section C5

/-- C5: the duress behaviour holds from ARMED_AWAY but crashes from
ARMED_HOME.  (1) From `duressBase`, a duress-PIN request sends the
DISARM response, disarms (armed becomes OFF), and calls `alarm()`
silently — no `start_siren()`.  (2) A request whose PIN matches nothing
sends the INVALID response and changes nothing but the sequence counter.
(3) Code bug: from `duressBaseHome` — an armed state reachable via
`_arm_home`, which never assigns `_time_left_timer` and
`BaseStation.__init__` does not initialize it — the duress path raises
`AttributeError` inside `_alarm`'s `_cancel_countdown` before `alarm()`
is ever called. -/
theorem claimC5_bug :
    BaseStation.processMsg duressBase
        (BSEvent.keypadAlarmPinRequest [0x4B] [5, 6, 7, 8]) =
      ([Call.sendAlarmPinResponse [0x4B] AlarmPinResp.disarmResp,
        Call.stopSirenHook, Call.disarmHook, Call.alarmHook],
       Except.ok duressBaseDisarmed) ∧
    BaseStation.processMsg duressBase
        (BSEvent.keypadAlarmPinRequest [0x4B] [9, 9, 9, 9]) =
      ([Call.sendAlarmPinResponse [0x4B] AlarmPinResp.invalidResp],
       Except.ok duressBaseSeq) ∧
    BaseStation.processMsg duressBaseHome
        (BSEvent.keypadAlarmPinRequest [0x4B] [5, 6, 7, 8]) =
      ([Call.sendAlarmPinResponse [0x4B] AlarmPinResp.disarmResp,
        Call.stopSirenHook, Call.disarmHook],
       Except.error PyErr.attrErr) := by
  refine ⟨by decide, by decide, by decide⟩

end C5

section C10

theorem strFindAuxNone (p : Nat) (ps l : List Nat)
    (h : ¬ (p :: ps) <:+: l) : ∀ i, strFindAux l (p :: ps) i = none := by
  induction l with
  | nil => intro i; rfl
  | cons a tl ih =>
    intro i
    unfold strFindAux
    rw [if_neg, ih]
    · intro hin
      exact h (List.infix_cons hin)
    · intro hpre
      exact h (List.isPrefixOf_iff_prefix.mp hpre).isInfix
  
theorem strFindNone (p : Nat) (ps l : List Nat)
    (h : ¬ (p :: ps) <:+: l) : strFind l (p :: ps) = -1 := by
  unfold strFind
  rw [strFindAuxNone p ps l h 0]

theorem pySliceToNegOne (l : List Nat) : pySliceTo l (-1) = l.dropLast := by
  unfold pySliceTo
  rw [if_pos (by omega)]
  have : ((l.length : Int) + -1).toNat = l.length - 1 := by omega
  rw [this, List.dropLast_eq_take]

/-- C10: on a glitch-free non-base-station frame whose hex string does
not contain `'F'` followed by its own first four characters,
`Transceiver.decode` does not reject the frame for the missing repeat
marker: `find` returns `-1`, the Python slice `raw_hex[:-1]` silently
drops only the final hex character, and the odd-length check and
nibble-swap run on that truncated string. -/
theorem claimC10 (bits : List PSym) (c : Nat)
    (hbad : bits.count PSym.bad = 0)
    (hc : (rawHexOf bits).get? 16 = some c)
    (ho1 : swapVal c ≤ 10) (ho2 : swapVal c ≠ 0)
    (hno : ¬ (0x46 :: (rawHexOf bits).take 4) <:+: rawHexOf bits) :
    strFind (rawHexOf bits) (0x46 :: (rawHexOf bits).take 4) = -1 ∧
    Transceiver.decode bits =
      (if ((rawHexOf bits).dropLast.length) % 2 = 1
       then Except.error DecodeErr.oddByteCount
       else Except.ok (swapBytes (rawHexOf bits).dropLast)) := by
  have hfind := strFindNone _ _ _ hno
  refine ⟨hfind, ?_⟩
  unfold Transceiver.decode
  rw [if_neg (by simp [hbad])]
  simp only [hc]
  rw [if_neg (by omega), if_neg ho2, hfind, pySliceToNegOne]

/-- C10 witness: the concrete 68-bit frame `w10bits` (origin nibble 1,
no marker occurrence) is truncated by one hex character and decoded. -/
theorem claimC10_witness :
    strFind (rawHexOf w10bits) (0x46 :: (rawHexOf w10bits).take 4) = -1 ∧
    Transceiver.decode w10bits =
      (if ((rawHexOf w10bits).dropLast.length) % 2 = 1
       then Except.error DecodeErr.oddByteCount
       else Except.ok (swapBytes (rawHexOf w10bits).dropLast)) :=
  claimC10 w10bits 0x31 (by decide) (by decide) (by decide) (by decide)
    (by decide)

end C10

section C2

theorem pyIdxOk (l : List Nat) (i : Nat) (h : i < l.length) :
    pyIdx l i = Except.ok (l.getD i 0) := by
  unfold pyIdx
  rw [List.getD_eq_get?]
  cases hq : l.get? i with
  | none => exact absurd (List.get?_eq_none.mp hq) (by omega)
  | some v => rfl

/-- C2 counterexample: three frames on which `Message.factory`'s
checksum behaviour differs from the claim.  (1) A sensor-shaped frame
with an unrecognised event type and a wrong checksum byte: the
`NotImplementedError` from the exhausted subclass scan propagates and the
checksum is never examined.  (2) A keypad frame whose checksum byte
equals the sum of its own payload bytes is rejected with a checksum
error, because the low nibble of the sequence byte is not preserved by
the parse and the checksum is validated against the re-derived payload.
(3) The same frame with the re-derived checksum value is accepted even
though that byte differs from the input payload's sum. -/
theorem claimC2_counterexample :
    (([0x04, 0x05] : List Nat).sum % 256 ≠ 0x00 ∧
     Message.factory [0xCC, 0x05, 0x11, 0x31, 0x31, 0x31, 0x31, 0x31,
                      0x04, 0x05, 0x00] =
       Except.error PyErr.notImpl) ∧
    (([0x01, 0x17, 0x56] : List Nat).sum % 256 = 0x6E ∧
     Message.factory [0xCC, 0x05, 0x22, 0x31, 0x32, 0x33, 0x34, 0x35,
                      0x01, 0x17, 0x56, 0x6E] =
       Except.error PyErr.chkErr) ∧
    (([0x01, 0x17, 0x56] : List Nat).sum % 256 ≠ 0x6B ∧
     Message.factory [0xCC, 0x05, 0x22, 0x31, 0x32, 0x33, 0x34, 0x35,
                      0x01, 0x17, 0x56, 0x6B] =
       Except.ok (Msg.kpSimple KpSimpleReq.away
         [0x31, 0x32, 0x33, 0x34, 0x35] 1)) := by
  refine ⟨⟨by decide, by decide⟩, ⟨by decide, by decide⟩,
          by decide, by decide⟩

/-- C2 (amended): `checksum` is `sum(payload) % 256` and sits at offset
`8 + len(payload)` of every encoded message; `Message.factory` validates
the received byte against the checksum of the message object the
subclass dispatch returned (whose payload is re-derived, not the input
slice), raising the mismatch error only when the dispatch itself
succeeded, and propagating a dispatch error (such as the
`NotImplementedError` of an exhausted scan) without ever reaching the
checksum check. -/
theorem claimC2_amended :
    (∀ m : Msg, Msg.checksum m = (Msg.payloadOf m).sum % 256) ∧
    (∀ m : Msg, (Msg.snOf m).length = 5 →
      (Msg.encode m).get? (8 + (Msg.payloadOf m).length) =
        some (Msg.checksum m)) ∧
    (∀ (b : List Nat) (msg : Msg), 9 ≤ b.length →
      b.getD 0 0 * 256 + b.getD 1 0 = 0xCC05 →
      Msg.plcValid (b.getD 2 0) = true →
      ((b.drop 3).take 5).any (fun c => 128 ≤ c) = false →
      8 + Msg.payloadLengths (b.getD 2 0) < b.length →
      Message.dispatch (b.getD 2 0) ((b.drop 3).take 5)
          ((b.drop 8).take (Msg.payloadLengths (b.getD 2 0)))
          (b.drop (8 + Msg.payloadLengths (b.getD 2 0) + 1)) =
        Except.ok msg →
      Message.factory b =
        (if b.getD (8 + Msg.payloadLengths (b.getD 2 0)) 0 ≠ Msg.checksum msg
         then Except.error PyErr.chkErr
         else Except.ok msg)) ∧
    (∀ (b : List Nat) (e : PyErr), 9 ≤ b.length →
      b.getD 0 0 * 256 + b.getD 1 0 = 0xCC05 →
      Msg.plcValid (b.getD 2 0) = true →
      ((b.drop 3).take 5).any (fun c => 128 ≤ c) = false →
      Message.dispatch (b.getD 2 0) ((b.drop 3).take 5)
          ((b.drop 8).take (Msg.payloadLengths (b.getD 2 0)))
          (b.drop (8 + Msg.payloadLengths (b.getD 2 0) + 1)) =
        Except.error e →
      Message.factory b = Except.error e) := by
  refine ⟨fun m => rfl, ?_, ?_, ?_⟩
  · intro m hsn
    have he : Msg.encode m =
        ([0xCC, 0x05, Msg.plcOf m] ++ Msg.snOf m ++ Msg.payloadOf m) ++
          Msg.checksum m :: Msg.footerOf m := by
      simp [Msg.encode]
    have hlen : ([0xCC, 0x05, Msg.plcOf m] ++ Msg.snOf m ++
        Msg.payloadOf m).length = 8 + (Msg.payloadOf m).length := by
      simp [hsn]
      omega
    rw [he, List.get?_append_right (by omega), hlen]
    simp
  · intro b msg h9 hv hplc hsn hchk hdisp
    unfold Message.factory
    rw [if_neg (by omega)]
    simp only [pyIdxOk b 0 (by omega), pyIdxOk b 1 (by omega),
      pyIdxOk b 2 (by omega), pyIdxOk b (8 + Msg.payloadLengths (b.getD 2 0)) hchk,
      hv, hplc, hsn, hdisp, bind, Except.bind, pure, Except.pure]
    simp
  · intro b e h9 hv hplc hsn hdisp
    unfold Message.factory
    rw [if_neg (by omega)]
    simp only [pyIdxOk b 0 (by omega), pyIdxOk b 1 (by omega),
      pyIdxOk b 2 (by omega),
      hv, hplc, hsn, hdisp, bind, Except.bind, pure, Except.pure]
    simp

/-- C2 witness: the amended checksum statement at a concrete well-formed
keypad frame and at a concrete frame whose dispatch fails. -/
theorem claimC2_amended_witness :
    (Msg.encode c2msg).get? (8 + (Msg.payloadOf c2msg).length) =
      some (Msg.checksum c2msg) ∧
    Message.factory c2frame =
      (if c2frame.getD (8 + Msg.payloadLengths (c2frame.getD 2 0)) 0 ≠
          Msg.checksum c2msg
       then Except.error PyErr.chkErr else Except.ok c2msg) ∧
    Message.factory c2bad = Except.error PyErr.notImpl :=
  ⟨claimC2_amended.2.1 c2msg (by decide),
   claimC2_amended.2.2.1 c2frame c2msg (by decide) (by decide) (by decide)
     (by decide) (by decide) (by decide),
   claimC2_amended.2.2.2 c2bad PyErr.notImpl (by decide) (by decide)
     (by decide) (by decide) (by decide)⟩

end C2

section C1

open SerialNumberFormat Msg

theorem listLen4 {t : Type} (s : List t) (h : s.length = 4) :
    ∃ a b c d, s = [a, b, c, d] := by
  rcases s with _ | ⟨a, _ | ⟨b, _ | ⟨c, _ | ⟨d, _ | ⟨e, u⟩⟩⟩⟩⟩ <;>
    simp at h
  exact ⟨a, b, c, d, rfl⟩

/-- The ASCII_4B5C round-trip for 5-character serials with characters in
`0x30..0x6E` (shared by the round-trip claims). -/
theorem asciiRoundTrip (s : List Nat) (la ra : Bool)
    (hlen : s.length = 5) (hch : ∀ c ∈ s, 0x30 ≤ c ∧ c ≤ 0x6E) :
    unpackAscii (packAscii s la ra) = Except.ok (s, la, ra) := by
  obtain ⟨a, b, c, d, e, rfl⟩ := listLen5 s hlen
  obtain ⟨ha1, ha2⟩ := hch a (by simp)
  obtain ⟨hb1, hb2⟩ := hch b (by simp)
  obtain ⟨hc1, hc2⟩ := hch c (by simp)
  obtain ⟨hd1, hd2⟩ := hch d (by simp)
  obtain ⟨he1, he2⟩ := hch e (by simp)
  obtain ⟨a0, rfl⟩ : ∃ x, a = x + 0x30 := ⟨a - 0x30, by omega⟩
  obtain ⟨b0, rfl⟩ : ∃ x, b = x + 0x30 := ⟨b - 0x30, by omega⟩
  obtain ⟨c0, rfl⟩ : ∃ x, c = x + 0x30 := ⟨c - 0x30, by omega⟩
  obtain ⟨d0, rfl⟩ : ∃ x, d = x + 0x30 := ⟨d - 0x30, by omega⟩
  obtain ⟨e0, rfl⟩ : ∃ x, e = x + 0x30 := ⟨e - 0x30, by omega⟩
  have hrt := unpackPackCodes a0 b0 c0 d0 e0
    (if la then 1 else 0) (if ra then 1 else 0)
    (by omega) (by omega) (by omega) (by omega) (by omega)
    (by cases la <;> decide) (by cases ra <;> decide)
  cases la <;> cases ra <;> simpa [packAscii] using hrt

/-- The HEX_5B6C round-trip for canonical (uppercase) base-station
serials, together with the length of the packed form. -/
theorem hexRoundTrip (h : List Nat) (hh : bsSnOk h = true) :
    packHex h = Except.ok (packHexT h) ∧
    (packHexT h).length = 5 ∧
    unpackHex (packHexT h) = Except.ok h := by
  simp only [bsSnOk, Bool.and_eq_true, List.all_eq_true, decide_eq_true_eq,
    Bool.or_eq_true] at hh
  have hlen : h.length = 6 := hh.1
  have hch : ∀ c ∈ h, (0x30 ≤ c ∧ c ≤ 0x39) ∨ (0x41 ≤ c ∧ c ≤ 0x46) :=
    fun c hc => hh.2 c hc
  obtain ⟨u, v, w, x, y, z, rfl⟩ := listLen6 h hlen
  have hhex : ∀ c ∈ [u, v, w, x, y, z], isHexDigitCode c = true := by
    intro c hc
    rcases hch c hc with ⟨h1, h2⟩ | ⟨h1, h2⟩ <;>
      (simp [isHexDigitCode]; omega)
  obtain ⟨vu, hu, hult, huc⟩ := hexDigitSpec u (hhex u (by simp))
  obtain ⟨vv, hv, hvlt, hvc⟩ := hexDigitSpec v (hhex v (by simp))
  obtain ⟨vw, hw, hwlt, hwc⟩ := hexDigitSpec w (hhex w (by simp))
  obtain ⟨vx, hx, hxlt, hxc⟩ := hexDigitSpec x (hhex x (by simp))
  obtain ⟨vy, hy, hylt, hyc⟩ := hexDigitSpec y (hhex y (by simp))
  obtain ⟨vz, hz, hzlt, hzc⟩ := hexDigitSpec z (hhex z (by simp))
  have hpk : packHex [u, v, w, x, y, z] =
      Except.ok [vu, vv, vw, (vz <<< 4) + vx, vy] := by
    simp [packHex, pyIdx, bind, Except.bind, pure, Except.pure,
      hu, hv, hw, hx, hy, hz]
  have hpt : packHexT [u, v, w, x, y, z] =
      [vu, vv, vw, (vz <<< 4) + vx, vy] := by
    unfold packHexT
    rw [hpk]
  refine ⟨by rw [hpk, hpt], by simp [hpt], ?_⟩
  rw [hpt]
  have hUp : ∀ c ∈ [u, v, w, x, y, z], upperHexChar c = c := by
    intro c hc
    rcases hch c hc with ⟨h1, h2⟩ | ⟨h1, h2⟩ <;>
      (unfold upperHexChar; rw [if_neg (by omega)])
  have hucI : hexChar vu = u := by rw [huc, hUp u (by simp)]
  have hvcI : hexChar vv = v := by rw [hvc, hUp v (by simp)]
  have hwcI : hexChar vw = w := by rw [hwc, hUp w (by simp)]
  have hxcI : hexChar vx = x := by rw [hxc, hUp x (by simp)]
  have hycI : hexChar vy = y := by rw [hyc, hUp y (by simp)]
  have hzcI : hexChar vz = z := by rw [hzc, hUp z (by simp)]
  have h3lo := (stuffAdd vz hzlt vx hxlt).2
  have h3hi := (stuffAdd vz hzlt vx hxlt).1
  have mu := bitAndMask vu 4 (by simpa using hult)
  have mv := bitAndMask vv 4 (by simpa using hvlt)
  have mw := bitAndMask vw 4 (by simpa using hwlt)
  have my := bitAndMask vy 4 (by simpa using hylt)
  norm_num at mu mv mw my
  simp [unpackHex, h3lo, h3hi, mu, mv, mw, my,
    hucI, hvcI, hwcI, hxcI, hycI, hzcI]

/-- Reduction of `Message.factory` to the dispatch result and the
checksum comparison (shared evaluation lemma). -/
theorem factoryDispatchOk (b : List Nat) (w : Msg) (h9 : 9 ≤ b.length)
    (hv : b.getD 0 0 * 256 + b.getD 1 0 = 0xCC05)
    (hplc : plcValid (b.getD 2 0) = true)
    (hsn : ((b.drop 3).take 5).any (fun c => 128 ≤ c) = false)
    (hchk : 8 + payloadLengths (b.getD 2 0) < b.length)
    (hdisp : Message.dispatch (b.getD 2 0) ((b.drop 3).take 5)
        ((b.drop 8).take (payloadLengths (b.getD 2 0)))
        (b.drop (8 + payloadLengths (b.getD 2 0) + 1)) = Except.ok w) :
    Message.factory b =
      (if b.getD (8 + payloadLengths (b.getD 2 0)) 0 ≠ Msg.checksum w
       then Except.error PyErr.chkErr
       else Except.ok w) := by
  unfold Message.factory
  rw [if_neg (by omega)]
  simp only [pyIdxOk b 0 (by omega), pyIdxOk b 1 (by omega),
    pyIdxOk b 2 (by omega), pyIdxOk b (8 + payloadLengths (b.getD 2 0)) hchk,
    hv, hplc, hsn, hdisp, bind, Except.bind, pure, Except.pure]
  simp

/-- `Message.factory` on a canonically encoded message, reduced to the
subclass dispatch on the message's own fields. -/
theorem factoryEncode (v w : Msg)
    (hsn5 : (snOf v).length = 5)
    (hsn128 : ((snOf v).any fun c => 128 ≤ c) = false)
    (hplc : plcValid (plcOf v) = true)
    (hpl : (payloadOf v).length = payloadLengths (plcOf v))
    (hdisp : Message.dispatch (plcOf v) (snOf v) (payloadOf v)
        (footerOf v) = Except.ok w)
    (hchk : Msg.checksum w = Msg.checksum v) :
    Message.factory (Msg.encode v) = Except.ok w := by
  have hb : Msg.encode v = 0xCC :: 0x05 :: plcOf v ::
      (snOf v ++ (payloadOf v ++ (Msg.checksum v :: footerOf v))) := by
    simp [Msg.encode]
  have h0 : (Msg.encode v).getD 0 0 = 0xCC := by rw [hb]; rfl
  have h1 : (Msg.encode v).getD 1 0 = 0x05 := by rw [hb]; rfl
  have h2 : (Msg.encode v).getD 2 0 = plcOf v := by rw [hb]; rfl
  have hd3 : (Msg.encode v).drop 3 =
      snOf v ++ (payloadOf v ++ (Msg.checksum v :: footerOf v)) := by
    rw [hb]; rfl
  have hsn : ((Msg.encode v).drop 3).take 5 = snOf v := by
    rw [hd3]
    exact List.take_left' hsn5
  have hd8 : (Msg.encode v).drop 8 =
      payloadOf v ++ (Msg.checksum v :: footerOf v) := by
    have : (Msg.encode v).drop 8 = (((Msg.encode v).drop 3).drop 5) := by
      rw [List.drop_drop]
    rw [this, hd3, List.drop_left' hsn5]
  have hpay : ((Msg.encode v).drop 8).take (payloadLengths (plcOf v)) =
      payloadOf v := by
    rw [hd8]
    exact List.take_left' hpl
  have hre : payloadOf v ++ (Msg.checksum v :: footerOf v) =
      (payloadOf v ++ [Msg.checksum v]) ++ footerOf v := by simp
  have hfoot : (Msg.encode v).drop (8 + payloadLengths (plcOf v) + 1) =
      footerOf v := by
    have ha : (8 : Nat) + payloadLengths (plcOf v) + 1 =
        8 + (payloadLengths (plcOf v) + 1) := by omega
    rw [ha, ← List.drop_drop, hd8, hre]
    exact List.drop_left' (by simp [hpl])
  have hcb : (Msg.encode v).getD (8 + payloadLengths (plcOf v)) 0 =
      Msg.checksum v := by
    rw [List.getD_eq_getElem?_getD]
    have hq : (Msg.encode v).get? (8 + payloadLengths (plcOf v)) =
        some (Msg.checksum v) := by
      rw [← List.get?_drop, hd8]
      rw [List.get?_append_right (by simp [hpl])]
      simp [hpl]
    rw [← List.get?_eq_getElem?, hq]
    rfl
  have hlen : 8 + payloadLengths (plcOf v) < (Msg.encode v).length := by
    rw [hb]
    simp [hsn5, hpl]
    omega
  have h9 : 9 ≤ (Msg.encode v).length := by
    rw [hb]
    simp [hsn5]
    omega
  have := factoryDispatchOk (Msg.encode v) w h9
    (by rw [h0, h1]) (by rw [h2]; exact hplc)
    (by rw [hsn]; exact hsn128)
    (by rw [h2]; exact hlen)
    (by rw [h2, hsn, hpay, hfoot]; exact hdisp)
  rw [this, h2, hcb, hchk, if_neg (by omega)]

theorem dispKpSimple (kind : KpSimpleReq) (sn : List Nat) (q : Nat)
    (hq : q < 16) :
    Message.dispatch 0x22 sn (payloadOf (Msg.kpSimple kind sn q)) [] =
      Except.ok (Msg.kpSimple kind sn q) := by
  have hseq := (stuffOr q hq 4 (by decide)).1
  have hpay : payloadOf (Msg.kpSimple kind sn q) =
      [0x01, (q <<< 4) ||| 0x4, kind.event] := by
    cases kind <;> rfl
  rw [hpay]
  cases kind <;>
    simp [Message.dispatch, ComponentMessage.factory, KeypadMessage.factory,
      KeypadRemoveComponentScrollMenuRequest.factory, KeypadPinMessage.factory,
      AbstractKeypadSimpleRequest.factory, KeypadNewDialCodeRequest.factory,
      AbstractKeypadModifyComponentMenuRequest.factory,
      KeypadAddComponentTypeMenuRequest.factory,
      OriginType.ofNat, KeypadEventType.ofNat, KeypadEventType.values,
      KpSimpleReq.all, KpSimpleReq.event, catchVE, PyErr.isValueError,
      pyIdx, pyLast, bind, Except.bind, pure, Except.pure, hseq]

theorem dispKpRemoveScroll (sn : List Nat) (q n : Nat) (hq : q < 16) :
    Message.dispatch 0x33 sn
        (payloadOf (Msg.kpRemoveComponentScroll sn q n)) [] =
      Except.ok (Msg.kpRemoveComponentScroll sn q n) := by
  have hseq := (stuffOr q hq 4 (by decide)).1
  have hpay : payloadOf (Msg.kpRemoveComponentScroll sn q n) =
      [0x01, (q <<< 4) ||| 0x4, n, 0x45] := rfl
  rw [hpay]
  simp [Message.dispatch, ComponentMessage.factory, KeypadMessage.factory,
    KeypadRemoveComponentScrollMenuRequest.factory,
    OriginType.ofNat, KeypadEventType.ofNat, KeypadEventType.values,
    catchVE, PyErr.isValueError,
    pyIdx, pyLast, bind, Except.bind, pure, Except.pure, hseq]

theorem dispKpAddComponentType (sn : List Nat) (q ct : Nat) (hq : q < 16)
    (hct : ct ≤ 9) :
    Message.dispatch 0x33 sn
        (payloadOf (Msg.kpAddComponentType sn q ct)) [] =
      Except.ok (Msg.kpAddComponentType sn q ct) := by
  have hseq := (stuffOr q hq 4 (by decide)).1
  have hnct : ¬ 9 < ct := by omega
  have hpay : payloadOf (Msg.kpAddComponentType sn q ct) =
      [0x01, (q <<< 4) ||| 0x4, ct, 0x75] := rfl
  rw [hpay]
  simp [Message.dispatch, ComponentMessage.factory, KeypadMessage.factory,
    KeypadRemoveComponentScrollMenuRequest.factory, KeypadPinMessage.factory,
    AbstractKeypadSimpleRequest.factory, KeypadNewDialCodeRequest.factory,
    AbstractKeypadModifyComponentMenuRequest.factory,
    KeypadAddComponentTypeMenuRequest.factory,
    OriginType.ofNat, KeypadEventType.ofNat, KeypadEventType.values,
    catchVE, PyErr.isValueError,
    pyIdx, pyLast, bind, Except.bind, pure, Except.pure, hseq, hnct]

theorem dispKpPin (kind : KpPinKind) (sn : List Nat) (q : Nat)
    (pin : List Nat) (hq : q < 16) (hpin : pinOk pin = true) :
    Message.dispatch 0x66 sn
        (payloadOf (Msg.kpPin kind sn q pin)) [] =
      Except.ok (Msg.kpPin kind sn q pin) := by
  simp only [pinOk, Bool.and_eq_true, List.all_eq_true, decide_eq_true_eq] at hpin
  obtain ⟨p0, p1, p2, p3, rfl⟩ := listLen4 pin (by simpa using hpin.1)
  have hb0 := hpin.2 p0 (by simp)
  have hb1 := hpin.2 p1 (by simp)
  have hb2 := hpin.2 p2 (by simp)
  have hb3 := hpin.2 p3 (by simp)
  have hseq := (stuffOr q hq 4 (by decide)).1
  have hs0 := stuffAdd p1 (by omega) p0 (by omega)
  have hs1 := stuffAdd p3 (by omega) p2 (by omega)
  have hpay : payloadOf (Msg.kpPin kind sn q [p0, p1, p2, p3]) =
      [0x01, (q <<< 4) ||| 0x4, (p1 <<< 4) + p0, (p3 <<< 4) + p2,
       0x0F, 0xF0, kind.event] := by
    cases kind <;> rfl
  rw [hpay]
  cases kind <;>
    (simp [Message.dispatch, ComponentMessage.factory, KeypadMessage.factory,
      KeypadRemoveComponentScrollMenuRequest.factory, KeypadPinMessage.factory,
      OriginType.ofNat, KeypadEventType.ofNat, KeypadEventType.values,
      KpPinKind.event, catchVE, PyErr.isValueError,
      pyIdx, pyLast, bind, Except.bind, pure, Except.pure,
      hseq, hs0.1, hs0.2, hs1.1, hs1.2];
     rw [if_neg (by omega)])

theorem packFlagByteLt (s : List Nat) :
    (packAscii s false false).getD 3 0 < 64 := by
  unfold packAscii
  simp only [List.getD, Bool.false_eq_true, if_false, Nat.zero_shiftLeft,
    Nat.zero_or]
  have h64 : (64 : Nat) = 2 ^ 6 := by norm_num
  set b : Nat → Nat := fun i =>
    if i < s.length then s.getD i 0 - 0x30 else 0x3F with hbdef
  have h1 : b 4 &&& 0x30 < 64 :=
    lt_of_le_of_lt Nat.and_le_right (by norm_num)
  have h2 : (b 3 &&& 0x30) >>> 2 < 64 := by
    have hle : b 3 &&& 0x30 ≤ 0x30 := Nat.and_le_right
    have hdiv := Nat.div_le_div_right (c := 4) hle
    rw [Nat.shiftRight_eq_div_pow]
    have hp : (2 : Nat) ^ 2 = 4 := by norm_num
    rw [hp]
    omega
  have h3 : (b 2 &&& 0x30) >>> 4 < 64 := by
    have hle : b 2 &&& 0x30 ≤ 0x30 := Nat.and_le_right
    have hdiv := Nat.div_le_div_right (c := 16) hle
    rw [Nat.shiftRight_eq_div_pow]
    have hp : (2 : Nat) ^ 4 = 16 := by norm_num
    rw [hp]
    omega
  rw [h64]
  exact Nat.or_lt_two_pow (Nat.or_lt_two_pow (h64 ▸ h1) (h64 ▸ h2)) (h64 ▸ h3)

theorem dispKpModify (kind : KpModifyKind) (sn csn : List Nat) (q : Nat)
    (hq : q < 16) (hcsn : csnOk csn = true) :
    Message.dispatch 0x66 sn (payloadOf (Msg.kpModify kind sn q csn)) [] =
      Except.ok (Msg.canonParse (Msg.kpModify kind sn q csn)) := by
  simp only [csnOk, Bool.and_eq_true, List.all_eq_true, decide_eq_true_eq] at hcsn
  have hlen5 : csn.length = 5 := by simpa using hcsn.1
  have hch : ∀ c ∈ csn, 0x30 ≤ c ∧ c ≤ 0x6E := by
    intro c hc
    have := hcsn.2 c hc
    simpa using this
  have hseq := (stuffOr q hq 4 (by decide)).1
  have hrt := asciiRoundTrip csn false false hlen5 hch
  have hflag := packFlagByteLt csn
  obtain ⟨e0, e1, e2, e3, hpck⟩ :
      ∃ a b c d, packAscii csn false false = [a, b, c, d] :=
    ⟨_, _, _, _, rfl⟩
  have he3 : e3 < 64 := by
    rw [hpck] at hflag
    exact hflag
  have hrt2 : unpackAscii [e0, e1, e2, e3] =
      Except.ok (csn, false, false) := by rw [← hpck]; exact hrt
  have hpay : payloadOf (Msg.kpModify kind sn q csn) =
      [0x01, (q <<< 4) ||| 0x4] ++ modifyBody csn ++ [kind.event] := by
    cases kind <;> rfl
  have hbody : modifyBody csn = packAscii csn false false := by
    unfold modifyBody
    rw [if_pos hlen5]
  rw [hpay, hbody, hpck]
  have hne : ¬ (([e2, e3] : List Nat) = [0x0F, 0xF0]) := by
    intro h
    have h2 := (List.cons.injEq _ _ _ _).mp h
    have h3 : e3 = 240 := by simpa using h2.2
    omega
  cases kind <;>
    simp [Message.dispatch, ComponentMessage.factory, KeypadMessage.factory,
      KeypadRemoveComponentScrollMenuRequest.factory, KeypadPinMessage.factory,
      AbstractKeypadSimpleRequest.factory, KeypadNewDialCodeRequest.factory,
      AbstractKeypadModifyComponentMenuRequest.factory,
      OriginType.ofNat, KeypadEventType.ofNat, KeypadEventType.values,
      KpModifyKind.all, KpModifyKind.event, Msg.canonParse,
      catchVE, PyErr.isValueError,
      pyIdx, pyLast, bind, Except.bind, pure, Except.pure,
      hseq, hrt2, hne]

theorem kpSkipSensor (sn : List Nat) (q origin ev : Nat) (hq : q < 16)
    (ho : origin = 2 ∨ origin = 4 ∨ origin = 5)
    (f : Unit → Except PyErr Msg) :
    catchVE (KeypadMessage.factory 0x11 sn [(q <<< 4) + origin, ev]) f =
      f () := by
  cases q with
  | zero =>
    rcases ho with rfl | rfl | rfl <;>
      simp [KeypadMessage.factory, OriginType.ofNat, catchVE,
        PyErr.isValueError, pyIdx, bind, Except.bind, pure, Except.pure]
  | succ p =>
    have hbig : 16 ≤ (p + 1) <<< 4 := by
      rw [Nat.shiftLeft_eq]
      have h16 : (2 : Nat) ^ 4 = 16 := by norm_num
      rw [h16]
      omega
    have hofn : OriginType.ofNat (((p + 1) <<< 4) + origin) =
        Except.error PyErr.valueErr := by
      unfold OriginType.ofNat
      rw [if_neg (by omega)]
    simp [KeypadMessage.factory, catchVE, PyErr.isValueError, pyIdx,
      bind, Except.bind, pure, Except.pure, hofn]

theorem dispKeychain (sn : List Nat) (q ev : Nat) (hq : q < 16)
    (hev : ev = 1 ∨ ev = 2 ∨ ev = 3) :
    Message.dispatch 0x11 sn (payloadOf (Msg.keychainRemote sn q ev)) [] =
      Except.ok (Msg.keychainRemote sn q ev) := by
  have hst := stuffAdd q hq 2 (by decide)
  have hpay : payloadOf (Msg.keychainRemote sn q ev) =
      [(q <<< 4) + 2, ev] := rfl
  rw [hpay]
  unfold Message.dispatch ComponentMessage.factory
  rw [kpSkipSensor sn q 2 ev hq (by tauto)]
  simp [SensorMessage.factory, OriginType.ofNat, catchVE,
    PyErr.isValueError, pyIdx, bind, Except.bind, pure, Except.pure,
    hst.1, hst.2, hev]

theorem dispMotion (sn : List Nat) (q ev : Nat) (hq : q < 16)
    (hev : ev = 0 ∨ ev = 2) :
    Message.dispatch 0x11 sn (payloadOf (Msg.motionSensor sn q ev)) [] =
      Except.ok (Msg.motionSensor sn q ev) := by
  have hst := stuffAdd q hq 4 (by decide)
  have hpay : payloadOf (Msg.motionSensor sn q ev) =
      [(q <<< 4) + 4, ev] := rfl
  rw [hpay]
  unfold Message.dispatch ComponentMessage.factory
  rw [kpSkipSensor sn q 4 ev hq (by tauto)]
  simp [SensorMessage.factory, OriginType.ofNat, catchVE,
    PyErr.isValueError, pyIdx, bind, Except.bind, pure, Except.pure,
    hst.1, hst.2, hev]

theorem dispEntry (sn : List Nat) (q ev : Nat) (hq : q < 16)
    (hev : ev = 1 ∨ ev = 2) :
    Message.dispatch 0x11 sn (payloadOf (Msg.entrySensor sn q ev)) [] =
      Except.ok (Msg.entrySensor sn q ev) := by
  have hst := stuffAdd q hq 5 (by decide)
  have hpay : payloadOf (Msg.entrySensor sn q ev) =
      [(q <<< 4) + 5, ev] := rfl
  rw [hpay]
  unfold Message.dispatch ComponentMessage.factory
  rw [kpSkipSensor sn q 5 ev hq (by tauto)]
  simp [SensorMessage.factory, OriginType.ofNat, catchVE,
    PyErr.isValueError, pyIdx, bind, Except.bind, pure, Except.pure,
    hst.1, hst.2, hev]

theorem componentSkipBsk (plc : Nat) (sn body : List Nat) (mt ev : Nat)
    (hplc : plc ≠ 0x11) (f : Unit → Except PyErr Msg) :
    catchVE (ComponentMessage.factory plc sn ([0x00, mt] ++ body ++ [ev]))
        f = f () := by
  simp [ComponentMessage.factory, KeypadMessage.factory,
    SensorMessage.factory, OriginType.ofNat, catchVE, PyErr.isValueError,
    pyIdx, bind, Except.bind, pure, Except.pure, hplc]

theorem bskFactoryReduce (plc : Nat) (sn body fbody : List Nat)
    (mt info ev q : Nat) (hq : q < 16) (hinfo : info = 0x2 ∨ info = 0x6)
    (hmt : mt = 1 ∨ mt = 5) (hev : ev ∈ KeypadEventType.values)
    (hf : fbody.length = 5) :
    BaseStationKeypadMessage.factory plc sn ([0x00, mt] ++ body ++ [ev])
        (fbody ++ [(q <<< 4) ||| info]) =
      (catchVE (BaseStationKeypadExtendedStatusMessage.factory plc sn mt info ev q body fbody) fun _ =>
       catchVE (BaseStationKeypadStatusUpdate.factory plc sn mt info ev q body fbody) fun _ =>
       catchVE (BaseStationKeypadDisarmPinResponse.factory plc sn mt info ev q body fbody) fun _ =>
       catchVE (BaseStationKeypadMenuPinResponse.factory plc sn mt info ev q body fbody) fun _ =>
       catchVE (BaseStationKeypadHomeResponse.factory plc sn mt info ev q body fbody) fun _ =>
       catchVE (BaseStationKeypadAwayResponse.factory plc sn mt info ev q body fbody) fun _ =>
       catchVE (BaseStationKeypadOffRemoteUpdate.factory plc sn mt info ev q body fbody) fun _ =>
       catchVE (BaseStationKeypadEnterMenuResponse.factory plc sn mt info ev q body fbody) fun _ =>
       catchVE (BaseStationKeypadNewDialCodeResponse.factory plc sn mt info ev q body fbody) fun _ =>
       catchVE (BaseStationKeypadRemoveComponentSelectResponse.factory plc sn mt info ev q body fbody) fun _ =>
       catchVE (BaseStationKeypadRemoveComponentConfirmMenuResponse.factory plc sn mt info ev q body fbody) fun _ =>
       catchVE (AbstractBaseStationKeypadAddComponentSerialMenuResponse.factory plc sn mt info ev q body fbody) fun _ =>
       catchVE (AbstractBaseStationKeypadSimpleStatusMessage.factory plc sn mt info ev q body fbody) fun _ =>
       catchVE (AbstractBaseStationKeypadSimpleMenuMessage.factory plc sn mt info ev q body fbody) fun _ =>
       catchVE (AbstractBaseStationKeypadRemoveComponentScrollMenuResponse.factory plc sn mt info ev q body fbody) fun _ =>
       catchVE (BaseStationKeypadEntrySensorUpdate.factory plc sn mt info ev q body fbody) fun _ =>
       catchVE (BaseStationKeypadSensorErrorUpdate.factory plc sn mt info ev q body fbody) fun _ =>
       throw PyErr.notImpl) := by
  have hil : info < 16 := by rcases hinfo with rfl | rfl <;> decide
  have hseq := (stuffOr q hq info hil).1
  have hinf := (stuffOr q hq info hil).2
  have hidx5 : pyIdx (fbody ++ [(q <<< 4) ||| info]) 5 =
      Except.ok ((q <<< 4) ||| info) := by
    unfold pyIdx
    rw [List.get?_append_right (by omega)]
    simp [hf]
  have hdl : (fbody ++ [(q <<< 4) ||| info]).dropLast = fbody := by
    rw [List.dropLast_concat]
  have hbody : (([0x00, mt] ++ body ++ [ev]).drop 2).dropLast = body := by
    show (body ++ [ev]).dropLast = body
    rw [List.dropLast_concat]
  have hlast : pyLast ([0x00, mt] ++ body ++ [ev]) = Except.ok ev := by
    unfold pyLast
    rw [show ([0x00, mt] ++ body ++ [ev] : List Nat) =
      (0x00 :: mt :: body) ++ [ev] by simp]
    rw [List.getLast?_concat]
  have hevOk : KeypadEventType.ofNat ev = Except.ok ev := by
    unfold KeypadEventType.ofNat
    rw [if_pos hev]
  have hp0 : pyIdx ([0x00, mt] ++ body ++ [ev]) 0 = Except.ok 0x00 := rfl
  have hp1 : pyIdx ([0x00, mt] ++ body ++ [ev]) 1 = Except.ok mt := rfl
  unfold BaseStationKeypadMessage.factory
  rw [hp0, hp1, hlast, hidx5]
  simp [hevOk, hseq, hinf, OriginType.ofNat, bind, Except.bind, pure,
    Except.pure, hmt, hinfo, List.dropLast_concat]

theorem dispBskExtStatus (kind : BskExtStatusKind) (sn bsSn : List Nat)
    (q flags armed ess tl : Nat) (hq : q < 16) (hbs : bsSnOk bsSn = true)
    (hfl : flags < 16) (har : armed ≤ 4) (hess : ess = 0xF0 ∨ ess = 0xF1) :
    Message.dispatch 0x66 sn
        (payloadOf (Msg.bskExtStatus kind sn q bsSn flags armed ess tl))
        (footerOf (Msg.bskExtStatus kind sn q bsSn flags armed ess tl)) =
      Except.ok (Msg.bskExtStatus kind sn q bsSn flags armed ess tl) := by
  have hrt := hexRoundTrip bsSn hbs
  have hb0 := stuffOr flags hfl armed (by omega)
  have htmask : tl &&& 0xF < 16 :=
    lt_of_le_of_lt Nat.and_le_right (by norm_num)
  have hb3 := (stuffOr (tl &&& 0xF) htmask 0xC (by decide)).1
  have htl := bitShiftRecomp tl
  have hpay : payloadOf (Msg.bskExtStatus kind sn q bsSn flags armed ess tl) =
      [0x00, kind.msgType] ++
        [(flags <<< 4) ||| armed, ess, tl >>> 4, ((tl &&& 0xF) <<< 4) ||| 0xC]
        ++ [kind.event] := by
    cases kind <;> rfl
  have hfoot : footerOf (Msg.bskExtStatus kind sn q bsSn flags armed ess tl) =
      packHexT bsSn ++ [(q <<< 4) ||| 0x2] := by
    cases kind <;> rfl
  rw [hpay, hfoot]
  unfold Message.dispatch
  rw [componentSkipBsk _ _ _ _ _ (by decide)]
  rw [bskFactoryReduce 0x66 sn _ _ kind.msgType 0x2 kind.event q hq
    (by tauto) (by cases kind <;> simp [BskExtStatusKind.msgType])
    (by cases kind <;> decide) hrt.2.1]
  have hnar : ¬ 4 < (flags <<< 4 ||| armed) &&& 0xF := by
    rw [hb0.2]
    omega
  cases kind <;>
    (simp [BaseStationKeypadExtendedStatusMessage.factory,
      BskExtStatusKind.msgType, BskExtStatusKind.event,
      catchVE, PyErr.isValueError, pyIdx,
      bind, Except.bind, pure, Except.pure,
      hrt.2.2, hb0.1, hb0.2, hb3, htl, hnar, hess];
     rw [if_neg (by omega)])

theorem dispBskStatusUpdate (sn bsSn : List Nat) (q flags : Nat)
    (hq : q < 16) (hbs : bsSnOk bsSn = true) :
    Message.dispatch 0x33 sn
        (payloadOf (Msg.bskStatusUpdate sn q bsSn flags))
        (footerOf (Msg.bskStatusUpdate sn q bsSn flags)) =
      Except.ok (Msg.bskStatusUpdate sn q bsSn flags) := by
  have hrt := hexRoundTrip bsSn hbs
  have hpay : payloadOf (Msg.bskStatusUpdate sn q bsSn flags) =
      [0x00, 5] ++ [flags] ++ [0x31] := rfl
  have hfoot : footerOf (Msg.bskStatusUpdate sn q bsSn flags) =
      packHexT bsSn ++ [(q <<< 4) ||| 0x2] := rfl
  rw [hpay, hfoot]
  unfold Message.dispatch
  rw [componentSkipBsk _ _ _ _ _ (by decide)]
  rw [bskFactoryReduce 0x33 sn _ _ 5 0x2 0x31 q hq
    (by tauto) (by tauto) (by decide) hrt.2.1]
  simp [BaseStationKeypadExtendedStatusMessage.factory,
    BaseStationKeypadStatusUpdate.factory,
    catchVE, PyErr.isValueError, pyIdx,
    bind, Except.bind, pure, Except.pure, hrt.2.2]

theorem dispBskDisarmPin (valid : Bool) (sn bsSn : List Nat) (q : Nat)
    (hq : q < 16) (hbs : bsSnOk bsSn = true) :
    Message.dispatch 0x33 sn
        (payloadOf (Msg.bskDisarmPinResponse valid sn q bsSn))
        (footerOf (Msg.bskDisarmPinResponse valid sn q bsSn)) =
      Except.ok (Msg.bskDisarmPinResponse valid sn q bsSn) := by
  have hrt := hexRoundTrip bsSn hbs
  have hpay : payloadOf (Msg.bskDisarmPinResponse valid sn q bsSn) =
      [0x00, 1] ++ [if valid then 0x4E else 0x01] ++ [0x51] := rfl
  have hfoot : footerOf (Msg.bskDisarmPinResponse valid sn q bsSn) =
      packHexT bsSn ++ [(q <<< 4) ||| 0x2] := rfl
  rw [hpay, hfoot]
  unfold Message.dispatch
  rw [componentSkipBsk _ _ _ _ _ (by decide)]
  rw [bskFactoryReduce 0x33 sn _ _ 1 0x2 0x51 q hq
    (by tauto) (by tauto) (by decide) hrt.2.1]
  cases valid <;>
    simp [BaseStationKeypadExtendedStatusMessage.factory,
      BaseStationKeypadStatusUpdate.factory,
      BaseStationKeypadDisarmPinResponse.factory,
      catchVE, PyErr.isValueError, pyIdx,
      bind, Except.bind, pure, Except.pure, hrt.2.2]

theorem dispBskMenuPin (valid : Bool) (sn : List Nat) (q : Nat)
    (hq : q < 16) :
    Message.dispatch 0x33 sn
        (payloadOf (Msg.bskMenuPinResponse valid sn q))
        (footerOf (Msg.bskMenuPinResponse valid sn q)) =
      Except.ok (Msg.bskMenuPinResponse valid sn q) := by
  have hpay : payloadOf (Msg.bskMenuPinResponse valid sn q) =
      [0x00, 1] ++ [if valid then 0x00 else 0x01] ++ [0x66] := rfl
  have hfoot : footerOf (Msg.bskMenuPinResponse valid sn q) =
      menuFooterBody ++ [(q <<< 4) ||| 0x6] := rfl
  rw [hpay, hfoot]
  unfold Message.dispatch
  rw [componentSkipBsk _ _ _ _ _ (by decide)]
  rw [bskFactoryReduce 0x33 sn _ _ 1 0x6 0x66 q hq
    (by tauto) (by tauto) (by decide) (by decide)]
  cases valid <;>
    simp [BaseStationKeypadExtendedStatusMessage.factory,
      BaseStationKeypadStatusUpdate.factory,
      BaseStationKeypadDisarmPinResponse.factory,
      BaseStationKeypadMenuPinResponse.factory,
      catchVE, PyErr.isValueError, pyIdx,
      bind, Except.bind, pure, Except.pure]

theorem dispBskHome (sn bsSn : List Nat) (q : Nat)
    (hq : q < 16) (hbs : bsSnOk bsSn = true) :
    Message.dispatch 0x33 sn
        (payloadOf (Msg.bskHomeResponse sn q bsSn))
        (footerOf (Msg.bskHomeResponse sn q bsSn)) =
      Except.ok (Msg.bskHomeResponse sn q bsSn) := by
  have hrt := hexRoundTrip bsSn hbs
  have hpay : payloadOf (Msg.bskHomeResponse sn q bsSn) =
      [0x00, 1] ++ [0x00] ++ [0x53] := rfl
  have hfoot : footerOf (Msg.bskHomeResponse sn q bsSn) =
      packHexT bsSn ++ [(q <<< 4) ||| 0x2] := rfl
  rw [hpay, hfoot]
  unfold Message.dispatch
  rw [componentSkipBsk _ _ _ _ _ (by decide)]
  rw [bskFactoryReduce 0x33 sn _ _ 1 0x2 0x53 q hq
    (by tauto) (by tauto) (by decide) hrt.2.1]
  simp [BaseStationKeypadExtendedStatusMessage.factory,
    BaseStationKeypadStatusUpdate.factory,
    BaseStationKeypadDisarmPinResponse.factory,
    BaseStationKeypadMenuPinResponse.factory,
    BaseStationKeypadHomeResponse.factory,
    catchVE, PyErr.isValueError, pyIdx,
    bind, Except.bind, pure, Except.pure, hrt.2.2]

theorem dispBskAway (sn bsSn : List Nat) (q : Nat)
    (hq : q < 16) (hbs : bsSnOk bsSn = true) :
    Message.dispatch 0x33 sn
        (payloadOf (Msg.bskAwayResponse sn q bsSn))
        (footerOf (Msg.bskAwayResponse sn q bsSn)) =
      Except.ok (Msg.bskAwayResponse sn q bsSn) := by
  have hrt := hexRoundTrip bsSn hbs
  have hpay : payloadOf (Msg.bskAwayResponse sn q bsSn) =
      [0x00, 1] ++ [0x78] ++ [0x56] := rfl
  have hfoot : footerOf (Msg.bskAwayResponse sn q bsSn) =
      packHexT bsSn ++ [(q <<< 4) ||| 0x2] := rfl
  rw [hpay, hfoot]
  unfold Message.dispatch
  rw [componentSkipBsk _ _ _ _ _ (by decide)]
  rw [bskFactoryReduce 0x33 sn _ _ 1 0x2 0x56 q hq
    (by tauto) (by tauto) (by decide) hrt.2.1]
  simp [BaseStationKeypadExtendedStatusMessage.factory,
    BaseStationKeypadStatusUpdate.factory,
    BaseStationKeypadDisarmPinResponse.factory,
    BaseStationKeypadMenuPinResponse.factory,
    BaseStationKeypadHomeResponse.factory,
    BaseStationKeypadAwayResponse.factory,
    catchVE, PyErr.isValueError, pyIdx,
    bind, Except.bind, pure, Except.pure, hrt.2.2]

theorem dispBskOffRemote (sn bsSn : List Nat) (q : Nat)
    (hq : q < 16) (hbs : bsSnOk bsSn = true) :
    Message.dispatch 0x33 sn
        (payloadOf (Msg.bskOffRemoteUpdate sn q bsSn))
        (footerOf (Msg.bskOffRemoteUpdate sn q bsSn)) =
      Except.ok (Msg.bskOffRemoteUpdate sn q bsSn) := by
  have hrt := hexRoundTrip bsSn hbs
  have hpay : payloadOf (Msg.bskOffRemoteUpdate sn q bsSn) =
      [0x00, 5] ++ [0xFF] ++ [0x57] := rfl
  have hfoot : footerOf (Msg.bskOffRemoteUpdate sn q bsSn) =
      packHexT bsSn ++ [(q <<< 4) ||| 0x2] := rfl
  rw [hpay, hfoot]
  unfold Message.dispatch
  rw [componentSkipBsk _ _ _ _ _ (by decide)]
  rw [bskFactoryReduce 0x33 sn _ _ 5 0x2 0x57 q hq
    (by tauto) (by tauto) (by decide) hrt.2.1]
  simp [BaseStationKeypadExtendedStatusMessage.factory,
    BaseStationKeypadStatusUpdate.factory,
    BaseStationKeypadDisarmPinResponse.factory,
    BaseStationKeypadMenuPinResponse.factory,
    BaseStationKeypadHomeResponse.factory,
    BaseStationKeypadAwayResponse.factory,
    BaseStationKeypadOffRemoteUpdate.factory,
    catchVE, PyErr.isValueError, pyIdx,
    bind, Except.bind, pure, Except.pure, hrt.2.2]

theorem dispBskEnterMenu (sn : List Nat) (q : Nat) (hq : q < 16) :
    Message.dispatch 0x33 sn
        (payloadOf (Msg.bskEnterMenuResponse sn q))
        (footerOf (Msg.bskEnterMenuResponse sn q)) =
      Except.ok (Msg.bskEnterMenuResponse sn q) := by
  have hpay : payloadOf (Msg.bskEnterMenuResponse sn q) =
      [0x00, 1] ++ [0x01] ++ [0x61] := rfl
  have hfoot : footerOf (Msg.bskEnterMenuResponse sn q) =
      menuFooterBody ++ [(q <<< 4) ||| 0x6] := rfl
  rw [hpay, hfoot]
  unfold Message.dispatch
  rw [componentSkipBsk _ _ _ _ _ (by decide)]
  rw [bskFactoryReduce 0x33 sn _ _ 1 0x6 0x61 q hq
    (by tauto) (by tauto) (by decide) (by decide)]
  simp [BaseStationKeypadExtendedStatusMessage.factory,
    BaseStationKeypadStatusUpdate.factory,
    BaseStationKeypadDisarmPinResponse.factory,
    BaseStationKeypadMenuPinResponse.factory,
    BaseStationKeypadHomeResponse.factory,
    BaseStationKeypadAwayResponse.factory,
    BaseStationKeypadOffRemoteUpdate.factory,
    BaseStationKeypadEnterMenuResponse.factory,
    catchVE, PyErr.isValueError, pyIdx,
    bind, Except.bind, pure, Except.pure]

theorem dispBskNewDial (sn : List Nat) (q : Nat) (hq : q < 16) :
    Message.dispatch 0x33 sn
        (payloadOf (Msg.bskNewDialCodeResponse sn q))
        (footerOf (Msg.bskNewDialCodeResponse sn q)) =
      Except.ok (Msg.bskNewDialCodeResponse sn q) := by
  have hpay : payloadOf (Msg.bskNewDialCodeResponse sn q) =
      [0x00, 1] ++ [0x00] ++ [0x63] := rfl
  have hfoot : footerOf (Msg.bskNewDialCodeResponse sn q) =
      menuFooterBody ++ [(q <<< 4) ||| 0x6] := rfl
  rw [hpay, hfoot]
  unfold Message.dispatch
  rw [componentSkipBsk _ _ _ _ _ (by decide)]
  rw [bskFactoryReduce 0x33 sn _ _ 1 0x6 0x63 q hq
    (by tauto) (by tauto) (by decide) (by decide)]
  simp [BaseStationKeypadExtendedStatusMessage.factory,
    BaseStationKeypadStatusUpdate.factory,
    BaseStationKeypadDisarmPinResponse.factory,
    BaseStationKeypadMenuPinResponse.factory,
    BaseStationKeypadHomeResponse.factory,
    BaseStationKeypadAwayResponse.factory,
    BaseStationKeypadOffRemoteUpdate.factory,
    BaseStationKeypadEnterMenuResponse.factory,
    BaseStationKeypadNewDialCodeResponse.factory,
    BaseStationKeypadRemoveComponentSelectResponse.factory,
    BaseStationKeypadRemoveComponentConfirmMenuResponse.factory,

    catchVE, PyErr.isValueError, pyIdx,
    bind, Except.bind, pure, Except.pure]

theorem dispBskRemoveSelect (sn : List Nat) (q : Nat) (hq : q < 16) :
    Message.dispatch 0x33 sn
        (payloadOf (Msg.bskRemoveComponentSelectResponse sn q))
        (footerOf (Msg.bskRemoveComponentSelectResponse sn q)) =
      Except.ok (Msg.bskRemoveComponentSelectResponse sn q) := by
  have hpay : payloadOf (Msg.bskRemoveComponentSelectResponse sn q) =
      [0x00, 1] ++ [0x00] ++ [0x76] := rfl
  have hfoot : footerOf (Msg.bskRemoveComponentSelectResponse sn q) =
      menuFooterBody ++ [(q <<< 4) ||| 0x6] := rfl
  rw [hpay, hfoot]
  unfold Message.dispatch
  rw [componentSkipBsk _ _ _ _ _ (by decide)]
  rw [bskFactoryReduce 0x33 sn _ _ 1 0x6 0x76 q hq
    (by tauto) (by tauto) (by decide) (by decide)]
  simp [BaseStationKeypadExtendedStatusMessage.factory,
    BaseStationKeypadStatusUpdate.factory,
    BaseStationKeypadDisarmPinResponse.factory,
    BaseStationKeypadMenuPinResponse.factory,
    BaseStationKeypadHomeResponse.factory,
    BaseStationKeypadAwayResponse.factory,
    BaseStationKeypadOffRemoteUpdate.factory,
    BaseStationKeypadEnterMenuResponse.factory,
    BaseStationKeypadNewDialCodeResponse.factory,
    BaseStationKeypadRemoveComponentSelectResponse.factory,
    BaseStationKeypadRemoveComponentConfirmMenuResponse.factory,

    catchVE, PyErr.isValueError, pyIdx,
    bind, Except.bind, pure, Except.pure]

theorem dispBskRemoveConfirm (sn : List Nat) (q : Nat) (hq : q < 16) :
    Message.dispatch 0x33 sn
        (payloadOf (Msg.bskRemoveComponentConfirmResponse sn q))
        (footerOf (Msg.bskRemoveComponentConfirmResponse sn q)) =
      Except.ok (Msg.bskRemoveComponentConfirmResponse sn q) := by
  have hpay : payloadOf (Msg.bskRemoveComponentConfirmResponse sn q) =
      [0x00, 1] ++ [0x00] ++ [0x67] := rfl
  have hfoot : footerOf (Msg.bskRemoveComponentConfirmResponse sn q) =
      menuFooterBody ++ [(q <<< 4) ||| 0x6] := rfl
  rw [hpay, hfoot]
  unfold Message.dispatch
  rw [componentSkipBsk _ _ _ _ _ (by decide)]
  rw [bskFactoryReduce 0x33 sn _ _ 1 0x6 0x67 q hq
    (by tauto) (by tauto) (by decide) (by decide)]
  simp [BaseStationKeypadExtendedStatusMessage.factory,
    BaseStationKeypadStatusUpdate.factory,
    BaseStationKeypadDisarmPinResponse.factory,
    BaseStationKeypadMenuPinResponse.factory,
    BaseStationKeypadHomeResponse.factory,
    BaseStationKeypadAwayResponse.factory,
    BaseStationKeypadOffRemoteUpdate.factory,
    BaseStationKeypadEnterMenuResponse.factory,
    BaseStationKeypadNewDialCodeResponse.factory,
    BaseStationKeypadRemoveComponentSelectResponse.factory,
    BaseStationKeypadRemoveComponentConfirmMenuResponse.factory,

    catchVE, PyErr.isValueError, pyIdx,
    bind, Except.bind, pure, Except.pure]

theorem dispBskAddSerial (kind : BskAddSerialKind) (sn : List Nat)
    (q : Nat) (aa : Bool) (hq : q < 16) :
    Message.dispatch 0x33 sn
        (payloadOf (Msg.bskAddSerial kind sn q aa))
        (footerOf (Msg.bskAddSerial kind sn q aa)) =
      Except.ok (Msg.canonParse (Msg.bskAddSerial kind sn q aa)) := by
  have hpay : payloadOf (Msg.bskAddSerial kind sn q aa) =
      [0x00, 1] ++ [if aa then 0x01 else 0x00] ++ [kind.event] := by
    cases kind <;> rfl
  have hfoot : footerOf (Msg.bskAddSerial kind sn q aa) =
      menuFooterBody ++ [(q <<< 4) ||| 0x6] := by
    cases kind <;> rfl
  rw [hpay, hfoot]
  unfold Message.dispatch
  rw [componentSkipBsk _ _ _ _ _ (by decide)]
  rw [bskFactoryReduce 0x33 sn _ _ 1 0x6 kind.event q hq
    (by tauto) (by tauto) (by cases kind <;> decide) (by decide)]
  cases kind <;> cases aa <;>
    simp [BaseStationKeypadExtendedStatusMessage.factory,
    BaseStationKeypadStatusUpdate.factory,
    BaseStationKeypadDisarmPinResponse.factory,
    BaseStationKeypadMenuPinResponse.factory,
    BaseStationKeypadHomeResponse.factory,
    BaseStationKeypadAwayResponse.factory,
    BaseStationKeypadOffRemoteUpdate.factory,
    BaseStationKeypadEnterMenuResponse.factory,
    BaseStationKeypadNewDialCodeResponse.factory,
    BaseStationKeypadRemoveComponentSelectResponse.factory,
    BaseStationKeypadRemoveComponentConfirmMenuResponse.factory,

    AbstractBaseStationKeypadAddComponentSerialMenuResponse.factory,
    BskAddSerialKind.all, BskAddSerialKind.event, Msg.canonParse,
    catchVE, PyErr.isValueError, pyIdx,
    bind, Except.bind, pure, Except.pure]

theorem dispBskSimpleStatus (kind : BskSimpleStatusKind)
    (sn bsSn : List Nat) (q : Nat) (hq : q < 16) (hbs : bsSnOk bsSn = true) :
    Message.dispatch 0x22 sn
        (payloadOf (Msg.bskSimpleStatus kind sn q bsSn))
        (footerOf (Msg.bskSimpleStatus kind sn q bsSn)) =
      Except.ok (Msg.bskSimpleStatus kind sn q bsSn) := by
  have hrt := hexRoundTrip bsSn hbs
  have hpay : payloadOf (Msg.bskSimpleStatus kind sn q bsSn) =
      [0x00, kind.msgType] ++ [] ++ [kind.event] := by
    cases kind <;> rfl
  have hfoot : footerOf (Msg.bskSimpleStatus kind sn q bsSn) =
      packHexT bsSn ++ [(q <<< 4) ||| 0x2] := by
    cases kind <;> rfl
  rw [hpay, hfoot]
  unfold Message.dispatch
  rw [componentSkipBsk _ _ _ _ _ (by decide)]
  rw [bskFactoryReduce 0x22 sn _ _ kind.msgType 0x2 kind.event q hq
    (by tauto) (by cases kind <;> simp [BskSimpleStatusKind.msgType])
    (by cases kind <;> decide) hrt.2.1]
  cases kind <;>
    simp [BaseStationKeypadExtendedStatusMessage.factory,
    BaseStationKeypadStatusUpdate.factory,
    BaseStationKeypadDisarmPinResponse.factory,
    BaseStationKeypadMenuPinResponse.factory,
    BaseStationKeypadHomeResponse.factory,
    BaseStationKeypadAwayResponse.factory,
    BaseStationKeypadOffRemoteUpdate.factory,
    BaseStationKeypadEnterMenuResponse.factory,
    BaseStationKeypadNewDialCodeResponse.factory,
    BaseStationKeypadRemoveComponentSelectResponse.factory,
    BaseStationKeypadRemoveComponentConfirmMenuResponse.factory,
    AbstractBaseStationKeypadAddComponentSerialMenuResponse.factory,
    AbstractBaseStationKeypadSimpleStatusMessage.factory,
    AbstractBaseStationKeypadSimpleMenuMessage.factory,

    BskSimpleStatusKind.all, BskSimpleStatusKind.msgType,
    BskSimpleStatusKind.event,
    catchVE, PyErr.isValueError, pyIdx,
    bind, Except.bind, pure, Except.pure, hrt.2.2]

theorem dispBskSimpleMenu (kind : BskSimpleMenuKind)
    (sn : List Nat) (q : Nat) (hq : q < 16) :
    Message.dispatch 0x22 sn
        (payloadOf (Msg.bskSimpleMenu kind sn q))
        (footerOf (Msg.bskSimpleMenu kind sn q)) =
      Except.ok (Msg.bskSimpleMenu kind sn q) := by
  have hpay : payloadOf (Msg.bskSimpleMenu kind sn q) =
      [0x00, 1] ++ [] ++ [kind.event] := by
    cases kind <;> rfl
  have hfoot : footerOf (Msg.bskSimpleMenu kind sn q) =
      menuFooterBody ++ [(q <<< 4) ||| 0x6] := by
    cases kind <;> rfl
  rw [hpay, hfoot]
  unfold Message.dispatch
  rw [componentSkipBsk _ _ _ _ _ (by decide)]
  rw [bskFactoryReduce 0x22 sn _ _ 1 0x6 kind.event q hq
    (by tauto) (by tauto) (by cases kind <;> decide) (by decide)]
  cases kind <;>
    simp [BaseStationKeypadExtendedStatusMessage.factory,
    BaseStationKeypadStatusUpdate.factory,
    BaseStationKeypadDisarmPinResponse.factory,
    BaseStationKeypadMenuPinResponse.factory,
    BaseStationKeypadHomeResponse.factory,
    BaseStationKeypadAwayResponse.factory,
    BaseStationKeypadOffRemoteUpdate.factory,
    BaseStationKeypadEnterMenuResponse.factory,
    BaseStationKeypadNewDialCodeResponse.factory,
    BaseStationKeypadRemoveComponentSelectResponse.factory,
    BaseStationKeypadRemoveComponentConfirmMenuResponse.factory,
    AbstractBaseStationKeypadAddComponentSerialMenuResponse.factory,
    AbstractBaseStationKeypadSimpleStatusMessage.factory,
    AbstractBaseStationKeypadSimpleMenuMessage.factory,

    BskSimpleStatusKind.all, BskSimpleStatusKind.msgType,
    BskSimpleStatusKind.event, BskSimpleMenuKind.all,
    BskSimpleMenuKind.event, unpackHex, menuFooterBody,
    catchVE, PyErr.isValueError, pyIdx,
    bind, Except.bind, pure, Except.pure]

theorem dispBskRemoveScroll (kind : BskRemoveScrollKind)
    (sn csn : List Nat) (q : Nat) (la ra : Bool) (hq : q < 16)
    (hcsn : csnOk csn = true) :
    Message.dispatch 0x66 sn
        (payloadOf (Msg.bskRemoveScroll kind sn q csn la ra))
        (footerOf (Msg.bskRemoveScroll kind sn q csn la ra)) =
      Except.ok (Msg.bskRemoveScroll kind sn q csn la ra) := by
  simp only [csnOk, Bool.and_eq_true, List.all_eq_true,
    decide_eq_true_eq] at hcsn
  have hlen5 : csn.length = 5 := by simpa using hcsn.1
  have hch : ∀ c ∈ csn, 0x30 ≤ c ∧ c ≤ 0x6E := by
    intro c hc
    have := hcsn.2 c hc
    simpa using this
  have hrt := asciiRoundTrip csn la ra hlen5 hch
  have hpay : payloadOf (Msg.bskRemoveScroll kind sn q csn la ra) =
      [0x00, 1] ++ packAscii csn la ra ++ [kind.event] := by
    cases kind <;> rfl
  have hfoot : footerOf (Msg.bskRemoveScroll kind sn q csn la ra) =
      menuFooterBody ++ [(q <<< 4) ||| 0x6] := by
    cases kind <;> rfl
  rw [hpay, hfoot]
  unfold Message.dispatch
  rw [componentSkipBsk _ _ _ _ _ (by decide)]
  rw [bskFactoryReduce 0x66 sn _ _ 1 0x6 kind.event q hq
    (by tauto) (by tauto) (by cases kind <;> decide) (by decide)]
  cases kind <;>
    simp [BaseStationKeypadExtendedStatusMessage.factory,
    BaseStationKeypadStatusUpdate.factory,
    BaseStationKeypadDisarmPinResponse.factory,
    BaseStationKeypadMenuPinResponse.factory,
    BaseStationKeypadHomeResponse.factory,
    BaseStationKeypadAwayResponse.factory,
    BaseStationKeypadOffRemoteUpdate.factory,
    BaseStationKeypadEnterMenuResponse.factory,
    BaseStationKeypadNewDialCodeResponse.factory,
    BaseStationKeypadRemoveComponentSelectResponse.factory,
    BaseStationKeypadRemoveComponentConfirmMenuResponse.factory,
    AbstractBaseStationKeypadAddComponentSerialMenuResponse.factory,
    AbstractBaseStationKeypadSimpleStatusMessage.factory,
    AbstractBaseStationKeypadSimpleMenuMessage.factory,

    AbstractBaseStationKeypadRemoveComponentScrollMenuResponse.factory,
    BskRemoveScrollKind.all, BskRemoveScrollKind.event,
    catchVE, PyErr.isValueError, pyIdx,
    bind, Except.bind, pure, Except.pure, hrt]

theorem dispBskEntrySensor (sn bsSn : List Nat) (q ese : Nat)
    (hq : q < 16) (hbs : bsSnOk bsSn = true) (hese : ese = 0 ∨ ese = 1) :
    Message.dispatch 0x33 sn
        (payloadOf (Msg.bskEntrySensorUpdate sn q bsSn ese))
        (footerOf (Msg.bskEntrySensorUpdate sn q bsSn ese)) =
      Except.ok (Msg.bskEntrySensorUpdate sn q bsSn ese) := by
  have hrt := hexRoundTrip bsSn hbs
  have hpay : payloadOf (Msg.bskEntrySensorUpdate sn q bsSn ese) =
      [0x00, 5] ++ [ese] ++ [0x27] := rfl
  have hfoot : footerOf (Msg.bskEntrySensorUpdate sn q bsSn ese) =
      packHexT bsSn ++ [(q <<< 4) ||| 0x2] := rfl
  rw [hpay, hfoot]
  unfold Message.dispatch
  rw [componentSkipBsk _ _ _ _ _ (by decide)]
  rw [bskFactoryReduce 0x33 sn _ _ 5 0x2 0x27 q hq
    (by tauto) (by tauto) (by decide) hrt.2.1]
  rcases hese with rfl | rfl <;>
    simp [BaseStationKeypadExtendedStatusMessage.factory,
    BaseStationKeypadStatusUpdate.factory,
    BaseStationKeypadDisarmPinResponse.factory,
    BaseStationKeypadMenuPinResponse.factory,
    BaseStationKeypadHomeResponse.factory,
    BaseStationKeypadAwayResponse.factory,
    BaseStationKeypadOffRemoteUpdate.factory,
    BaseStationKeypadEnterMenuResponse.factory,
    BaseStationKeypadNewDialCodeResponse.factory,
    BaseStationKeypadRemoveComponentSelectResponse.factory,
    BaseStationKeypadRemoveComponentConfirmMenuResponse.factory,
    AbstractBaseStationKeypadAddComponentSerialMenuResponse.factory,
    AbstractBaseStationKeypadSimpleStatusMessage.factory,
    AbstractBaseStationKeypadSimpleMenuMessage.factory,

    AbstractBaseStationKeypadRemoveComponentScrollMenuResponse.factory,
    BaseStationKeypadEntrySensorUpdate.factory,
    catchVE, PyErr.isValueError, pyIdx,
    bind, Except.bind, pure, Except.pure, hrt.2.2]

theorem dispBskSensorError (sn bsSn csn : List Nat) (q n : Nat)
    (hq : q < 16) (hbs : bsSnOk bsSn = true) (hn : n ≤ 3)
    (hcsn : csnOk csn = true) (hhij : extStatusHijack csn = false) :
    Message.dispatch 0x66 sn
        (payloadOf (Msg.bskSensorErrorUpdate sn q bsSn n csn))
        (footerOf (Msg.bskSensorErrorUpdate sn q bsSn n csn)) =
      Except.ok (Msg.bskSensorErrorUpdate sn q bsSn n csn) := by
  simp only [csnOk, Bool.and_eq_true, List.all_eq_true,
    decide_eq_true_eq] at hcsn
  have hlen5 : csn.length = 5 := by simpa using hcsn.1
  have hch : ∀ c ∈ csn, 0x30 ≤ c ∧ c ≤ 0x6E := by
    intro c hc
    have := hcsn.2 c hc
    simpa using this
  have hrtA := asciiRoundTrip csn false false hlen5 hch
  have hrtH := hexRoundTrip bsSn hbs
  obtain ⟨e0, e1, e2, e3, hpck⟩ :
      ∃ a b c d, packAscii csn false false = [a, b, c, d] :=
    ⟨_, _, _, _, rfl⟩
  have hrtA2 : unpackAscii [e0, e1, e2, e3] =
      Except.ok (csn, false, false) := by rw [← hpck]; exact hrtA
  simp only [extStatusHijack, hpck] at hhij
  have hev : bskEvent (Msg.bskSensorErrorUpdate sn q bsSn n csn) =
      (if n = 0 then 0x32 else if n = 1 then 0x35
       else if n = 2 then 0x36 else 0x37) := rfl
  have hpay : payloadOf (Msg.bskSensorErrorUpdate sn q bsSn n csn) =
      [0x00, 5] ++ [e0, e1, e2, e3] ++
        [if n = 0 then 0x32 else if n = 1 then 0x35
         else if n = 2 then 0x36 else 0x37] := by
    show [0x00, 5] ++ packAscii csn false false ++ _ = _
    rw [hpck]
    rfl
  have hfoot : footerOf (Msg.bskSensorErrorUpdate sn q bsSn n csn) =
      packHexT bsSn ++ [(q <<< 4) ||| 0x2] := rfl
  rw [hpay, hfoot]
  unfold Message.dispatch
  rw [componentSkipBsk _ _ _ _ _ (by decide)]
  rw [bskFactoryReduce 0x66 sn _ _ 5 0x2
    (if n = 0 then 0x32 else if n = 1 then 0x35
     else if n = 2 then 0x36 else 0x37) q hq
    (by tauto) (by tauto)
    (by interval_cases n <;> decide) hrtH.2.1]
  have hext : ∀ ev, BaseStationKeypadExtendedStatusMessage.factory 0x66 sn
      5 0x2 ev q [e0, e1, e2, e3] (packHexT bsSn) =
      Except.error PyErr.valueErr := by
    intro ev
    by_cases h4 : 4 < e0 &&& 0xF
    · simp [BaseStationKeypadExtendedStatusMessage.factory,
        pyIdx, bind, Except.bind, pure, Except.pure, hrtH.2.2, h4]
    · have he1 : ¬ (e1 = 0xF0 ∨ e1 = 0xF1) := by
        simp only [List.getD] at hhij
        rcases Bool.and_eq_false_iff.mp hhij with h | h
        · exfalso
          have : e0 &&& 0xF ≤ 4 := by omega
          simp [this] at h
        · intro hc
          rcases hc with rfl | rfl <;> simp at h
      simp [BaseStationKeypadExtendedStatusMessage.factory,
        pyIdx, bind, Except.bind, pure, Except.pure, hrtH.2.2, h4, he1]
  have hnn : ¬ 3 < n := by omega
  interval_cases n <;>
    simp [BaseStationKeypadStatusUpdate.factory,
    BaseStationKeypadDisarmPinResponse.factory,
    BaseStationKeypadMenuPinResponse.factory,
    BaseStationKeypadHomeResponse.factory,
    BaseStationKeypadAwayResponse.factory,
    BaseStationKeypadOffRemoteUpdate.factory,
    BaseStationKeypadEnterMenuResponse.factory,
    BaseStationKeypadNewDialCodeResponse.factory,
    BaseStationKeypadRemoveComponentSelectResponse.factory,
    BaseStationKeypadRemoveComponentConfirmMenuResponse.factory,
    AbstractBaseStationKeypadAddComponentSerialMenuResponse.factory,
    AbstractBaseStationKeypadSimpleStatusMessage.factory,
    AbstractBaseStationKeypadSimpleMenuMessage.factory,
    AbstractBaseStationKeypadRemoveComponentScrollMenuResponse.factory,
    BaseStationKeypadEntrySensorUpdate.factory,
    BaseStationKeypadSensorErrorUpdate.factory,

    catchVE, PyErr.isValueError, pyIdx,
    bind, Except.bind, pure, Except.pure, hrtA2, hrtH.2.2, hext]

theorem snOkFacts (sn : List Nat) (h : snOk sn = true) :
    sn.length = 5 ∧ (sn.any fun c => 128 ≤ c) = false := by
  simp only [snOk, Bool.and_eq_true, List.all_eq_true,
    decide_eq_true_eq] at h
  refine ⟨by simpa using h.1, ?_⟩
  rw [List.any_eq_false]
  intro c hc
  have := h.2 c hc
  simp
  omega

theorem modifyBodyLen (csn : List Nat) : (modifyBody csn).length = 4 := by
  unfold modifyBody
  split <;> rfl

/-- C1 (amended): for every canonical leaf message `v`, `Message.factory`
parses the encoding of `v` back to `Msg.canonParse v` (the identity, up
to the Smoke/Glassbreak `event_type 0x6E` alias, which always dispatches
to the Glassbreak class), and that parse re-encodes to exactly the same
bytes. -/
theorem claimC1_amended (v : Msg) (hc : Msg.canonical v = true) :
    Message.factory (Msg.encode v) = Except.ok (Msg.canonParse v) ∧
    Msg.encode (Msg.canonParse v) = Msg.encode v := by
  cases v with
  | base plc sn payload footer => simp [Msg.canonical] at hc
  | kpNewDialCode sn q => simp [Msg.canonical] at hc
  | kpRemoveComponentScroll sn q n =>
    simp only [Msg.canonical, Bool.and_eq_true, decide_eq_true_eq] at hc
    obtain ⟨⟨hsn, hq⟩, hn⟩ := hc
    obtain ⟨hl5, h128⟩ := snOkFacts sn hsn
    exact ⟨factoryEncode _ _ hl5 h128 rfl rfl
      (dispKpRemoveScroll sn q n hq) rfl, rfl⟩
  | kpPin kind sn q pin =>
    simp only [Msg.canonical, Bool.and_eq_true, decide_eq_true_eq] at hc
    obtain ⟨⟨hsn, hq⟩, hpin⟩ := hc
    obtain ⟨hl5, h128⟩ := snOkFacts sn hsn
    cases kind <;>
      exact ⟨factoryEncode _ _ hl5 h128 rfl rfl
        (dispKpPin _ sn q pin hq hpin) rfl, rfl⟩
  | kpSimple kind sn q =>
    simp only [Msg.canonical, Bool.and_eq_true, decide_eq_true_eq] at hc
    obtain ⟨hsn, hq⟩ := hc
    obtain ⟨hl5, h128⟩ := snOkFacts sn hsn
    cases kind <;>
      exact ⟨factoryEncode _ _ hl5 h128 rfl rfl
        (dispKpSimple _ sn q hq) rfl, rfl⟩
  | kpModify kind sn q csn =>
    simp only [Msg.canonical, Bool.and_eq_true, decide_eq_true_eq] at hc
    obtain ⟨⟨hsn, hq⟩, hcsn⟩ := hc
    obtain ⟨hl5, h128⟩ := snOkFacts sn hsn
    have hpl : (payloadOf (Msg.kpModify kind sn q csn)).length =
        payloadLengths (plcOf (Msg.kpModify kind sn q csn)) := by
      have hpay : payloadOf (Msg.kpModify kind sn q csn) =
          [0x01, (q <<< 4) ||| 0x4] ++ modifyBody csn ++ [kind.event] := by
        cases kind <;> rfl
      rw [hpay]
      simp [modifyBodyLen, Msg.payloadLengths, Msg.plcOf]
    cases kind <;>
      exact ⟨factoryEncode _ _ hl5 h128 rfl hpl
        (dispKpModify _ sn csn q hq hcsn) rfl, rfl⟩
  | kpAddComponentType sn q ct =>
    simp only [Msg.canonical, Bool.and_eq_true, decide_eq_true_eq] at hc
    obtain ⟨⟨hsn, hq⟩, hct⟩ := hc
    obtain ⟨hl5, h128⟩ := snOkFacts sn hsn
    exact ⟨factoryEncode _ _ hl5 h128 rfl rfl
      (dispKpAddComponentType sn q ct hq hct) rfl, rfl⟩
  | keychainRemote sn q ev =>
    simp only [Msg.canonical, Bool.and_eq_true, Bool.or_eq_true,
      decide_eq_true_eq] at hc
    obtain ⟨⟨hsn, hq⟩, hev⟩ := hc
    obtain ⟨hl5, h128⟩ := snOkFacts sn hsn
    exact ⟨factoryEncode _ _ hl5 h128 rfl rfl
      (dispKeychain sn q ev hq (by tauto)) rfl, rfl⟩
  | motionSensor sn q ev =>
    simp only [Msg.canonical, Bool.and_eq_true, Bool.or_eq_true,
      decide_eq_true_eq] at hc
    obtain ⟨⟨hsn, hq⟩, hev⟩ := hc
    obtain ⟨hl5, h128⟩ := snOkFacts sn hsn
    exact ⟨factoryEncode _ _ hl5 h128 rfl rfl
      (dispMotion sn q ev hq (by tauto)) rfl, rfl⟩
  | entrySensor sn q ev =>
    simp only [Msg.canonical, Bool.and_eq_true, Bool.or_eq_true,
      decide_eq_true_eq] at hc
    obtain ⟨⟨hsn, hq⟩, hev⟩ := hc
    obtain ⟨hl5, h128⟩ := snOkFacts sn hsn
    exact ⟨factoryEncode _ _ hl5 h128 rfl rfl
      (dispEntry sn q ev hq (by tauto)) rfl, rfl⟩
  | bskExtStatus kind sn q bsSn flags armed ess tl =>
    simp only [Msg.canonical, Bool.and_eq_true, Bool.or_eq_true,
      decide_eq_true_eq] at hc
    obtain ⟨⟨⟨⟨⟨⟨hsn, hq⟩, hbs⟩, hfl⟩, har⟩, hess⟩, htl⟩ := hc
    obtain ⟨hl5, h128⟩ := snOkFacts sn hsn
    cases kind <;>
      exact ⟨factoryEncode _ _ hl5 h128 rfl rfl
        (dispBskExtStatus _ sn bsSn q flags armed ess tl hq hbs hfl har hess)
        rfl, rfl⟩
  | bskStatusUpdate sn q bsSn flags =>
    simp only [Msg.canonical, Bool.and_eq_true, decide_eq_true_eq] at hc
    obtain ⟨⟨⟨hsn, hq⟩, hbs⟩, hfl⟩ := hc
    obtain ⟨hl5, h128⟩ := snOkFacts sn hsn
    exact ⟨factoryEncode _ _ hl5 h128 rfl rfl
      (dispBskStatusUpdate sn bsSn q flags hq hbs) rfl, rfl⟩
  | bskDisarmPinResponse valid sn q bsSn =>
    simp only [Msg.canonical, Bool.and_eq_true, decide_eq_true_eq] at hc
    obtain ⟨⟨hsn, hq⟩, hbs⟩ := hc
    obtain ⟨hl5, h128⟩ := snOkFacts sn hsn
    cases valid <;>
      exact ⟨factoryEncode _ _ hl5 h128 rfl rfl
        (dispBskDisarmPin _ sn bsSn q hq hbs) rfl, rfl⟩
  | bskMenuPinResponse valid sn q =>
    simp only [Msg.canonical, Bool.and_eq_true, decide_eq_true_eq] at hc
    obtain ⟨hsn, hq⟩ := hc
    obtain ⟨hl5, h128⟩ := snOkFacts sn hsn
    cases valid <;>
      exact ⟨factoryEncode _ _ hl5 h128 rfl rfl
        (dispBskMenuPin _ sn q hq) rfl, rfl⟩
  | bskHomeResponse sn q bsSn =>
    simp only [Msg.canonical, Bool.and_eq_true, decide_eq_true_eq] at hc
    obtain ⟨⟨hsn, hq⟩, hbs⟩ := hc
    obtain ⟨hl5, h128⟩ := snOkFacts sn hsn
    exact ⟨factoryEncode _ _ hl5 h128 rfl rfl
      (dispBskHome sn bsSn q hq hbs) rfl, rfl⟩
  | bskAwayResponse sn q bsSn =>
    simp only [Msg.canonical, Bool.and_eq_true, decide_eq_true_eq] at hc
    obtain ⟨⟨hsn, hq⟩, hbs⟩ := hc
    obtain ⟨hl5, h128⟩ := snOkFacts sn hsn
    exact ⟨factoryEncode _ _ hl5 h128 rfl rfl
      (dispBskAway sn bsSn q hq hbs) rfl, rfl⟩
  | bskOffRemoteUpdate sn q bsSn =>
    simp only [Msg.canonical, Bool.and_eq_true, decide_eq_true_eq] at hc
    obtain ⟨⟨hsn, hq⟩, hbs⟩ := hc
    obtain ⟨hl5, h128⟩ := snOkFacts sn hsn
    exact ⟨factoryEncode _ _ hl5 h128 rfl rfl
      (dispBskOffRemote sn bsSn q hq hbs) rfl, rfl⟩
  | bskEnterMenuResponse sn q =>
    simp only [Msg.canonical, Bool.and_eq_true, decide_eq_true_eq] at hc
    obtain ⟨hsn, hq⟩ := hc
    obtain ⟨hl5, h128⟩ := snOkFacts sn hsn
    exact ⟨factoryEncode _ _ hl5 h128 rfl rfl
      (dispBskEnterMenu sn q hq) rfl, rfl⟩
  | bskNewDialCodeResponse sn q =>
    simp only [Msg.canonical, Bool.and_eq_true, decide_eq_true_eq] at hc
    obtain ⟨hsn, hq⟩ := hc
    obtain ⟨hl5, h128⟩ := snOkFacts sn hsn
    exact ⟨factoryEncode _ _ hl5 h128 rfl rfl
      (dispBskNewDial sn q hq) rfl, rfl⟩
  | bskRemoveComponentSelectResponse sn q =>
    simp only [Msg.canonical, Bool.and_eq_true, decide_eq_true_eq] at hc
    obtain ⟨hsn, hq⟩ := hc
    obtain ⟨hl5, h128⟩ := snOkFacts sn hsn
    exact ⟨factoryEncode _ _ hl5 h128 rfl rfl
      (dispBskRemoveSelect sn q hq) rfl, rfl⟩
  | bskRemoveComponentConfirmResponse sn q =>
    simp only [Msg.canonical, Bool.and_eq_true, decide_eq_true_eq] at hc
    obtain ⟨hsn, hq⟩ := hc
    obtain ⟨hl5, h128⟩ := snOkFacts sn hsn
    exact ⟨factoryEncode _ _ hl5 h128 rfl rfl
      (dispBskRemoveConfirm sn q hq) rfl, rfl⟩
  | bskAddSerial kind sn q aa =>
    simp only [Msg.canonical, Bool.and_eq_true, decide_eq_true_eq] at hc
    obtain ⟨hsn, hq⟩ := hc
    obtain ⟨hl5, h128⟩ := snOkFacts sn hsn
    cases kind <;> cases aa <;>
      exact ⟨factoryEncode _ _ hl5 h128 rfl rfl
        (dispBskAddSerial _ sn q _ hq) rfl, rfl⟩
  | bskSimpleStatus kind sn q bsSn =>
    simp only [Msg.canonical, Bool.and_eq_true, decide_eq_true_eq] at hc
    obtain ⟨⟨hsn, hq⟩, hbs⟩ := hc
    obtain ⟨hl5, h128⟩ := snOkFacts sn hsn
    cases kind <;>
      exact ⟨factoryEncode _ _ hl5 h128 rfl rfl
        (dispBskSimpleStatus _ sn bsSn q hq hbs) rfl, rfl⟩
  | bskSimpleMenu kind sn q =>
    simp only [Msg.canonical, Bool.and_eq_true, decide_eq_true_eq] at hc
    obtain ⟨hsn, hq⟩ := hc
    obtain ⟨hl5, h128⟩ := snOkFacts sn hsn
    cases kind <;>
      exact ⟨factoryEncode _ _ hl5 h128 rfl rfl
        (dispBskSimpleMenu _ sn q hq) rfl, rfl⟩
  | bskRemoveScroll kind sn q csn la ra =>
    simp only [Msg.canonical, Bool.and_eq_true, decide_eq_true_eq] at hc
    obtain ⟨⟨hsn, hq⟩, hcsn⟩ := hc
    obtain ⟨hl5, h128⟩ := snOkFacts sn hsn
    have hpl : (payloadOf (Msg.bskRemoveScroll kind sn q csn la ra)).length =
        payloadLengths (plcOf (Msg.bskRemoveScroll kind sn q csn la ra)) := by
      have hpay : payloadOf (Msg.bskRemoveScroll kind sn q csn la ra) =
          [0x00, 1] ++ packAscii csn la ra ++ [kind.event] := by
        cases kind <;> rfl
      rw [hpay]
      rfl
    cases kind <;>
      exact ⟨factoryEncode _ _ hl5 h128 rfl hpl
        (dispBskRemoveScroll _ sn csn q la ra hq hcsn) rfl, rfl⟩
  | bskEntrySensorUpdate sn q bsSn ese =>
    simp only [Msg.canonical, Bool.and_eq_true, Bool.or_eq_true,
      decide_eq_true_eq] at hc
    obtain ⟨⟨⟨hsn, hq⟩, hbs⟩, hese⟩ := hc
    obtain ⟨hl5, h128⟩ := snOkFacts sn hsn
    exact ⟨factoryEncode _ _ hl5 h128 rfl rfl
      (dispBskEntrySensor sn bsSn q ese hq hbs (by tauto)) rfl, rfl⟩
  | bskSensorErrorUpdate sn q bsSn n csn =>
    simp only [Msg.canonical, Bool.and_eq_true, Bool.not_eq_true',
      decide_eq_true_eq] at hc
    obtain ⟨⟨⟨⟨⟨hsn, hq⟩, hbs⟩, hn⟩, hcsn⟩, hhij⟩ := hc
    obtain ⟨hl5, h128⟩ := snOkFacts sn hsn
    have hpl : (payloadOf (Msg.bskSensorErrorUpdate sn q bsSn n csn)).length =
        payloadLengths (plcOf (Msg.bskSensorErrorUpdate sn q bsSn n csn)) :=
      rfl
    exact ⟨factoryEncode _ _ hl5 h128 rfl hpl
      (dispBskSensorError sn bsSn csn q n hq hbs hn hcsn hhij) rfl, rfl⟩

/-- C1 counterexample: (1) `Message.factory` accepts the keypad away
frame whose sequence byte is `0x07` (it validates the checksum against
the re-derived payload and ignores the byte's low nibble), and
re-encoding the parse gives `0x04` there, so `bytes(factory(b)) ≠ b`;
(2) the constructible Smoke-Detector modify request parses back as the
Glassbreak variant (both classes carry `event_type 0x6E` and Glassbreak
is scanned first), so `factory(bytes(v)) ≠ v`. -/
theorem claimC1_counterexample :
    (Message.factory [0xCC, 0x05, 0x22, 0x31, 0x32, 0x33, 0x34, 0x35,
        0x01, 0x07, 0x56, 0x5B] =
      Except.ok (Msg.kpSimple KpSimpleReq.away
        [0x31, 0x32, 0x33, 0x34, 0x35] 0) ∧
     Msg.encode (Msg.kpSimple KpSimpleReq.away
        [0x31, 0x32, 0x33, 0x34, 0x35] 0) ≠
      [0xCC, 0x05, 0x22, 0x31, 0x32, 0x33, 0x34, 0x35,
       0x01, 0x07, 0x56, 0x5B]) ∧
    Message.factory (Msg.encode (Msg.kpModify KpModifyKind.addSmokeDetector
        [0x31, 0x32, 0x33, 0x34, 0x35] 0 [0x41, 0x42, 0x43, 0x44, 0x45])) ≠
      Except.ok (Msg.kpModify KpModifyKind.addSmokeDetector
        [0x31, 0x32, 0x33, 0x34, 0x35] 0 [0x41, 0x42, 0x43, 0x44, 0x45]) := by
  refine ⟨⟨by decide, by decide⟩, by decide⟩

/-- C1 witness: the amended round-trip at the Smoke-Detector modify
request with serial "12345", sequence 2 and component serial "ABCDE" —
the parse comes back as the Glassbreak variant with identical bytes. -/
theorem claimC1_amended_witness :
    Msg.canonical (Msg.kpModify KpModifyKind.addSmokeDetector
        [0x31, 0x32, 0x33, 0x34, 0x35] 2 [0x41, 0x42, 0x43, 0x44, 0x45]) =
      true ∧
    (Message.factory (Msg.encode (Msg.kpModify KpModifyKind.addSmokeDetector
        [0x31, 0x32, 0x33, 0x34, 0x35] 2 [0x41, 0x42, 0x43, 0x44, 0x45])) =
      Except.ok (Msg.canonParse (Msg.kpModify KpModifyKind.addSmokeDetector
        [0x31, 0x32, 0x33, 0x34, 0x35] 2 [0x41, 0x42, 0x43, 0x44, 0x45])) ∧
     Msg.encode (Msg.canonParse (Msg.kpModify KpModifyKind.addSmokeDetector
        [0x31, 0x32, 0x33, 0x34, 0x35] 2 [0x41, 0x42, 0x43, 0x44, 0x45])) =
      Msg.encode (Msg.kpModify KpModifyKind.addSmokeDetector
        [0x31, 0x32, 0x33, 0x34, 0x35] 2 [0x41, 0x42, 0x43, 0x44, 0x45])) :=
  ⟨by decide, claimC1_amended _ (by decide)⟩

end C1
